import Mathlib

/-!
The resource adapters of terraform-provider-stackrox.

A shallow embedding of `internal/provider`: the five resource adapters
(generic image registry, kubernetes cluster, okta auth provider, policy,
splunk integration) and the CVSS comparator codec of the policy resource.

Conventions of the embedding:

* a Go `error` is `Option GoError` (`none` is `nil`);
* a Go pointer is an `Option` (`none` is `nil`), and dereferencing `nil`
  is the outcome `Exec.panics Panic.nilDereference`;
* the generated REST client is a record of functions, one per API method,
  giving the triple `(result, *http.Response, error)` the method returns;
* every adapter callback returns an `OpResult`: what it returned (or that it
  panicked), the `*schema.ResourceData` it leaves behind, and the API calls it
  issued, in order.
-/

namespace StackRox

/-! ## Go runtime values -/

/-- A Go `error` value that is not `nil`. -/
inductive GoError where
  /-- An error handed back by the REST client (transport or status error). -/
  | api (msg : String)
  /-- The value of `fmt.Errorf(format, args...)`, the arguments printed. -/
  | errorf (format : String) (args : List String)
  /-- The value of `fmt.Errorf(format, err)` for an error `err`. -/
  | wrap (format : String) (cause : GoError)
  /-- An error of package `strconv`: the function and the rejected input. -/
  | strconv (fn : String) (input : String)
  /-- An error of `fmt.Sscanf`, named by what the scanner met. -/
  | scan (cause : String)
  deriving DecidableEq, Repr

/-- What a Go `panic` was raised with. -/
inductive Panic where
  /-- A field of a `nil` pointer was read. -/
  | nilDereference
  /-- The statement `panic(err)`. -/
  | error (err : Option GoError)
  /-- An index beyond the length of a slice. -/
  | indexOutOfRange
  deriving DecidableEq, Repr

/-- Outcome of running a Go function body: it returns a value or panics. -/
inductive Exec (α : Type) where
  | returns (a : α)
  | panics (p : Panic)
  deriving DecidableEq, Repr

/-- The two fields of `*http.Response` the adapters read. -/
structure Response where
  StatusCode : Int
  Status : String
  deriving DecidableEq, Repr

/-- Constant `http.StatusOK`. -/
def StatusOK : Int := 200

/-- Constant `http.StatusNotFound`. -/
def StatusNotFound : Int := 404

/-- Constant `http.StatusInternalServerError`. -/
def StatusInternalServerError : Int := 500

/-- The triple `(result, resp, err)` returned by one client method. -/
structure ApiResult (α : Type) where
  result : α
  resp : Option Response
  err : Option GoError

/-- The status code of the response, when there is a response. -/
def ApiResult.status {α : Type} (r : ApiResult α) : Option Int :=
  r.resp.map Response.StatusCode

/-! ## Terraform resource data -/

/-- A value stored under one key of `schema.ResourceData`. -/
inductive TfValue where
  | str (s : String)
  | bool (b : Bool)
  | int (n : Int)
  | strings (l : List String)
  | blocks (l : List (List (String × String)))
  deriving DecidableEq, Repr

/-- The part of `*schema.ResourceData` the adapters use: the identifier, the
attributes as an association list in insertion order, the keys whose planned
value differs from the prior state (what `HasChanges` consults), and whether
the value was built as the zero value `&schema.ResourceData{}`, which has no
schema. -/
structure ResourceData where
  id : String
  attrs : List (String × TfValue)
  changes : List String
  schemaless : Bool
  deriving DecidableEq, Repr

/-- Replace the value under `key`, or append the pair when the key is new. -/
def setAttr (key : String) (v : TfValue) : List (String × TfValue) → List (String × TfValue)
  | [] => [(key, v)]
  | (k, w) :: rest => if k = key then (k, v) :: rest else (k, w) :: setAttr key v rest

/-- Method `data.SetId`. -/
def ResourceData.SetId (data : ResourceData) (id : String) : ResourceData :=
  { data with id := id }

/-- The error of `data.Set(key, value)`. The adapters pass keys of the
resource schema and values of the declared types, for which the SDK returns
nil when the data has a schema. On the zero value `&schema.ResourceData{}`
the SDK's `MapFieldWriter.WriteField` finds no schema for the key and
returns the error `Invalid address to set`. -/
def ResourceData.SetError (data : ResourceData) (key : String) : Option GoError :=
  if data.schemaless then some (GoError.errorf "Invalid address to set: %#v" [key]) else none

/-- The effect of `data.Set(key, value)` on the data: the value is stored
under the key, and nothing is written when the call returns an error. -/
def ResourceData.Set (data : ResourceData) (key : String) (v : TfValue) : ResourceData :=
  if data.schemaless then data else { data with attrs := setAttr key v data.attrs }

/-- Method `data.HasChanges`: whether one of the keys has a planned change. -/
def ResourceData.HasChanges (data : ResourceData) (keys : List String) : Bool :=
  keys.any (fun k => decide (k ∈ data.changes))

/-- Method `data.Get`: the stored value, if any. -/
def ResourceData.Get (data : ResourceData) (key : String) : Option TfValue :=
  (data.attrs.find? (fun p => p.1 = key)).map Prod.snd

/-- The expression `data.Get(key).(string)`; a missing key reads as the zero value. -/
def ResourceData.GetString (data : ResourceData) (key : String) : String :=
  match data.Get key with
  | some (TfValue.str s) => s
  | _ => ""

/-- The expression `data.Get(key).(bool)`; a missing key reads as `false`. -/
def ResourceData.GetBool (data : ResourceData) (key : String) : Bool :=
  match data.Get key with
  | some (TfValue.bool b) => b
  | _ => false

/-- The expression `data.Get(key).(int)`; a missing key reads as `0`. -/
def ResourceData.GetInt (data : ResourceData) (key : String) : Int :=
  match data.Get key with
  | some (TfValue.int n) => n
  | _ => 0

/-- The expression `data.Get(key).(*schema.Set).List()`: the elements of a
set of strings, in the order the SDK lists them. -/
def ResourceData.GetStrings (data : ResourceData) (key : String) : List String :=
  match data.Get key with
  | some (TfValue.strings l) => l
  | _ => []

/-- The expression `data.Get(key).([]interface{})` for a list of blocks,
each block a map from its keys to strings. -/
def ResourceData.GetBlocks (data : ResourceData) (key : String) :
    List (List (String × String)) :=
  match data.Get key with
  | some (TfValue.blocks l) => l
  | _ => []

/-! ## Remote entities (package `stackrox`, generated client)

The generated package is not among the sources. Each struct below lists the
fields the adapters read or write, with the types their uses fix: a field
built with `&T{...}` or compared with `nil` is a pointer, one built with
`T{...}` is a value, and the enum types are string types. -/

/-- Modelled from the spec: the generated declaration `type StorageComparator string`
is not among the sources; a comparator is the string naming it. -/
abbrev StorageComparator := String

/-- Modelled from the spec: generated constant, the comparator named EQUALS. -/
def STORAGECOMPARATOR_EQUALS : StorageComparator := "EQUALS"

/-- Modelled from the spec: generated constant, the comparator named GREATER_THAN. -/
def STORAGECOMPARATOR_GREATER_THAN : StorageComparator := "GREATER_THAN"

/-- Modelled from the spec: generated constant, the comparator named GREATER_THAN_OR_EQUALS. -/
def STORAGECOMPARATOR_GREATER_THAN_OR_EQUALS : StorageComparator := "GREATER_THAN_OR_EQUALS"

/-- Modelled from the spec: generated constant, the comparator named LESS_THAN. -/
def STORAGECOMPARATOR_LESS_THAN : StorageComparator := "LESS_THAN"

/-- Modelled from the spec: generated constant, the comparator named LESS_THAN_OR_EQUALS. -/
def STORAGECOMPARATOR_LESS_THAN_OR_EQUALS : StorageComparator := "LESS_THAN_OR_EQUALS"

/-- Struct `stackrox.StorageNumericalPolicy`. The `float32` field `Value` is
modelled by the rational number a finite float denotes. -/
structure StorageNumericalPolicy where
  Op : StorageComparator
  Value : ℚ
  deriving DecidableEq, Repr

/-- Struct `stackrox.StoragePolicyFields`: the two criteria the adapter maps. -/
structure StoragePolicyFields where
  Cvss : Option StorageNumericalPolicy
  Privileged : Option Bool
  deriving DecidableEq, Repr

/-- Struct `stackrox.StoragePolicy`; the enum-typed fields are strings. -/
structure StoragePolicy where
  Id : String
  Name : String
  Description : String
  Rationale : String
  Remediation : String
  Disabled : Bool
  Categories : List String
  LifecycleStages : List String
  Severity : String
  Notifiers : List String
  Fields : StoragePolicyFields
  deriving DecidableEq, Repr

/-- Struct `stackrox.StorageDockerConfig`. -/
structure StorageDockerConfig where
  Endpoint : String
  Username : String
  Password : String
  Insecure : Bool
  deriving DecidableEq, Repr

/-- Struct `stackrox.StorageImageIntegration`; `Docker` is a pointer. -/
structure StorageImageIntegration where
  Id : String
  Name : String
  Type_ : String
  Categories : List String
  Docker : Option StorageDockerConfig
  SkipTestIntegration : Bool
  deriving DecidableEq, Repr

/-- Struct `stackrox.StorageSplunk`. -/
structure StorageSplunk where
  HttpEndpoint : String
  HttpToken : String
  Insecure : Bool
  Truncate : String
  AuditLoggingEnabled : Bool
  deriving DecidableEq, Repr

/-- Struct `stackrox.StorageNotifier`; `Splunk` is a pointer. -/
structure StorageNotifier where
  Id : String
  Name : String
  UiEndpoint : String
  Type_ : String
  Splunk : Option StorageSplunk
  Enabled : Bool
  deriving DecidableEq, Repr

/-- Struct `stackrox.StorageCluster`. -/
structure StorageCluster where
  CentralApiEndpoint : String
  CollectionMethod : String
  CollectorImage : String
  Id : String
  MainImage : String
  Name : String
  RuntimeSupport : Bool
  Type_ : String
  deriving DecidableEq, Repr

/-- Struct `stackrox.V1ClusterResponse`; `Cluster` is taken to be a pointer,
like the nested messages `Docker` and `Splunk`. -/
structure V1ClusterResponse where
  Cluster : Option StorageCluster
  deriving DecidableEq, Repr

/-- Struct `stackrox.StorageAuthProvider`; `Config` is a `map[string]string`. -/
structure StorageAuthProvider where
  Id : String
  Name : String
  Type_ : String
  UiEndpoint : String
  Enabled : Bool
  Config : List (String × String)
  deriving DecidableEq, Repr

/-- Struct `stackrox.StorageGroupProperties`. -/
structure StorageGroupProperties where
  AuthProviderId : String
  Key : String
  Value : String
  deriving DecidableEq, Repr

/-- Struct `stackrox.StorageGroup`. -/
structure StorageGroup where
  RoleName : String
  Props : StorageGroupProperties
  deriving DecidableEq, Repr

/-- Struct `stackrox.V1GetImageIntegrationsResponse`. -/
structure V1GetImageIntegrationsResponse where
  Integrations : List StorageImageIntegration
  deriving DecidableEq, Repr

/-- Struct `stackrox.V1GroupBatchUpdateRequest`; the adapter fills
`RequiredGroups` only. -/
structure V1GroupBatchUpdateRequest where
  RequiredGroups : List StorageGroup
  deriving DecidableEq, Repr

/-- Struct `stackrox.StorageSensorUpgradeConfig`. -/
structure StorageSensorUpgradeConfig where
  EnableAutoUpgrade : Bool
  deriving DecidableEq, Repr

/-- Struct `stackrox.V1UpdateSensorUpgradeConfigRequest`; `Config` is a value. -/
structure V1UpdateSensorUpgradeConfigRequest where
  Config : StorageSensorUpgradeConfig
  deriving DecidableEq, Repr

/-- Indexing a `map[string]string`: the zero value when the key is missing. -/
def mapIndex (m : List (String × String)) (key : String) : String :=
  match m.find? (fun p => p.1 = key) with
  | some p => p.2
  | none => ""

/-! ## The client and the calls it receives -/

/-- One request issued through the client wrapper. -/
inductive ApiCall where
  | GetImageIntegration (id : String)
  | DeleteImageIntegration (id : String)
  | GetCluster (id : String)
  | DeleteCluster (id : String)
  | GetAuthProvider (id : String)
  | DeleteAuthProvider (id : String)
  | FindGroups (authProviderId : String)
  | GetPolicy (id : String)
  | DeletePolicy (id : String)
  | GetNotifier (id : String)
  | DeleteNotifier (id : String) (force : Bool)
  | PostImageIntegration (body : StorageImageIntegration)
  | GetImageIntegrations (name : String)
  | PutCluster (id : String) (body : StorageCluster)
  | PostAuthProvider (body : StorageAuthProvider)
  | PutAuthProvider (id : String) (body : StorageAuthProvider)
  | BatchUpdate (body : V1GroupBatchUpdateRequest)
  | PostPolicy (body : StoragePolicy)
  | PutPolicy (id : String) (body : StoragePolicy)
  | PostNotifier (body : StorageNotifier)
  | UpdateSensorUpgradeConfig (body : V1UpdateSensorUpgradeConfigRequest)
  deriving DecidableEq, Repr

/-- Struct `ClientWrap`: the endpoint and the credentials it was built with
and, for the embedded API client, the answers of the remote API method by
method. The result of a delete call and of the sensor upgrade update is a
value no caller looks at. -/
structure ClientWrap where
  endpoint : String
  username : String
  password : String
  GetImageIntegration : String → ApiResult StorageImageIntegration
  DeleteImageIntegration : String → ApiResult Unit
  GetCluster : String → ApiResult V1ClusterResponse
  DeleteCluster : String → ApiResult Unit
  GetAuthProvider : String → ApiResult StorageAuthProvider
  DeleteAuthProvider : String → ApiResult Unit
  FindGroups : String → ApiResult (List StorageGroup)
  GetPolicy : String → ApiResult StoragePolicy
  DeletePolicy : String → ApiResult Unit
  GetNotifier : String → ApiResult StorageNotifier
  DeleteNotifier : String → Bool → ApiResult Unit
  PostImageIntegration : StorageImageIntegration → ApiResult StorageImageIntegration
  GetImageIntegrations : String → ApiResult V1GetImageIntegrationsResponse
  PutCluster : String → StorageCluster → ApiResult V1ClusterResponse
  PostAuthProvider : StorageAuthProvider → ApiResult StorageAuthProvider
  PutAuthProvider : String → StorageAuthProvider → ApiResult StorageAuthProvider
  BatchUpdate : V1GroupBatchUpdateRequest → ApiResult Unit
  PostPolicy : StoragePolicy → ApiResult StoragePolicy
  PutPolicy : String → StoragePolicy → ApiResult StoragePolicy
  PostNotifier : StorageNotifier → ApiResult StorageNotifier
  UpdateSensorUpgradeConfig : V1UpdateSensorUpgradeConfigRequest → ApiResult Unit

/-- What one adapter callback did: the error it returned (or the panic),
the resource data afterwards, and the API calls issued. -/
structure OpResult where
  outcome : Exec (Option GoError)
  data : ResourceData
  calls : List ApiCall
  deriving DecidableEq

/-! ## Delete -/

/-- Function `stackRoxGenericImageRegistryDelete`. -/
def stackRoxGenericImageRegistryDelete (data : ResourceData) (cli : ClientWrap) : OpResult :=
  let r := cli.DeleteImageIntegration data.id
  let calls := [ApiCall.DeleteImageIntegration data.id]
  match r.resp with
  | some resp =>
    if resp.StatusCode = StatusOK ∨ resp.StatusCode = StatusNotFound then
      ⟨Exec.returns none, data, calls⟩
    else
      match r.err with
      | some e => ⟨Exec.returns (some e), data, calls⟩
      | none => ⟨Exec.returns (some (GoError.errorf resp.Status [])), data, calls⟩
  | none =>
    match r.err with
    | some e => ⟨Exec.returns (some e), data, calls⟩
    | none => ⟨Exec.panics Panic.nilDereference, data, calls⟩

/-- Function `stackRoxKubernetesClusterDelete`. -/
def stackRoxKubernetesClusterDelete (data : ResourceData) (cli : ClientWrap) : OpResult :=
  let r := cli.DeleteCluster data.id
  let calls := [ApiCall.DeleteCluster data.id]
  match r.resp with
  | some resp =>
    if resp.StatusCode = StatusOK ∨ resp.StatusCode = StatusInternalServerError then
      ⟨Exec.returns none, data, calls⟩
    else
      match r.err with
      | some e => ⟨Exec.returns (some e), data, calls⟩
      | none => ⟨Exec.returns (some (GoError.errorf resp.Status [])), data, calls⟩
  | none =>
    match r.err with
    | some e => ⟨Exec.returns (some e), data, calls⟩
    | none => ⟨Exec.panics Panic.nilDereference, data, calls⟩

/-- Function `stackRoxOktaAuthProviderDelete`. -/
def stackRoxOktaAuthProviderDelete (data : ResourceData) (cli : ClientWrap) : OpResult :=
  let r := cli.DeleteAuthProvider data.id
  ⟨Exec.returns r.err, data, [ApiCall.DeleteAuthProvider data.id]⟩

/-- Function `stackRoxPolicyDelete`. -/
def stackRoxPolicyDelete (data : ResourceData) (cli : ClientWrap) : OpResult :=
  let r := cli.DeletePolicy data.id
  let calls := [ApiCall.DeletePolicy data.id]
  match r.resp with
  | some resp =>
    if resp.StatusCode = StatusOK ∨ resp.StatusCode = StatusNotFound then
      ⟨Exec.returns none, data, calls⟩
    else
      match r.err with
      | some e => ⟨Exec.returns (some e), data, calls⟩
      | none => ⟨Exec.returns (some (GoError.errorf resp.Status [])), data, calls⟩
  | none =>
    match r.err with
    | some e => ⟨Exec.returns (some e), data, calls⟩
    | none => ⟨Exec.panics Panic.nilDereference, data, calls⟩

/-- Function `stackRoxSplunkIntegrationDelete`; the call is made with `Force: true`. -/
def stackRoxSplunkIntegrationDelete (data : ResourceData) (cli : ClientWrap) : OpResult :=
  let r := cli.DeleteNotifier data.id true
  let calls := [ApiCall.DeleteNotifier data.id true]
  match r.resp with
  | some resp =>
    if resp.StatusCode = StatusOK ∨ resp.StatusCode = StatusNotFound then
      ⟨Exec.returns none, data, calls⟩
    else
      match r.err with
      | some e => ⟨Exec.returns (some e), data, calls⟩
      | none => ⟨Exec.returns (some (GoError.errorf resp.Status [])), data, calls⟩
  | none =>
    match r.err with
    | some e => ⟨Exec.returns (some e), data, calls⟩
    | none => ⟨Exec.panics Panic.nilDereference, data, calls⟩

/-! ## Read -/

/-- Function `stackRoxGenericImageRegistrySetState`. It has no return value
and drops what `data.Set` returns; `src.Docker` is dereferenced after the
call that sets `name`. -/
def stackRoxGenericImageRegistrySetState (data : ResourceData) (src : StorageImageIntegration) :
    Exec Unit × ResourceData :=
  let d1 := data.Set "name" (TfValue.str src.Name)
  match src.Docker with
  | none => (Exec.panics Panic.nilDereference, d1)
  | some docker =>
    let d2 := d1.Set "endpoint" (TfValue.str docker.Endpoint)
    let d3 := d2.Set "username" (TfValue.str docker.Username)
    (Exec.returns (), d3)

/-- Function `stackRoxGenericImageRegistryRead`. The not-found test comes
after the two early returns. -/
def stackRoxGenericImageRegistryRead (data : ResourceData) (cli : ClientWrap) : OpResult :=
  let r := cli.GetImageIntegration data.id
  let calls := [ApiCall.GetImageIntegration data.id]
  match r.err with
  | some e => ⟨Exec.returns (some e), data, calls⟩
  | none =>
    match r.resp with
    | none => ⟨Exec.panics Panic.nilDereference, data, calls⟩
    | some resp =>
      if resp.StatusCode ≠ StatusOK then
        ⟨Exec.returns (some (GoError.errorf resp.Status [])), data, calls⟩
      else if resp.StatusCode = StatusNotFound then
        ⟨Exec.returns none, data.SetId "", calls⟩
      else
        match stackRoxGenericImageRegistrySetState data r.result with
        | (Exec.returns _, d) => ⟨Exec.returns none, d, calls⟩
        | (Exec.panics p, d) => ⟨Exec.panics p, d, calls⟩

/-- Function `stackRoxKubernetesClusterSetStateData`. Each `data.Set` is
followed by a return of its error; whether `data.Set` fails depends on the
data alone, so the first call decides. -/
def stackRoxKubernetesClusterSetStateData (data : ResourceData) (src : V1ClusterResponse) :
    Exec (Option GoError) × ResourceData :=
  match src.Cluster with
  | none => (Exec.panics Panic.nilDereference, data)
  | some c =>
    match data.SetError "central_api_endpoint" with
    | some err => (Exec.returns (some err), data)
    | none =>
    let d1 := data.Set "central_api_endpoint" (TfValue.str c.CentralApiEndpoint)
    let d2 := d1.Set "cluster_id" (TfValue.str c.Id)
    let d3 := d2.Set "collection_method" (TfValue.str c.CollectionMethod)
    let d4 := d3.Set "name" (TfValue.str c.Name)
    let d5 := d4.Set "runtime_support" (TfValue.bool c.RuntimeSupport)
    (Exec.returns none, d5)

/-- Function `stackRoxKubernetesClusterRead`; the entity is fetched by the
`cluster_id` attribute. -/
def stackRoxKubernetesClusterRead (data : ResourceData) (cli : ClientWrap) : OpResult :=
  let r := cli.GetCluster (data.GetString "cluster_id")
  let calls := [ApiCall.GetCluster (data.GetString "cluster_id")]
  if r.status = some StatusNotFound then
    ⟨Exec.returns none, data.SetId "", calls⟩
  else
    match r.err with
    | some e => ⟨Exec.returns (some e), data, calls⟩
    | none =>
      match stackRoxKubernetesClusterSetStateData data r.result with
      | (Exec.returns none, d) => ⟨Exec.returns none, d, calls⟩
      | (Exec.returns (some e), d) =>
        ⟨Exec.returns (some (GoError.wrap "error saving resource: %v" e)), d, calls⟩
      | (Exec.panics p, d) => ⟨Exec.panics p, d, calls⟩

/-- Function `stackRoxOktaAuthProviderSetState`. Each `data.Set` is followed
by a return of its error; the first call decides. -/
def stackRoxOktaAuthProviderSetState (data : ResourceData) (provider : StorageAuthProvider)
    (groups : List StorageGroup) : Exec (Option GoError) × ResourceData :=
  match data.SetError "name" with
  | some err => (Exec.returns (some err), data)
  | none =>
  let d1 := data.Set "name" (TfValue.str provider.Name)
  let d2 := d1.Set "type" (TfValue.str provider.Type_)
  let d3 := d2.Set "ui_endpoint" (TfValue.str provider.UiEndpoint)
  let d4 := d3.Set "enabled" (TfValue.bool provider.Enabled)
  let d5 := d4.Set "idp_metadata_url" (TfValue.str (mapIndex provider.Config "idp_metadata_url"))
  let d6 := d5.Set "sp_issuer" (TfValue.str (mapIndex provider.Config "sp_issuer"))
  let groupsData := groups.map
    (fun g => [("key", g.Props.Key), ("value", g.Props.Value), ("role", g.RoleName)])
  (Exec.returns none, d6.Set "group" (TfValue.blocks groupsData))

/-- Function `stackRoxOktaAuthProviderRead`; `resp.StatusCode` is read
without a nil test. -/
def stackRoxOktaAuthProviderRead (data : ResourceData) (cli : ClientWrap) : OpResult :=
  let r := cli.GetAuthProvider data.id
  let calls := [ApiCall.GetAuthProvider data.id]
  match r.resp with
  | none => ⟨Exec.panics Panic.nilDereference, data, calls⟩
  | some resp =>
    if resp.StatusCode = StatusNotFound then
      ⟨Exec.returns none, data.SetId "", calls⟩
    else
      match r.err with
      | some e => ⟨Exec.returns (some e), data, calls⟩
      | none =>
        let g := cli.FindGroups data.id
        let calls2 := calls ++ [ApiCall.FindGroups data.id]
        match g.err with
        | some e => ⟨Exec.returns (some e), data, calls2⟩
        | none =>
          match stackRoxOktaAuthProviderSetState data r.result g.result with
          | (Exec.returns e, d) => ⟨Exec.returns e, d, calls2⟩
          | (Exec.panics p, d) => ⟨Exec.panics p, d, calls2⟩

/-! ## Formatting and scanning (packages `fmt` and `strconv`) -/

/-- The decimal value of a run of digit characters, most significant first. -/
def parseDecimal (ds : List Char) : Nat :=
  ds.foldl (fun acc c => 10 * acc + (c.toNat - 48)) 0

/-- A decimal digit, `0` to `9`. -/
def isDecimalDigit (c : Char) : Bool :=
  decide (48 ≤ c.toNat) && decide (c.toNat ≤ 57)

/-- The verb `%d` applied to an integer: decimal digits, `-` before a negative. -/
def formatInt (n : Int) : String :=
  if n < 0 then "-" ++ Nat.repr n.natAbs else Nat.repr n.natAbs

/-- The call `fmt.Sprintf("%s %d", op, n)`. -/
def sprintfStringInt (op : String) (n : Int) : String :=
  op ++ " " ++ formatInt n

/-- Function `isSpace` of package `fmt`: the white-space table of the scanner. -/
def isSpace (c : Char) : Bool :=
  let r := c.toNat
  (decide (0x09 ≤ r) && decide (r ≤ 0x0d)) || r == 0x20 || r == 0x85 || r == 0xa0 ||
  r == 0x1680 || (decide (0x2000 ≤ r) && decide (r ≤ 0x200a)) ||
  (decide (0x2028 ≤ r) && decide (r ≤ 0x2029)) || r == 0x202f || r == 0x205f || r == 0x3000

/-- Method `ss.SkipSpace` as `Sscanf` runs it (a newline is not a space):
the input left, or the error on a newline. -/
def skipSpace : List Char → Except GoError (List Char)
  | [] => Except.ok []
  | c :: cs =>
    if c = '\r' ∧ cs.head? = some '\n' then skipSpace cs
    else if c = '\n' then Except.error (GoError.scan "newline")
    else if isSpace c then skipSpace cs
    else Except.ok (c :: cs)

/-- The space of the format `"%s %d"`, matched by `ss.advance`: end of input,
or one space that is not a newline followed by any spaces up to a newline. -/
def advanceSpace : List Char → Except GoError (List Char)
  | [] => Except.ok []
  | c :: cs =>
    if !isSpace c then Except.error (GoError.scan "no space where the format has one")
    else if c = '\n' then Except.error (GoError.scan "newline where the format has a space")
    else Except.ok (cs.dropWhile (fun x => isSpace x && x != '\n'))

/-- Method `ss.scanInt` for the verb `%d` and a 32-bit operand, after the
leading spaces: an optional sign, at least one digit, a value that fits. -/
def scanInt32 (input : List Char) : Except GoError Int :=
  match input with
  | [] => Except.error (GoError.scan "end of input")
  | c :: cs =>
    let neg := c == '-'
    let rest := if c = '+' ∨ c = '-' then cs else c :: cs
    match rest with
    | [] => Except.error (GoError.scan "end of input")
    | d :: _ =>
      if !isDecimalDigit d then Except.error (GoError.scan "no digit")
      else
        let digits := rest.takeWhile isDecimalDigit
        let tok := String.mk (if c = '+' ∨ c = '-' then c :: digits else digits)
        let v : Int := parseDecimal digits
        let i : Int := if neg then -v else v
        if i < -9223372036854775808 ∨ 9223372036854775807 < i then
          Except.error (GoError.strconv "ParseInt" tok)
        else if i < -2147483648 ∨ 2147483647 < i then
          Except.error (GoError.scan ("integer overflow on token " ++ tok))
        else Except.ok i

/-- The call `fmt.Sscanf(value, "%s %d", &op, &val)` with `val` an `int32`:
the two operands when both were scanned, the error otherwise. The verb `%s`
skips spaces and takes the run of characters up to the next space; the
scanner skips spaces again before each verb (the repeated calls of
`SkipSpace` are one call here). Input after the integer is not looked at. -/
def sscanfStringInt32 (value : String) : Except GoError (String × Int) :=
  match skipSpace value.data with
  | Except.error e => Except.error e
  | Except.ok [] => Except.error (GoError.scan "end of input")
  | Except.ok (c :: cs) =>
    let tok := (c :: cs).takeWhile (fun x => !isSpace x)
    let afterTok := (c :: cs).dropWhile (fun x => !isSpace x)
    match advanceSpace afterTok with
    | Except.error e => Except.error e
    | Except.ok afterSpace =>
      match skipSpace afterSpace with
      | Except.error e => Except.error e
      | Except.ok atInt =>
        match scanInt32 atInt with
        | Except.error e => Except.error e
        | Except.ok val => Except.ok (String.mk tok, val)

/-- Function `strconv.Atoi` on a 64-bit platform: an optional sign and
decimal digits only, the value within `int`. -/
def strconvAtoi (s : String) : Except GoError Int :=
  match s.data with
  | [] => Except.error (GoError.strconv "Atoi" s)
  | c :: cs =>
    let ds := if c = '+' ∨ c = '-' then cs else c :: cs
    if ds.isEmpty || !ds.all isDecimalDigit then Except.error (GoError.strconv "Atoi" s)
    else
      let v : Int := parseDecimal ds
      let i : Int := if c = '-' then -v else v
      if i < -9223372036854775808 ∨ 9223372036854775807 < i then
        Except.error (GoError.strconv "Atoi" s)
      else Except.ok i

/-- Function `strconv.FormatBool`. -/
def strconvFormatBool (b : Bool) : String :=
  if b then "true" else "false"

/-! ## Conversions between `int32` and `float32` -/

/-- How many low bits of a magnitude below `2 ^ (24 + fuel)` do not fit the
24-bit significand of a `float32`. -/
def significandShift : Nat → Nat → Nat
  | 0, _ => 0
  | fuel + 1, a => if a < 16777216 then 0 else 1 + significandShift fuel (a / 2)

/-- The magnitude `a` rounded to the nearest multiple of `2 ^ k`, ties to
the even multiple. -/
def roundToEven (a k : Nat) : Nat :=
  let q := a / 2 ^ k
  let r := a % 2 ^ k
  let up := decide (2 ^ k < 2 * r) || (decide (2 * r = 2 ^ k) && decide (q % 2 = 1))
  (if up then q + 1 else q) * 2 ^ k

/-- The conversion `float32(v)` of an `int32`: the nearest value with a
24-bit significand, ties to even. -/
def float32OfInt32 (v : Int) : ℚ :=
  let a := v.natAbs
  let m : Int := roundToEven a (significandShift 8 a)
  ((if v < 0 then -m else m : Int) : ℚ)

/-- The conversion `int32(f)` of a `float32`: truncation toward zero. Go
leaves the result open when the value does not fit; amd64 gives the least
`int32`, which is what is taken here. -/
def int32OfFloat32 (f : ℚ) : Int :=
  let t : Int := if 0 ≤ f then ⌊f⌋ else ⌈f⌉
  if -2147483648 ≤ t ∧ t ≤ 2147483647 then t else -2147483648

/-! ## The CVSS comparator codec of the policy resource -/

/-- Table `stackRoxCvssSymbolToOp`. -/
def stackRoxCvssSymbolToOp : List (String × StorageComparator) :=
  [("=", STORAGECOMPARATOR_EQUALS),
   (">", STORAGECOMPARATOR_GREATER_THAN),
   (">=", STORAGECOMPARATOR_GREATER_THAN_OR_EQUALS),
   ("<", STORAGECOMPARATOR_LESS_THAN),
   ("<=", STORAGECOMPARATOR_LESS_THAN_OR_EQUALS)]

/-- Table `stackRoxCvssOpsToSymbols`. -/
def stackRoxCvssOpsToSymbols : List (StorageComparator × String) :=
  [(STORAGECOMPARATOR_EQUALS, "="),
   (STORAGECOMPARATOR_GREATER_THAN, ">"),
   (STORAGECOMPARATOR_GREATER_THAN_OR_EQUALS, ">="),
   (STORAGECOMPARATOR_LESS_THAN, "<"),
   (STORAGECOMPARATOR_LESS_THAN_OR_EQUALS, "<=")]

/-- The two-valued map index `v, ok := m[key]`. -/
def mapLookup (m : List (String × String)) (key : String) : Option String :=
  (m.find? (fun p => p.1 = key)).map Prod.snd

/-- Function `stackRoxCvssOpFrom`: the symbol and a nil error, or the empty
string and an error when the comparator is not in the table. -/
def stackRoxCvssOpFrom (op : StorageComparator) : String × Option GoError :=
  match mapLookup stackRoxCvssOpsToSymbols op with
  | some result => (result, none)
  | none => ("", some (GoError.errorf "Invalid CVSS comparator" []))

/-- Function `stackRoxTerraformCvssFromMessage`. -/
def stackRoxTerraformCvssFromMessage (cvss : Option StorageNumericalPolicy) : Exec String :=
  match cvss with
  | none => Exec.returns ""
  | some c =>
    match stackRoxCvssOpFrom c.Op with
    | (_, some err) => Exec.panics (Panic.error (some err))
    | (op, none) => Exec.returns (sprintfStringInt op (int32OfFloat32 c.Value))

/-- Function `stackRoxCvssFromTerraform`; the argument is `nil` or a string.
The comparator is the one-valued map index, the zero value for a symbol
that is not in the table. -/
def stackRoxCvssFromTerraform (data : Option String) : Exec (Option StorageNumericalPolicy) :=
  match data with
  | none => Exec.returns none
  | some value =>
    if value = "" then Exec.returns none
    else
      match sscanfStringInt32 value with
      | Except.error err => Exec.panics (Panic.error (some err))
      | Except.ok (op, val) =>
        Exec.returns (some ⟨mapIndex stackRoxCvssSymbolToOp op, float32OfInt32 val⟩)

/-- Function `stackRoxTerraformBoolFromMessage`. -/
def stackRoxTerraformBoolFromMessage (p : Option Bool) : String :=
  match p with
  | none => ""
  | some b => strconvFormatBool b

/-! ## Read of the policy and of the splunk integration -/

/-- Function `stackRoxPolicySetState`; formatting the CVSS criterion may
panic. Each `data.Set` is followed by a return of its error; the first call
decides. -/
def stackRoxPolicySetState (data : ResourceData) (src : StoragePolicy) :
    Exec (Option GoError) × ResourceData :=
  match data.SetError "name" with
  | some err => (Exec.returns (some err), data)
  | none =>
  let d1 := data.Set "name" (TfValue.str src.Name)
  let d2 := d1.Set "description" (TfValue.str src.Description)
  let d3 := d2.Set "rationale" (TfValue.str src.Rationale)
  let d4 := d3.Set "remediation" (TfValue.str src.Remediation)
  let d5 := d4.Set "disabled" (TfValue.bool src.Disabled)
  let d6 := d5.Set "categories" (TfValue.strings src.Categories)
  let d7 := d6.Set "lifecycle_stages" (TfValue.strings src.LifecycleStages)
  let d8 := d7.Set "severity" (TfValue.str src.Severity)
  let d9 := d8.Set "notifiers" (TfValue.strings src.Notifiers)
  match stackRoxTerraformCvssFromMessage src.Fields.Cvss with
  | Exec.panics p => (Exec.panics p, d9)
  | Exec.returns cvss =>
    let criteria := [[("cvss", cvss),
      ("privileged", stackRoxTerraformBoolFromMessage src.Fields.Privileged)]]
    (Exec.returns none, d9.Set "policy_criteria" (TfValue.blocks criteria))

/-- Function `stackRoxPolicyRead`; `resp.StatusCode` is read without a nil test. -/
def stackRoxPolicyRead (data : ResourceData) (cli : ClientWrap) : OpResult :=
  let r := cli.GetPolicy data.id
  let calls := [ApiCall.GetPolicy data.id]
  match r.resp with
  | none => ⟨Exec.panics Panic.nilDereference, data, calls⟩
  | some resp =>
    if resp.StatusCode = StatusNotFound then
      ⟨Exec.returns none, data.SetId "", calls⟩
    else
      match r.err with
      | some e => ⟨Exec.returns (some e), data, calls⟩
      | none =>
        match stackRoxPolicySetState data r.result with
        | (Exec.returns e, d) => ⟨Exec.returns e, d, calls⟩
        | (Exec.panics p, d) => ⟨Exec.panics p, d, calls⟩

/-- Function `stackRoxSplunkIntegrationSetState`: the truncate string is
parsed before any field is written, and what `data.Set` returns is dropped. -/
def stackRoxSplunkIntegrationSetState (data : ResourceData) (src : StorageNotifier) :
    Exec (Option GoError) × ResourceData :=
  match src.Splunk with
  | none => (Exec.panics Panic.nilDereference, data)
  | some splunk =>
    match strconvAtoi splunk.Truncate with
    | Except.error err => (Exec.returns (some err), data)
    | Except.ok truncate =>
      let d1 := data.Set "name" (TfValue.str src.Name)
      let d2 := d1.Set "hec_endpoint" (TfValue.str splunk.HttpEndpoint)
      let d3 := d2.Set "truncate" (TfValue.int truncate)
      let d4 := d3.Set "ui_endpoint" (TfValue.str src.UiEndpoint)
      let d5 := d4.Set "audit_logging_enabled" (TfValue.bool splunk.AuditLoggingEnabled)
      (Exec.returns none, d5)

/-- Function `stackRoxSplunkIntegrationRead`: the client error is not
tested, and what `stackRoxSplunkIntegrationSetState` returns is dropped. -/
def stackRoxSplunkIntegrationRead (data : ResourceData) (cli : ClientWrap) : OpResult :=
  let r := cli.GetNotifier data.id
  let calls := [ApiCall.GetNotifier data.id]
  if r.status = some StatusNotFound then
    ⟨Exec.returns none, data.SetId "", calls⟩
  else
    match stackRoxSplunkIntegrationSetState data r.result with
    | (Exec.returns _, d) => ⟨Exec.returns none, d, calls⟩
    | (Exec.panics p, d) => ⟨Exec.panics p, d, calls⟩

/-! ## Fixtures: concrete clients and entities -/

/-- The zero value of `stackrox.StoragePolicy`. -/
def zeroStoragePolicy : StoragePolicy :=
  ⟨"", "", "", "", "", false, [], [], "", [], ⟨none, none⟩⟩

/-- The zero value of `stackrox.StorageImageIntegration`. -/
def zeroStorageImageIntegration : StorageImageIntegration :=
  ⟨"", "", "", [], none, false⟩

/-- The zero value of `stackrox.StorageNotifier`. -/
def zeroStorageNotifier : StorageNotifier :=
  ⟨"", "", "", "", none, false⟩

/-- The zero value of `stackrox.StorageAuthProvider`. -/
def zeroStorageAuthProvider : StorageAuthProvider :=
  ⟨"", "", "", "", false, []⟩

/-- A client every method of which hands back the zero result together
with the given response and error. -/
def uniformClient (resp : Option Response) (err : Option GoError) : ClientWrap where
  endpoint := "https://central.example"
  username := "admin"
  password := "letmein"
  GetImageIntegration := fun _ => ⟨zeroStorageImageIntegration, resp, err⟩
  DeleteImageIntegration := fun _ => ⟨(), resp, err⟩
  GetCluster := fun _ => ⟨⟨none⟩, resp, err⟩
  DeleteCluster := fun _ => ⟨(), resp, err⟩
  GetAuthProvider := fun _ => ⟨zeroStorageAuthProvider, resp, err⟩
  DeleteAuthProvider := fun _ => ⟨(), resp, err⟩
  FindGroups := fun _ => ⟨[], resp, err⟩
  GetPolicy := fun _ => ⟨zeroStoragePolicy, resp, err⟩
  DeletePolicy := fun _ => ⟨(), resp, err⟩
  GetNotifier := fun _ => ⟨zeroStorageNotifier, resp, err⟩
  DeleteNotifier := fun _ _ => ⟨(), resp, err⟩
  PostImageIntegration := fun _ => ⟨zeroStorageImageIntegration, resp, err⟩
  GetImageIntegrations := fun _ => ⟨⟨[]⟩, resp, err⟩
  PutCluster := fun _ _ => ⟨⟨none⟩, resp, err⟩
  PostAuthProvider := fun _ => ⟨zeroStorageAuthProvider, resp, err⟩
  PutAuthProvider := fun _ _ => ⟨zeroStorageAuthProvider, resp, err⟩
  BatchUpdate := fun _ => ⟨(), resp, err⟩
  PostPolicy := fun _ => ⟨zeroStoragePolicy, resp, err⟩
  PutPolicy := fun _ _ => ⟨zeroStoragePolicy, resp, err⟩
  PostNotifier := fun _ => ⟨zeroStorageNotifier, resp, err⟩
  UpdateSensorUpgradeConfig := fun _ => ⟨(), resp, err⟩

/-- A remote that answers every request with 404 and the client's status error. -/
def notFoundClient : ClientWrap :=
  uniformClient (some ⟨404, "404 Not Found"⟩) (some (GoError.api "404 Not Found"))

/-- A remote that answers every request with 500 and the client's status error. -/
def internalErrorClient : ClientWrap :=
  uniformClient (some ⟨500, "500 Internal Server Error"⟩)
    (some (GoError.api "500 Internal Server Error"))

/-- A remote that answers every request with 503, the client reporting no error. -/
def unavailableClient : ClientWrap :=
  uniformClient (some ⟨503, "503 Service Unavailable"⟩) none

/-- A remote that answers every request with 200 and no error. -/
def okClient : ClientWrap :=
  uniformClient (some ⟨200, "200 OK"⟩) none

/-- A remote that cannot be reached: no response, a transport error. -/
def offlineClient : ClientWrap :=
  uniformClient none (some (GoError.api "dial tcp: connection refused"))

/-- A remote on which the identifier is absent: 404 for registry, policy
and notifier deletes, 500 for cluster deletes, success for auth provider
deletes. -/
def absentRemoteClient : ClientWrap :=
  { notFoundClient with
    DeleteCluster := internalErrorClient.DeleteCluster
    DeleteAuthProvider := okClient.DeleteAuthProvider }

/-- A remote whose notifier lookup answers 500 with the client's status
error and, beside it, a decoded notifier. -/
def staleNotifierClient : ClientWrap :=
  { internalErrorClient with
    GetNotifier := fun _ =>
      ⟨⟨"n1", "remote-name", "https://ui", "splunk",
          some ⟨"https://hec", "", false, "10000", true⟩, true⟩,
        some ⟨500, "500 Internal Server Error"⟩,
        some (GoError.api "500 Internal Server Error")⟩ }

/-- Resource data of a kubernetes cluster: the identifier and the
`cluster_id` attribute Create sets to the same value. -/
def clusterData (id : String) : ResourceData :=
  ⟨id, [("cluster_id", TfValue.str id)], [], false⟩

/-- Resource data holding only an identifier. -/
def bareData (id : String) : ResourceData :=
  ⟨id, [], [], false⟩

/-! ## The policy resource: payload, Create, Update, Import -/

/-- Modelled from the spec: generated constants of `type StorageSeverity string`,
each severity being the string naming it. -/
def STORAGESEVERITY_LOW_SEVERITY : String := "LOW_SEVERITY"

/-- Modelled from the spec: generated constant, the severity named MEDIUM_SEVERITY. -/
def STORAGESEVERITY_MEDIUM_SEVERITY : String := "MEDIUM_SEVERITY"

/-- Modelled from the spec: generated constant, the severity named HIGH_SEVERITY. -/
def STORAGESEVERITY_HIGH_SEVERITY : String := "HIGH_SEVERITY"

/-- Modelled from the spec: generated constant, the severity named CRITICAL_SEVERITY. -/
def STORAGESEVERITY_CRITICAL_SEVERITY : String := "CRITICAL_SEVERITY"

/-- Modelled from the spec: generated constants of `type StorageLifecycleStage string`,
each stage being the string naming it. -/
def STORAGELIFECYCLESTAGE_BUILD : String := "BUILD"

/-- Modelled from the spec: generated constant, the lifecycle stage named DEPLOY. -/
def STORAGELIFECYCLESTAGE_DEPLOY : String := "DEPLOY"

/-- Modelled from the spec: generated constant, the lifecycle stage named RUNTIME. -/
def STORAGELIFECYCLESTAGE_RUNTIME : String := "RUNTIME"

/-- Table `severityMap`. -/
def severityMap : List (String × String) :=
  [("LOW_SEVERITY", STORAGESEVERITY_LOW_SEVERITY),
   ("MEDIUM_SEVERITY", STORAGESEVERITY_MEDIUM_SEVERITY),
   ("HIGH_SEVERITY", STORAGESEVERITY_HIGH_SEVERITY),
   ("CRITICAL_SEVERITY", STORAGESEVERITY_CRITICAL_SEVERITY)]

/-- Function `severityFrom`. -/
def severityFrom (s : String) : String × Option GoError :=
  match mapLookup severityMap s with
  | some result => (result, none)
  | none => ("", some (GoError.errorf "Unsupported severity" []))

/-- Table `lifecycleStagesMap`. -/
def lifecycleStagesMap : List (String × String) :=
  [("BUILD", STORAGELIFECYCLESTAGE_BUILD),
   ("DEPLOY", STORAGELIFECYCLESTAGE_DEPLOY),
   ("RUNTIME", STORAGELIFECYCLESTAGE_RUNTIME)]

/-- Function `categoriesFrom`; its error is always nil. -/
def categoriesFrom (l : List String) : List String × Option GoError :=
  (l, none)

/-- The loop of `lifecycleStagesFrom`: `result` holds the stages mapped so far. -/
def lifecycleStagesLoop : List String → List String → List String × Option GoError
  | [], result => (result, none)
  | s :: rest, result =>
    match mapLookup lifecycleStagesMap s with
    | some r => lifecycleStagesLoop rest (result ++ [r])
    | none => ([], some (GoError.errorf "Unsupported lifecyle stage" []))

/-- Function `lifecycleStagesFrom`. -/
def lifecycleStagesFrom (l : List String) : List String × Option GoError :=
  lifecycleStagesLoop l []

/-- Function `notifiersFrom`. -/
def notifiersFrom (l : List String) : List String :=
  l

/-- Function `strconv.ParseBool`. -/
def strconvParseBool (s : String) : Except GoError Bool :=
  if s = "1" ∨ s = "t" ∨ s = "T" ∨ s = "TRUE" ∨ s = "true" ∨ s = "True" then Except.ok true
  else if s = "0" ∨ s = "f" ∨ s = "F" ∨ s = "FALSE" ∨ s = "false" ∨ s = "False" then
    Except.ok false
  else Except.error (GoError.strconv "ParseBool" s)

/-- Function `stackRoxBoolPtrFromTerraform`; the argument is `nil` or a string. -/
def stackRoxBoolPtrFromTerraform (data : Option String) : Exec (Option Bool) :=
  match data with
  | none => Exec.returns none
  | some value =>
    if value = "" then Exec.returns none
    else
      match strconvParseBool value with
      | Except.error err => Exec.panics (Panic.error (some err))
      | Except.ok boolval => Exec.returns (some boolval)

/-- Function `stackRoxPolicyMessageFrom`: the payload and a nil error, or
the zero payload (the named result is still unset) and the error of the
first failing conversion. The first
block of `policy_criteria` is indexed without a length test, and the two
criteria conversions panic on a string they cannot parse. -/
def stackRoxPolicyMessageFrom (data : ResourceData) : Exec (StoragePolicy × Option GoError) :=
  match categoriesFrom (data.GetStrings "categories") with
  | (_, some err) => Exec.returns (zeroStoragePolicy, some err)
  | (categories, none) =>
    match lifecycleStagesFrom (data.GetStrings "lifecycle_stages") with
    | (_, some err) => Exec.returns (zeroStoragePolicy, some err)
    | (lifecycleStages, none) =>
      match severityFrom (data.GetString "severity") with
      | (_, some err) => Exec.returns (zeroStoragePolicy, some err)
      | (severity, none) =>
        let notifiers := notifiersFrom (data.GetStrings "notifiers")
        match data.GetBlocks "policy_criteria" with
        | [] => Exec.panics Panic.indexOutOfRange
        | criteria :: _ =>
          match stackRoxCvssFromTerraform (mapLookup criteria "cvss") with
          | Exec.panics p => Exec.panics p
          | Exec.returns cvss =>
            match stackRoxBoolPtrFromTerraform (mapLookup criteria "privileged") with
            | Exec.panics p => Exec.panics p
            | Exec.returns privileged =>
              Exec.returns
                ({ Id := ""
                   Name := data.GetString "name"
                   Description := data.GetString "description"
                   Rationale := data.GetString "rationale"
                   Remediation := data.GetString "remediation"
                   Disabled := data.GetBool "disabled"
                   Categories := categories
                   LifecycleStages := lifecycleStages
                   Severity := severity
                   Notifiers := notifiers
                   Fields := ⟨cvss, privileged⟩ }, none)

/-- Function `stackRoxPolicyCreate`. -/
def stackRoxPolicyCreate (data : ResourceData) (cli : ClientWrap) : OpResult :=
  match stackRoxPolicyMessageFrom data with
  | Exec.panics p => ⟨Exec.panics p, data, []⟩
  | Exec.returns (_, some err) => ⟨Exec.returns (some err), data, []⟩
  | Exec.returns (message, none) =>
    let r := cli.PostPolicy message
    let calls := [ApiCall.PostPolicy message]
    match r.err with
    | some e => ⟨Exec.returns (some e), data, calls⟩
    | none =>
      let rd := stackRoxPolicyRead (data.SetId r.result.Id) cli
      ⟨rd.outcome, rd.data, calls ++ rd.calls⟩

/-- The keys `stackRoxPolicyUpdate` passes to `data.HasChanges`. -/
def policyTrackedKeys : List String :=
  ["name", "description", "rationale", "remediation", "disabled", "categories",
   "lifecycle_stages", "severity", "notifiers", "policy_criteria"]

/-- Function `stackRoxPolicyUpdate`. -/
def stackRoxPolicyUpdate (data : ResourceData) (cli : ClientWrap) : OpResult :=
  if !data.HasChanges policyTrackedKeys then stackRoxPolicyRead data cli
  else
    match stackRoxPolicyMessageFrom data with
    | Exec.panics p => ⟨Exec.panics p, data, []⟩
    | Exec.returns (_, some err) => ⟨Exec.returns (some err), data, []⟩
    | Exec.returns (message, none) =>
      let r := cli.PutPolicy data.id message
      let calls := [ApiCall.PutPolicy data.id message]
      match r.err with
      | some e => ⟨Exec.returns (some e), data, calls⟩
      | none =>
        let rd := stackRoxPolicyRead data cli
        ⟨rd.outcome, rd.data, calls ++ rd.calls⟩

/-- What an importer did: the resources and the error it returned (a nil
slice is the empty list) or the panic, the incoming resource data
afterwards, and the API calls issued. -/
structure ImportResult where
  outcome : Exec (List ResourceData × Option GoError)
  data : ResourceData
  calls : List ApiCall
  deriving DecidableEq

/-- Function `stackRoxPolicyImportState`. -/
def stackRoxPolicyImportState (data : ResourceData) (cli : ClientWrap) : ImportResult :=
  let r := cli.GetPolicy data.id
  let calls := [ApiCall.GetPolicy data.id]
  match r.err with
  | some e => ⟨Exec.returns ([], some e), data, calls⟩
  | none =>
    match r.resp with
    | none => ⟨Exec.panics Panic.nilDereference, data, calls⟩
    | some resp =>
      if resp.StatusCode ≠ StatusOK then
        ⟨Exec.returns ([], some (GoError.errorf resp.Status [])), data, calls⟩
      else
        match stackRoxPolicySetState data r.result with
        | (Exec.panics p, d) => ⟨Exec.panics p, d, calls⟩
        | (Exec.returns (some err), d) =>
          ⟨Exec.returns ([], some (GoError.wrap "error importing resource: %v" err)), d, calls⟩
        | (Exec.returns none, d) => ⟨Exec.returns ([d], none), d, calls⟩

/-! ## The generic image registry: Create and Import -/

/-- Modelled from the spec: generated constant of
`type StorageImageIntegrationCategory string`, the category named REGISTRY. -/
def STORAGEIMAGEINTEGRATIONCATEGORY_REGISTRY : String := "REGISTRY"

/-- The payload `stackRoxGenericImageRegistryCreate` builds from the data. -/
def genericImageRegistryMessage (data : ResourceData) : StorageImageIntegration :=
  { Id := ""
    Name := data.GetString "name"
    Type_ := "docker"
    Categories := [STORAGEIMAGEINTEGRATIONCATEGORY_REGISTRY]
    Docker := some
      { Endpoint := data.GetString "endpoint"
        Username := data.GetString "username"
        Password := data.GetString "password"
        Insecure := false }
    SkipTestIntegration := true }

/-- Function `stackRoxGenericImageRegistryCreate`. -/
def stackRoxGenericImageRegistryCreate (data : ResourceData) (cli : ClientWrap) : OpResult :=
  let message := genericImageRegistryMessage data
  let r := cli.PostImageIntegration message
  let calls := [ApiCall.PostImageIntegration message]
  match r.err with
  | some e => ⟨Exec.returns (some e), data, calls⟩
  | none =>
    let rd := stackRoxGenericImageRegistryRead (data.SetId r.result.Id) cli
    ⟨rd.outcome, rd.data, calls ++ rd.calls⟩

/-- The value `&schema.ResourceData{}`: no identifier, no attribute, no schema. -/
def zeroResourceData : ResourceData :=
  ⟨"", [], [], true⟩

/-- Function `stackRoxGenericImageRegistryImportState`: the lookup is by
name, the incoming identifier. The resource it returns is built from the
zero `ResourceData`. -/
def stackRoxGenericImageRegistryImportState (data : ResourceData) (cli : ClientWrap) :
    ImportResult :=
  let r := cli.GetImageIntegrations data.id
  let calls := [ApiCall.GetImageIntegrations data.id]
  match r.err with
  | some e => ⟨Exec.returns ([], some e), data, calls⟩
  | none =>
    match r.resp with
    | none => ⟨Exec.panics Panic.nilDereference, data, calls⟩
    | some resp =>
      if resp.StatusCode ≠ StatusOK then
        ⟨Exec.returns ([], some (GoError.errorf resp.Status [])), data, calls⟩
      else
        match r.result.Integrations with
        | [integration] =>
          let newData := zeroResourceData.SetId integration.Id
          match stackRoxGenericImageRegistrySetState newData integration with
          | (Exec.panics p, _) => ⟨Exec.panics p, data, calls⟩
          | (Exec.returns _, d) =>
            let d2 := d.Set "password" (TfValue.str (data.GetString "password"))
            ⟨Exec.returns ([d2], none), data, calls⟩
        | integrations =>
          ⟨Exec.returns ([], some (GoError.errorf "invalid number of integrations: %d"
            [toString integrations.length])), data, calls⟩

/-! ## The splunk integration: Create and Import -/

/-- The payload `stackRoxSplunkIntegrationCreate` builds from the data;
`truncate` is printed by `strconv.Itoa`. -/
def splunkIntegrationMessage (data : ResourceData) : StorageNotifier :=
  { Id := ""
    Name := data.GetString "name"
    UiEndpoint := data.GetString "ui_endpoint"
    Type_ := "splunk"
    Splunk := some
      { HttpEndpoint := data.GetString "hec_endpoint"
        HttpToken := data.GetString "hec_token"
        Insecure := false
        Truncate := formatInt (data.GetInt "truncate")
        AuditLoggingEnabled := data.GetBool "audit_logging_enabled" }
    Enabled := true }

/-- Function `stackRoxSplunkIntegrationCreate`. -/
def stackRoxSplunkIntegrationCreate (data : ResourceData) (cli : ClientWrap) : OpResult :=
  let message := splunkIntegrationMessage data
  let r := cli.PostNotifier message
  let calls := [ApiCall.PostNotifier message]
  match r.err with
  | some e => ⟨Exec.returns (some e), data, calls⟩
  | none =>
    let rd := stackRoxSplunkIntegrationRead (data.SetId r.result.Id) cli
    ⟨rd.outcome, rd.data, calls ++ rd.calls⟩

/-- Function `stackRoxSplunkIntegrationImportState`. The resource it returns
is built from the zero `ResourceData`; nothing is read from the incoming
data but the identifier. -/
def stackRoxSplunkIntegrationImportState (data : ResourceData) (cli : ClientWrap) :
    ImportResult :=
  let r := cli.GetNotifier data.id
  let calls := [ApiCall.GetNotifier data.id]
  match r.err with
  | some e => ⟨Exec.returns ([], some e), data, calls⟩
  | none =>
    match r.resp with
    | none => ⟨Exec.panics Panic.nilDereference, data, calls⟩
    | some resp =>
      if resp.StatusCode ≠ StatusOK then
        ⟨Exec.returns ([], some (GoError.errorf resp.Status [])), data, calls⟩
      else
        let newData := zeroResourceData.SetId data.id
        match stackRoxSplunkIntegrationSetState newData r.result with
        | (Exec.panics p, _) => ⟨Exec.panics p, data, calls⟩
        | (Exec.returns (some err), _) => ⟨Exec.returns ([], some err), data, calls⟩
        | (Exec.returns none, d) => ⟨Exec.returns ([d], none), data, calls⟩

/-! ## The kubernetes cluster: Update and Import -/

/-- The payload `stackRoxKubernetesClusterUpdate` builds from the data. -/
def kubernetesClusterMessage (data : ResourceData) : StorageCluster :=
  { CentralApiEndpoint := data.GetString "central_api_endpoint"
    CollectionMethod := data.GetString "collection_method"
    CollectorImage := "cloudrepo-docker.jfrog.io/kub/collector.stackrox.io/collector"
    Id := data.GetString "cluster_id"
    MainImage := "cloudrepo-docker.jfrog.io/kub/stackrox.io/main"
    Name := data.GetString "name"
    RuntimeSupport := data.GetBool "runtime_support"
    Type_ := "KUBERNETES_CLUSTER" }

/-- The keys `stackRoxKubernetesClusterUpdate` passes to `data.HasChanges`. -/
def clusterTrackedKeys : List String :=
  ["name", "central_api_endpoint", "collection_method", "runtime_support"]

/-- Function `stackRoxKubernetesClusterUpdate`. -/
def stackRoxKubernetesClusterUpdate (data : ResourceData) (cli : ClientWrap) : OpResult :=
  if !data.HasChanges clusterTrackedKeys then stackRoxKubernetesClusterRead data cli
  else
    let clusterID := data.GetString "cluster_id"
    let message := kubernetesClusterMessage data
    let r := cli.PutCluster clusterID message
    let calls := [ApiCall.PutCluster clusterID message]
    match r.err with
    | some e => ⟨Exec.returns (some e), data, calls⟩
    | none =>
      let rd := stackRoxKubernetesClusterRead data cli
      ⟨rd.outcome, rd.data, calls ++ rd.calls⟩

/-- Function `stackRoxKubernetesClusterImportState`; the response status is
not looked at. -/
def stackRoxKubernetesClusterImportState (data : ResourceData) (cli : ClientWrap) :
    ImportResult :=
  let r := cli.GetCluster data.id
  let calls := [ApiCall.GetCluster data.id]
  match r.err with
  | some e => ⟨Exec.returns ([], some e), data, calls⟩
  | none =>
    match stackRoxKubernetesClusterSetStateData data r.result with
    | (Exec.panics p, d) => ⟨Exec.panics p, d, calls⟩
    | (Exec.returns (some err), d) =>
      ⟨Exec.returns ([], some (GoError.wrap "error importing resource: %v" err)), d, calls⟩
    | (Exec.returns none, d) => ⟨Exec.returns ([d], none), d, calls⟩

/-! ## The okta auth provider: Create, Update and Import -/

/-- The keys the auth provider's Create and Update pass to `data.HasChanges`. -/
def authProviderTrackedKeys : List String :=
  ["name", "type", "ui_endpoint", "enabled", "idp_metadata_url", "sp_issuer"]

/-- The payload the auth provider's Create and Update build from the data. -/
def authProviderMessage (data : ResourceData) : StorageAuthProvider :=
  { Id := ""
    Name := data.GetString "name"
    Type_ := data.GetString "type"
    UiEndpoint := data.GetString "ui_endpoint"
    Enabled := data.GetBool "enabled"
    Config := [("idp_metadata_url", data.GetString "idp_metadata_url"),
      ("sp_issuer", data.GetString "sp_issuer")] }

/-- The loop that builds `requiredGroups` from the `group` blocks; the SDK
gives every block all three of its keys. -/
def requiredGroupsFrom (data : ResourceData) : List StorageGroup :=
  (data.GetBlocks "group").map (fun group =>
    { RoleName := mapIndex group "role"
      Props :=
        { AuthProviderId := data.id
          Key := mapIndex group "key"
          Value := mapIndex group "value" } })

/-- The second half of the auth provider's Create and Update: the batch
update of the groups, then Read. `calls` are the calls issued before. -/
def authProviderSyncGroups (data : ResourceData) (cli : ClientWrap) (calls : List ApiCall) :
    OpResult :=
  let message : V1GroupBatchUpdateRequest := ⟨requiredGroupsFrom data⟩
  let r := cli.BatchUpdate message
  let calls2 := calls ++ [ApiCall.BatchUpdate message]
  match r.err with
  | some e => ⟨Exec.returns (some e), data, calls2⟩
  | none =>
    let rd := stackRoxOktaAuthProviderRead data cli
    ⟨rd.outcome, rd.data, calls2 ++ rd.calls⟩

/-- Function `stackRoxOktaAuthProviderCreate`. The calls of `data.Partial`
bear on what the SDK persists, not on the data the callback sees. -/
def stackRoxOktaAuthProviderCreate (data : ResourceData) (cli : ClientWrap) : OpResult :=
  if data.HasChanges authProviderTrackedKeys then
    let message := authProviderMessage data
    let r := cli.PostAuthProvider message
    let calls := [ApiCall.PostAuthProvider message]
    match r.err with
    | some e => ⟨Exec.returns (some e), data, calls⟩
    | none => authProviderSyncGroups (data.SetId r.result.Id) cli calls
  else authProviderSyncGroups data cli []

/-- Function `stackRoxOktaAuthProviderUpdate`. -/
def stackRoxOktaAuthProviderUpdate (data : ResourceData) (cli : ClientWrap) : OpResult :=
  if data.HasChanges authProviderTrackedKeys then
    let message := authProviderMessage data
    let r := cli.PutAuthProvider data.id message
    let calls := [ApiCall.PutAuthProvider data.id message]
    match r.err with
    | some e => ⟨Exec.returns (some e), data, calls⟩
    | none => authProviderSyncGroups (data.SetId r.result.Id) cli calls
  else authProviderSyncGroups data cli []

/-- Function `stackRoxOktaAuthProviderImportState`: a 404 answer clears the
identifier and returns neither a resource nor an error. -/
def stackRoxOktaAuthProviderImportState (data : ResourceData) (cli : ClientWrap) :
    ImportResult :=
  let r := cli.GetAuthProvider data.id
  let calls := [ApiCall.GetAuthProvider data.id]
  if r.status = some StatusNotFound then
    ⟨Exec.returns ([], none), data.SetId "", calls⟩
  else
    match r.err with
    | some e => ⟨Exec.returns ([], some e), data, calls⟩
    | none =>
      let g := cli.FindGroups data.id
      let calls2 := calls ++ [ApiCall.FindGroups data.id]
      match g.err with
      | some e => ⟨Exec.returns ([], some e), data, calls2⟩
      | none =>
        match stackRoxOktaAuthProviderSetState data r.result g.result with
        | (Exec.panics p, d) => ⟨Exec.panics p, d, calls2⟩
        | (Exec.returns (some err), d) =>
          ⟨Exec.returns ([], some (GoError.wrap "error importing resource: %v" err)), d,
            calls2⟩
        | (Exec.returns none, d) => ⟨Exec.returns ([d], none), d, calls2⟩

/-! ## Resource schemas and their validators -/

/-- The value types of `schema.ValueType` the two schemas use. -/
inductive ValueType where
  | TypeBool
  | TypeString
  | TypeList
  | TypeSet
  deriving DecidableEq, Repr

/-- The attributes of `schema.Schema` that decide what a field accepts. A
validator takes the value and the key and returns the errors it found. -/
structure Schema where
  Type_ : ValueType
  Required : Bool
  Optional : Bool
  MaxItems : Nat
  ValidateFunc : Option (String → String → List GoError)

/-- The validator `validation.StringInSlice(valid, false)`: no error exactly
when the value is one of `valid`, compared as is. -/
def validationStringInSlice (valid : List String) (v : String) (k : String) : List GoError :=
  if valid.any (fun str => decide (v = str)) then []
  else [GoError.errorf "expected %s to be one of %v, got %s"
    [k, "[" ++ " ".intercalate valid ++ "]", v]]

/-- A hexadecimal digit, the class `[a-fA-F0-9]`. -/
def isHexDigit (c : Char) : Bool :=
  (decide ('a'.toNat ≤ c.toNat) && decide (c.toNat ≤ 'f'.toNat)) ||
  (decide ('A'.toNat ≤ c.toNat) && decide (c.toNat ≤ 'F'.toNat)) ||
  (decide ('0'.toNat ≤ c.toNat) && decide (c.toNat ≤ '9'.toNat))

/-- Exactly `n` hexadecimal digits at the head of the input: what follows them. -/
def dropHex : Nat → List Char → Option (List Char)
  | 0, l => some l
  | _ + 1, [] => none
  | n + 1, c :: cs => if isHexDigit c then dropHex n cs else none

/-- A hyphen at the head of the input: what follows it. -/
def dropHyphen : List Char → Option (List Char)
  | c :: cs => if c = '-' then some cs else none
  | [] => none

/-- Whether the input starts with a match of the pattern of `cluster_id`:
groups of 8, 4, 4, 4 and 12 hexadecimal digits with hyphens between them. -/
def uuidAtHead (l : List Char) : Bool :=
  ((((((((dropHex 8 l).bind dropHyphen).bind (dropHex 4)).bind dropHyphen).bind
    (dropHex 4)).bind dropHyphen).bind (dropHex 4)).bind dropHyphen).bind (dropHex 12)
    |>.isSome

/-- Method `MatchString` of the compiled pattern of `cluster_id`. The
pattern has no anchors, so a match may start anywhere in the input. -/
def uuidMatchString : List Char → Bool
  | [] => false
  | c :: cs => uuidAtHead (c :: cs) || uuidMatchString cs

/-- The validator `validation.StringMatch(pattern, "not a UUID")` of `cluster_id`. -/
def validationStringMatchUuid (v : String) (k : String) : List GoError :=
  if uuidMatchString v.data then []
  else [GoError.errorf "invalid value for %s (%s)" [k, "not a UUID"]]

/-- Modelled from the spec: generated constants of
`type StorageCollectionMethod string`, each method being the string naming it. -/
def STORAGECOLLECTIONMETHOD_NO_COLLECTION : String := "NO_COLLECTION"

/-- Modelled from the spec: generated constant, the collection method named KERNEL_MODULE. -/
def STORAGECOLLECTIONMETHOD_KERNEL_MODULE : String := "KERNEL_MODULE"

/-- Modelled from the spec: generated constant, the collection method named EBPF. -/
def STORAGECOLLECTIONMETHOD_EBPF : String := "EBPF"

/-- The `Schema` map of `resourceStackRoxKubernetesCluster`. -/
def resourceStackRoxKubernetesClusterSchema : List (String × Schema) :=
  [("name", ⟨ValueType.TypeString, true, false, 0, none⟩),
   ("cluster_id", ⟨ValueType.TypeString, true, false, 0, some validationStringMatchUuid⟩),
   ("central_api_endpoint", ⟨ValueType.TypeString, true, false, 0, none⟩),
   ("collection_method", ⟨ValueType.TypeString, true, false, 0,
      some (validationStringInSlice
        [STORAGECOLLECTIONMETHOD_NO_COLLECTION, STORAGECOLLECTIONMETHOD_KERNEL_MODULE,
         STORAGECOLLECTIONMETHOD_EBPF])⟩),
   ("runtime_support", ⟨ValueType.TypeBool, true, false, 0, none⟩)]

/-- The `Schema` map of `resourceStackRoxPolicy`, top level. No field has a
`ValidateFunc`. -/
def resourceStackRoxPolicySchema : List (String × Schema) :=
  [("name", ⟨ValueType.TypeString, true, false, 0, none⟩),
   ("description", ⟨ValueType.TypeString, true, false, 0, none⟩),
   ("rationale", ⟨ValueType.TypeString, true, false, 0, none⟩),
   ("remediation", ⟨ValueType.TypeString, true, false, 0, none⟩),
   ("disabled", ⟨ValueType.TypeBool, false, true, 0, none⟩),
   ("categories", ⟨ValueType.TypeSet, true, false, 0, none⟩),
   ("lifecycle_stages", ⟨ValueType.TypeSet, true, false, 0, none⟩),
   ("severity", ⟨ValueType.TypeString, true, false, 0, none⟩),
   ("notifiers", ⟨ValueType.TypeSet, false, true, 0, none⟩),
   ("policy_criteria", ⟨ValueType.TypeList, true, false, 1, none⟩)]

/-- The validator a schema map gives the field `key`, if any. -/
def schemaValidateFunc (schema : List (String × Schema)) (key : String) :
    Option (String → String → List GoError) :=
  (schema.find? (fun p => p.1 = key)).bind (fun p => p.2.ValidateFunc)

/-! ## Fixtures for Create, Update and Import -/

/-- A policy configuration as the plan of a Create presents it: every
field is a planned change. -/
def policyConfig (severity : String) (stages : List String) (cvss privileged : String) :
    ResourceData :=
  { id := ""
    attrs :=
      [("name", TfValue.str "no-root"), ("description", TfValue.str "d"),
       ("rationale", TfValue.str "r"), ("remediation", TfValue.str "m"),
       ("disabled", TfValue.bool false), ("categories", TfValue.strings ["Security"]),
       ("lifecycle_stages", TfValue.strings stages), ("severity", TfValue.str severity),
       ("notifiers", TfValue.strings []),
       ("policy_criteria", TfValue.blocks [[("cvss", cvss), ("privileged", privileged)]])]
    changes := policyTrackedKeys
    schemaless := false }

/-- An image integration as the remote stores it. -/
def remoteRegistry (id : String) : StorageImageIntegration :=
  ⟨id, "reg", "docker", [STORAGEIMAGEINTEGRATIONCATEGORY_REGISTRY],
    some ⟨"https://registry.example", "puller", "", false⟩, false⟩

/-- A remote whose name lookup succeeds with the given integrations. -/
def registryLookupClient (found : List StorageImageIntegration) : ClientWrap :=
  { okClient with GetImageIntegrations := fun _ => ⟨⟨found⟩, some ⟨200, "200 OK"⟩, none⟩ }

/-- A remote whose notifier lookup succeeds with a splunk notifier. -/
def notifierLookupClient : ClientWrap :=
  { okClient with
    GetNotifier := fun id =>
      ⟨⟨id, "siem", "https://ui", "splunk",
          some ⟨"https://hec", "", false, "10000", true⟩, true⟩,
        some ⟨200, "200 OK"⟩, none⟩ }

/-- An auth provider configuration with two group blocks; `changed` tells
whether the provider fields are planned changes. -/
def authProviderConfig (id : String) (changed : Bool) : ResourceData :=
  { id := id
    attrs :=
      [("name", TfValue.str "okta"), ("type", TfValue.str "saml"),
       ("ui_endpoint", TfValue.str "https://localhost/"), ("enabled", TfValue.bool true),
       ("idp_metadata_url", TfValue.str "https://example.com/"),
       ("sp_issuer", TfValue.str "https://example.com/"),
       ("group", TfValue.blocks
         [[("key", ""), ("value", ""), ("role", "None")],
          [("key", "groups"), ("value", "admins"), ("role", "Admin")]])]
    changes := if changed then authProviderTrackedKeys else []
    schemaless := false }

/-- A remote that accepts an auth provider under the identifier `a7` and
every other request. -/
def authProviderAcceptingClient : ClientWrap :=
  { okClient with
    PostAuthProvider := fun body => ⟨{ body with Id := "a7" }, some ⟨200, "200 OK"⟩, none⟩
    PutAuthProvider := fun id body => ⟨{ body with Id := id }, some ⟨200, "200 OK"⟩, none⟩ }

/-! ## Provider configuration -/

/-- Function `NewClientWrap`: the client for an endpoint and credentials.
The answers of the service behind the endpoint are those of `remote`. -/
def NewClientWrap (remote : ClientWrap) (endpoint username password : String) : ClientWrap :=
  { remote with endpoint := endpoint, username := username, password := password }

/-- What `providerConfigure` did: the client and the error it returned, and
the API calls issued. -/
structure ConfigureResult where
  client : ClientWrap
  err : Option GoError
  calls : List ApiCall

/-- Function `providerConfigure`; `data` is the provider block. The client
is returned whatever the update call answers. -/
def providerConfigure (data : ResourceData) (remote : ClientWrap) : ConfigureResult :=
  let endpoint := data.GetString "endpoint"
  let username := "admin"
  let password := data.GetString "admin_password"
  let client := NewClientWrap remote endpoint username password
  let request : V1UpdateSensorUpgradeConfigRequest := ⟨⟨false⟩⟩
  let r := client.UpdateSensorUpgradeConfig request
  ⟨client, r.err, [ApiCall.UpdateSensorUpgradeConfig request]⟩

/-! ## The groups extension of the client -/

/-- What the HTTP exchange of `FindGroups` gives, step by step: the error
of `http.NewRequest`, the response and error of `HTTPClient.Do`, the error
of reading the body, and what `json.Unmarshal` makes of the body (the
`groups` field decoded, or the decoding error). -/
structure GroupsExchange where
  requestErr : Option GoError
  resp : Option Response
  doErr : Option GoError
  readErr : Option GoError
  decoded : Except GoError (List StorageGroup)

/-- The first loop of `FindGroups`, which counts the groups of the provider
to size the result. -/
def countMatching (authProviderId : String) : List StorageGroup → Nat → Nat
  | [], count => count
  | g :: rest, count =>
    if g.Props.AuthProviderId = authProviderId then countMatching authProviderId rest (count + 1)
    else countMatching authProviderId rest count

/-- The second loop of `FindGroups`, which appends the groups of the
provider to `result` in the order it meets them. -/
def appendMatching (authProviderId : String) :
    List StorageGroup → List StorageGroup → List StorageGroup
  | [], result => result
  | g :: rest, result =>
    if g.Props.AuthProviderId = authProviderId then
      appendMatching authProviderId rest (result ++ [g])
    else appendMatching authProviderId rest result

/-- Method `ClientWrap.FindGroups` on a given exchange: the triple it
returns, a nil slice being the empty list. The body of a nil response
would be read when `Do` returns neither a response nor an error. -/
def FindGroups (exchange : GroupsExchange) (authProviderId : String) :
    Exec (ApiResult (List StorageGroup)) :=
  match exchange.requestErr with
  | some err => Exec.returns ⟨[], none, some err⟩
  | none =>
    match exchange.doErr with
    | some err => Exec.returns ⟨[], exchange.resp, some err⟩
    | none =>
      match exchange.resp with
      | none => Exec.panics Panic.nilDereference
      | some resp =>
        match exchange.readErr with
        | some err => Exec.returns ⟨[], some resp, some err⟩
        | none =>
          if resp.StatusCode ≠ StatusOK then
            Exec.returns ⟨[], some resp, some (GoError.errorf resp.Status [])⟩
          else
            match exchange.decoded with
            | Except.error err => Exec.returns ⟨[], some resp, some err⟩
            | Except.ok groups =>
              Exec.returns ⟨appendMatching authProviderId groups [], some resp, none⟩

/-! ## Fixtures for the provider and the groups -/

/-- A provider block. -/
def providerData (endpoint password : String) : ResourceData :=
  ⟨"", [("endpoint", TfValue.str endpoint), ("admin_password", TfValue.str password)], [],
    false⟩

/-- A group of the given auth provider. -/
def groupOf (authProviderId role : String) : StorageGroup :=
  ⟨role, ⟨authProviderId, "groups", role⟩⟩

/-- An exchange that succeeds with the given groups. -/
def groupsExchange (groups : List StorageGroup) : GroupsExchange :=
  ⟨none, some ⟨200, "200 OK"⟩, none, none, Except.ok groups⟩

/-- A remote whose notifier lookup succeeds with a notifier whose truncate
string is not a number. -/
def badTruncateClient : ClientWrap :=
  { okClient with
    GetNotifier := fun id =>
      ⟨⟨id, "siem", "https://ui", "splunk",
          some ⟨"https://hec", "", false, "10k", true⟩, true⟩,
        some ⟨200, "200 OK"⟩, none⟩ }

/-- Local state of a splunk integration after an earlier apply. -/
def splunkState : ResourceData :=
  ⟨"n1", [("name", TfValue.str "old-name"), ("hec_token", TfValue.str "s3cret"),
    ("truncate", TfValue.int 10000)], [], false⟩

/-- Local state of a generic image registry after an earlier apply. -/
def registryState : ResourceData :=
  ⟨"i1", [("name", TfValue.str "old-name"), ("password", TfValue.str "hunter2")], [], false⟩

/-- A remote whose image integration lookup succeeds. -/
def registryReadClient : ClientWrap :=
  { okClient with
    GetImageIntegration := fun id => ⟨remoteRegistry id, some ⟨200, "200 OK"⟩, none⟩ }

/-- A remote that accepts an auth provider under the identifier `a7` and
refuses the group batch. -/
def batchRefusingClient : ClientWrap :=
  { authProviderAcceptingClient with
    BatchUpdate := fun _ =>
      ⟨(), some ⟨500, "500 Internal Server Error"⟩,
        some (GoError.api "500 Internal Server Error")⟩ }

/-! ## Delete: what is tolerated and what is surfaced -/

theorem genericImageRegistryDelete_verdict (data : ResourceData) (cli : ClientWrap) :
    ((stackRoxGenericImageRegistryDelete data cli).outcome = Exec.returns none ↔
        ((cli.DeleteImageIntegration data.id).status = some StatusOK ∨
         (cli.DeleteImageIntegration data.id).status = some StatusNotFound)) ∧
    (∀ e, (cli.DeleteImageIntegration data.id).err = some e →
        ¬((cli.DeleteImageIntegration data.id).status = some StatusOK ∨
          (cli.DeleteImageIntegration data.id).status = some StatusNotFound) →
        (stackRoxGenericImageRegistryDelete data cli).outcome = Exec.returns (some e)) ∧
    (∀ resp, (cli.DeleteImageIntegration data.id).resp = some resp →
        (cli.DeleteImageIntegration data.id).err = none →
        ¬((cli.DeleteImageIntegration data.id).status = some StatusOK ∨
          (cli.DeleteImageIntegration data.id).status = some StatusNotFound) →
        (stackRoxGenericImageRegistryDelete data cli).outcome =
          Exec.returns (some (GoError.errorf resp.Status []))) ∧
    (((cli.DeleteImageIntegration data.id).resp ≠ none ∨ (cli.DeleteImageIntegration data.id).err ≠ none) →
        ¬((cli.DeleteImageIntegration data.id).status = some StatusOK ∨
          (cli.DeleteImageIntegration data.id).status = some StatusNotFound) →
        ∃ e, (stackRoxGenericImageRegistryDelete data cli).outcome = Exec.returns (some e)) := by
  unfold stackRoxGenericImageRegistryDelete ApiResult.status
  generalize cli.DeleteImageIntegration data.id = r
  obtain ⟨res, resp, err⟩ := r
  cases resp <;> cases err <;> simp
  all_goals (split <;> (simp_all; try tauto))

theorem splunkIntegrationDelete_verdict (data : ResourceData) (cli : ClientWrap) :
    ((stackRoxSplunkIntegrationDelete data cli).outcome = Exec.returns none ↔
        ((cli.DeleteNotifier data.id true).status = some StatusOK ∨
         (cli.DeleteNotifier data.id true).status = some StatusNotFound)) ∧
    (∀ e, (cli.DeleteNotifier data.id true).err = some e →
        ¬((cli.DeleteNotifier data.id true).status = some StatusOK ∨
          (cli.DeleteNotifier data.id true).status = some StatusNotFound) →
        (stackRoxSplunkIntegrationDelete data cli).outcome = Exec.returns (some e)) ∧
    (∀ resp, (cli.DeleteNotifier data.id true).resp = some resp →
        (cli.DeleteNotifier data.id true).err = none →
        ¬((cli.DeleteNotifier data.id true).status = some StatusOK ∨
          (cli.DeleteNotifier data.id true).status = some StatusNotFound) →
        (stackRoxSplunkIntegrationDelete data cli).outcome =
          Exec.returns (some (GoError.errorf resp.Status []))) ∧
    (((cli.DeleteNotifier data.id true).resp ≠ none ∨ (cli.DeleteNotifier data.id true).err ≠ none) →
        ¬((cli.DeleteNotifier data.id true).status = some StatusOK ∨
          (cli.DeleteNotifier data.id true).status = some StatusNotFound) →
        ∃ e, (stackRoxSplunkIntegrationDelete data cli).outcome = Exec.returns (some e)) := by
  unfold stackRoxSplunkIntegrationDelete ApiResult.status
  generalize cli.DeleteNotifier data.id true = r
  obtain ⟨res, resp, err⟩ := r
  cases resp <;> cases err <;> simp
  all_goals (split <;> (simp_all; try tauto))

theorem policyDelete_verdict (data : ResourceData) (cli : ClientWrap) :
    ((stackRoxPolicyDelete data cli).outcome = Exec.returns none ↔
        ((cli.DeletePolicy data.id).status = some StatusOK ∨
         (cli.DeletePolicy data.id).status = some StatusNotFound)) ∧
    (∀ e, (cli.DeletePolicy data.id).err = some e →
        ¬((cli.DeletePolicy data.id).status = some StatusOK ∨
          (cli.DeletePolicy data.id).status = some StatusNotFound) →
        (stackRoxPolicyDelete data cli).outcome = Exec.returns (some e)) ∧
    (∀ resp, (cli.DeletePolicy data.id).resp = some resp →
        (cli.DeletePolicy data.id).err = none →
        ¬((cli.DeletePolicy data.id).status = some StatusOK ∨
          (cli.DeletePolicy data.id).status = some StatusNotFound) →
        (stackRoxPolicyDelete data cli).outcome =
          Exec.returns (some (GoError.errorf resp.Status []))) ∧
    (((cli.DeletePolicy data.id).resp ≠ none ∨ (cli.DeletePolicy data.id).err ≠ none) →
        ¬((cli.DeletePolicy data.id).status = some StatusOK ∨
          (cli.DeletePolicy data.id).status = some StatusNotFound) →
        ∃ e, (stackRoxPolicyDelete data cli).outcome = Exec.returns (some e)) := by
  unfold stackRoxPolicyDelete ApiResult.status
  generalize cli.DeletePolicy data.id = r
  obtain ⟨res, resp, err⟩ := r
  cases resp <;> cases err <;> simp
  all_goals (split <;> (simp_all; try tauto))

theorem kubernetesClusterDelete_verdict (data : ResourceData) (cli : ClientWrap) :
    ((stackRoxKubernetesClusterDelete data cli).outcome = Exec.returns none ↔
        ((cli.DeleteCluster data.id).status = some StatusOK ∨
         (cli.DeleteCluster data.id).status = some StatusInternalServerError)) ∧
    (∀ e, (cli.DeleteCluster data.id).err = some e →
        ¬((cli.DeleteCluster data.id).status = some StatusOK ∨
          (cli.DeleteCluster data.id).status = some StatusInternalServerError) →
        (stackRoxKubernetesClusterDelete data cli).outcome = Exec.returns (some e)) ∧
    (∀ resp, (cli.DeleteCluster data.id).resp = some resp →
        (cli.DeleteCluster data.id).err = none →
        ¬((cli.DeleteCluster data.id).status = some StatusOK ∨
          (cli.DeleteCluster data.id).status = some StatusInternalServerError) →
        (stackRoxKubernetesClusterDelete data cli).outcome =
          Exec.returns (some (GoError.errorf resp.Status []))) ∧
    (((cli.DeleteCluster data.id).resp ≠ none ∨ (cli.DeleteCluster data.id).err ≠ none) →
        ¬((cli.DeleteCluster data.id).status = some StatusOK ∨
          (cli.DeleteCluster data.id).status = some StatusInternalServerError) →
        ∃ e, (stackRoxKubernetesClusterDelete data cli).outcome = Exec.returns (some e)) := by
  unfold stackRoxKubernetesClusterDelete ApiResult.status
  generalize cli.DeleteCluster data.id = r
  obtain ⟨res, resp, err⟩ := r
  cases resp <;> cases err <;> simp
  all_goals (split <;> (simp_all; try tauto))

theorem delete_keeps_data (data : ResourceData) (cli : ClientWrap) :
    (stackRoxGenericImageRegistryDelete data cli).data = data ∧
    (stackRoxKubernetesClusterDelete data cli).data = data ∧
    (stackRoxOktaAuthProviderDelete data cli).data = data ∧
    (stackRoxPolicyDelete data cli).data = data ∧
    (stackRoxSplunkIntegrationDelete data cli).data = data := by
  refine ⟨?_, ?_, rfl, ?_, ?_⟩
  · unfold stackRoxGenericImageRegistryDelete
    generalize cli.DeleteImageIntegration data.id = r
    obtain ⟨res, resp, err⟩ := r
    cases resp <;> cases err <;> simp <;> split <;> rfl
  · unfold stackRoxKubernetesClusterDelete
    generalize cli.DeleteCluster data.id = r
    obtain ⟨res, resp, err⟩ := r
    cases resp <;> cases err <;> simp <;> split <;> rfl
  · unfold stackRoxPolicyDelete
    generalize cli.DeletePolicy data.id = r
    obtain ⟨res, resp, err⟩ := r
    cases resp <;> cases err <;> simp <;> split <;> rfl
  · unfold stackRoxSplunkIntegrationDelete
    generalize cli.DeleteNotifier data.id true = r
    obtain ⟨res, resp, err⟩ := r
    cases resp <;> cases err <;> simp <;> split <;> rfl

/-- C1, as stated, fails for the kubernetes cluster: a delete call answered
404 makes `stackRoxKubernetesClusterDelete` return an error, the client's
when it reports one and one made of the status text otherwise. The okta
auth provider's Delete hands on the client's error for the same answer. -/
theorem cluster_delete_not_found_is_error :
    (notFoundClient.DeleteCluster "3f2a9c1e5b").status = some StatusNotFound ∧
    (stackRoxKubernetesClusterDelete (clusterData "3f2a9c1e5b") notFoundClient).outcome =
      Exec.returns (some (GoError.api "404 Not Found")) ∧
    (stackRoxKubernetesClusterDelete (clusterData "3f2a9c1e5b")
        (uniformClient (some ⟨404, "404 Not Found"⟩) none)).outcome =
      Exec.returns (some (GoError.errorf "404 Not Found" [])) ∧
    (stackRoxOktaAuthProviderDelete (bareData "3f2a9c1e5b") notFoundClient).outcome =
      Exec.returns (some (GoError.api "404 Not Found")) := by
  decide

/-- C1, amended: Delete returns no error on the answer that reports the
identifier absent, which is 404 for the generic image registry, the policy
and the splunk integration and 500 for the kubernetes cluster; the okta auth
provider's Delete returns no error whenever the client reports none. Delete
never changes the resource data, so a second Delete runs on the same
identifier and, given such an answer, returns no error either. -/
theorem delete_absent_is_no_error (data : ResourceData) (cli : ClientWrap) :
    ((cli.DeleteImageIntegration data.id).status = some StatusNotFound →
      (stackRoxGenericImageRegistryDelete data cli).outcome = Exec.returns none ∧
      (stackRoxGenericImageRegistryDelete
        (stackRoxGenericImageRegistryDelete data cli).data cli).outcome = Exec.returns none) ∧
    ((cli.DeletePolicy data.id).status = some StatusNotFound →
      (stackRoxPolicyDelete data cli).outcome = Exec.returns none ∧
      (stackRoxPolicyDelete (stackRoxPolicyDelete data cli).data cli).outcome =
        Exec.returns none) ∧
    ((cli.DeleteNotifier data.id true).status = some StatusNotFound →
      (stackRoxSplunkIntegrationDelete data cli).outcome = Exec.returns none ∧
      (stackRoxSplunkIntegrationDelete
        (stackRoxSplunkIntegrationDelete data cli).data cli).outcome = Exec.returns none) ∧
    ((cli.DeleteCluster data.id).status = some StatusInternalServerError →
      (stackRoxKubernetesClusterDelete data cli).outcome = Exec.returns none ∧
      (stackRoxKubernetesClusterDelete
        (stackRoxKubernetesClusterDelete data cli).data cli).outcome = Exec.returns none) ∧
    ((cli.DeleteAuthProvider data.id).err = none →
      (stackRoxOktaAuthProviderDelete data cli).outcome = Exec.returns none ∧
      (stackRoxOktaAuthProviderDelete
        (stackRoxOktaAuthProviderDelete data cli).data cli).outcome = Exec.returns none) := by
  obtain ⟨k1, k2, _, k4, k5⟩ := delete_keeps_data data cli
  refine ⟨fun h => ?_, fun h => ?_, fun h => ?_, fun h => ?_, fun h => ?_⟩
  · rw [k1]
    exact ⟨(genericImageRegistryDelete_verdict data cli).1.2 (Or.inr h),
      (genericImageRegistryDelete_verdict data cli).1.2 (Or.inr h)⟩
  · rw [k4]
    exact ⟨(policyDelete_verdict data cli).1.2 (Or.inr h),
      (policyDelete_verdict data cli).1.2 (Or.inr h)⟩
  · rw [k5]
    exact ⟨(splunkIntegrationDelete_verdict data cli).1.2 (Or.inr h),
      (splunkIntegrationDelete_verdict data cli).1.2 (Or.inr h)⟩
  · rw [k2]
    exact ⟨(kubernetesClusterDelete_verdict data cli).1.2 (Or.inr h),
      (kubernetesClusterDelete_verdict data cli).1.2 (Or.inr h)⟩
  · simp [stackRoxOktaAuthProviderDelete, h]

/-- Witness for C1 (amended): against a remote that reports the identifier
absent, each of the five Deletes returns no error. -/
theorem delete_absent_is_no_error_witness :
    (stackRoxGenericImageRegistryDelete (bareData "3f2a9c1e5b") absentRemoteClient).outcome =
      Exec.returns none ∧
    (stackRoxPolicyDelete (bareData "3f2a9c1e5b") absentRemoteClient).outcome =
      Exec.returns none ∧
    (stackRoxSplunkIntegrationDelete (bareData "3f2a9c1e5b") absentRemoteClient).outcome =
      Exec.returns none ∧
    (stackRoxKubernetesClusterDelete (bareData "3f2a9c1e5b") absentRemoteClient).outcome =
      Exec.returns none ∧
    (stackRoxOktaAuthProviderDelete (bareData "3f2a9c1e5b") absentRemoteClient).outcome =
      Exec.returns none :=
  ⟨((delete_absent_is_no_error (bareData "3f2a9c1e5b") absentRemoteClient).1 (by decide)).1,
   ((delete_absent_is_no_error (bareData "3f2a9c1e5b") absentRemoteClient).2.1 (by decide)).1,
   ((delete_absent_is_no_error (bareData "3f2a9c1e5b") absentRemoteClient).2.2.1 (by decide)).1,
   ((delete_absent_is_no_error (bareData "3f2a9c1e5b") absentRemoteClient).2.2.2.1
      (by decide)).1,
   ((delete_absent_is_no_error (bareData "3f2a9c1e5b") absentRemoteClient).2.2.2.2
      (by decide)).1⟩

/-- C2: for the generic image registry, the splunk integration and the
policy, Delete returns no error exactly when the delete call produced a
response with status 200 or 404, whether or not the client also reported an
error; otherwise it returns the client's error when there is one, and when
there is none an error made of the response's status text. -/
theorem delete_no_error_iff_ok_or_not_found (data : ResourceData) (cli : ClientWrap) :
    (((stackRoxGenericImageRegistryDelete data cli).outcome = Exec.returns none ↔
        ((cli.DeleteImageIntegration data.id).status = some StatusOK ∨
         (cli.DeleteImageIntegration data.id).status = some StatusNotFound)) ∧
      (∀ e, (cli.DeleteImageIntegration data.id).err = some e →
        ¬((cli.DeleteImageIntegration data.id).status = some StatusOK ∨
          (cli.DeleteImageIntegration data.id).status = some StatusNotFound) →
        (stackRoxGenericImageRegistryDelete data cli).outcome = Exec.returns (some e)) ∧
      (∀ resp, (cli.DeleteImageIntegration data.id).resp = some resp →
        (cli.DeleteImageIntegration data.id).err = none →
        ¬((cli.DeleteImageIntegration data.id).status = some StatusOK ∨
          (cli.DeleteImageIntegration data.id).status = some StatusNotFound) →
        (stackRoxGenericImageRegistryDelete data cli).outcome =
          Exec.returns (some (GoError.errorf resp.Status []))) ∧
    (((cli.DeleteImageIntegration data.id).resp ≠ none ∨ (cli.DeleteImageIntegration data.id).err ≠ none) →
        ¬((cli.DeleteImageIntegration data.id).status = some StatusOK ∨
          (cli.DeleteImageIntegration data.id).status = some StatusNotFound) →
        ∃ e, (stackRoxGenericImageRegistryDelete data cli).outcome = Exec.returns (some e))) ∧
    (((stackRoxSplunkIntegrationDelete data cli).outcome = Exec.returns none ↔
        ((cli.DeleteNotifier data.id true).status = some StatusOK ∨
         (cli.DeleteNotifier data.id true).status = some StatusNotFound)) ∧
      (∀ e, (cli.DeleteNotifier data.id true).err = some e →
        ¬((cli.DeleteNotifier data.id true).status = some StatusOK ∨
          (cli.DeleteNotifier data.id true).status = some StatusNotFound) →
        (stackRoxSplunkIntegrationDelete data cli).outcome = Exec.returns (some e)) ∧
      (∀ resp, (cli.DeleteNotifier data.id true).resp = some resp →
        (cli.DeleteNotifier data.id true).err = none →
        ¬((cli.DeleteNotifier data.id true).status = some StatusOK ∨
          (cli.DeleteNotifier data.id true).status = some StatusNotFound) →
        (stackRoxSplunkIntegrationDelete data cli).outcome =
          Exec.returns (some (GoError.errorf resp.Status []))) ∧
    (((cli.DeleteNotifier data.id true).resp ≠ none ∨ (cli.DeleteNotifier data.id true).err ≠ none) →
        ¬((cli.DeleteNotifier data.id true).status = some StatusOK ∨
          (cli.DeleteNotifier data.id true).status = some StatusNotFound) →
        ∃ e, (stackRoxSplunkIntegrationDelete data cli).outcome = Exec.returns (some e))) ∧
    (((stackRoxPolicyDelete data cli).outcome = Exec.returns none ↔
        ((cli.DeletePolicy data.id).status = some StatusOK ∨
         (cli.DeletePolicy data.id).status = some StatusNotFound)) ∧
      (∀ e, (cli.DeletePolicy data.id).err = some e →
        ¬((cli.DeletePolicy data.id).status = some StatusOK ∨
          (cli.DeletePolicy data.id).status = some StatusNotFound) →
        (stackRoxPolicyDelete data cli).outcome = Exec.returns (some e)) ∧
      (∀ resp, (cli.DeletePolicy data.id).resp = some resp →
        (cli.DeletePolicy data.id).err = none →
        ¬((cli.DeletePolicy data.id).status = some StatusOK ∨
          (cli.DeletePolicy data.id).status = some StatusNotFound) →
        (stackRoxPolicyDelete data cli).outcome =
          Exec.returns (some (GoError.errorf resp.Status []))) ∧
    (((cli.DeletePolicy data.id).resp ≠ none ∨ (cli.DeletePolicy data.id).err ≠ none) →
        ¬((cli.DeletePolicy data.id).status = some StatusOK ∨
          (cli.DeletePolicy data.id).status = some StatusNotFound) →
        ∃ e, (stackRoxPolicyDelete data cli).outcome = Exec.returns (some e))) :=
  ⟨genericImageRegistryDelete_verdict data cli, splunkIntegrationDelete_verdict data cli,
    policyDelete_verdict data cli⟩

/-- Witness for C2: a 500 answer reported with an error is returned as that
error, and a 503 answer without a client error becomes an error made of the
status text, for each of the three resources. -/
theorem delete_no_error_iff_ok_or_not_found_witness :
    ((stackRoxGenericImageRegistryDelete (bareData "r1") internalErrorClient).outcome =
        Exec.returns (some (GoError.api "500 Internal Server Error")) ∧
      (stackRoxGenericImageRegistryDelete (bareData "r1") unavailableClient).outcome =
        Exec.returns (some (GoError.errorf "503 Service Unavailable" []))) ∧
    ((stackRoxSplunkIntegrationDelete (bareData "n1") internalErrorClient).outcome =
        Exec.returns (some (GoError.api "500 Internal Server Error")) ∧
      (stackRoxSplunkIntegrationDelete (bareData "n1") unavailableClient).outcome =
        Exec.returns (some (GoError.errorf "503 Service Unavailable" []))) ∧
    ((stackRoxPolicyDelete (bareData "p1") internalErrorClient).outcome =
        Exec.returns (some (GoError.api "500 Internal Server Error")) ∧
      (stackRoxPolicyDelete (bareData "p1") unavailableClient).outcome =
        Exec.returns (some (GoError.errorf "503 Service Unavailable" []))) :=
  ⟨⟨(delete_no_error_iff_ok_or_not_found (bareData "r1") internalErrorClient).1.2.1
        (GoError.api "500 Internal Server Error") rfl (by decide),
      (delete_no_error_iff_ok_or_not_found (bareData "r1") unavailableClient).1.2.2.1
        ⟨503, "503 Service Unavailable"⟩ rfl rfl (by decide)⟩,
    ⟨(delete_no_error_iff_ok_or_not_found (bareData "n1") internalErrorClient).2.1.2.1
        (GoError.api "500 Internal Server Error") rfl (by decide),
      (delete_no_error_iff_ok_or_not_found (bareData "n1") unavailableClient).2.1.2.2.1
        ⟨503, "503 Service Unavailable"⟩ rfl rfl (by decide)⟩,
    ⟨(delete_no_error_iff_ok_or_not_found (bareData "p1") internalErrorClient).2.2.2.1
        (GoError.api "500 Internal Server Error") rfl (by decide),
      (delete_no_error_iff_ok_or_not_found (bareData "p1") unavailableClient).2.2.2.2.1
        ⟨503, "503 Service Unavailable"⟩ rfl rfl (by decide)⟩⟩

/-- C3: for the kubernetes cluster, Delete returns no error exactly when
the delete call produced a response with status 200 or 500; otherwise it
returns the client's error when there is one, and when there is none an
error made of the response's status text. -/
theorem cluster_delete_no_error_iff_ok_or_internal_error (data : ResourceData)
    (cli : ClientWrap) :
    ((stackRoxKubernetesClusterDelete data cli).outcome = Exec.returns none ↔
        ((cli.DeleteCluster data.id).status = some StatusOK ∨
         (cli.DeleteCluster data.id).status = some StatusInternalServerError)) ∧
    (∀ e, (cli.DeleteCluster data.id).err = some e →
        ¬((cli.DeleteCluster data.id).status = some StatusOK ∨
          (cli.DeleteCluster data.id).status = some StatusInternalServerError) →
        (stackRoxKubernetesClusterDelete data cli).outcome = Exec.returns (some e)) ∧
    (∀ resp, (cli.DeleteCluster data.id).resp = some resp →
        (cli.DeleteCluster data.id).err = none →
        ¬((cli.DeleteCluster data.id).status = some StatusOK ∨
          (cli.DeleteCluster data.id).status = some StatusInternalServerError) →
        (stackRoxKubernetesClusterDelete data cli).outcome =
          Exec.returns (some (GoError.errorf resp.Status []))) ∧
    (((cli.DeleteCluster data.id).resp ≠ none ∨ (cli.DeleteCluster data.id).err ≠ none) →
        ¬((cli.DeleteCluster data.id).status = some StatusOK ∨
          (cli.DeleteCluster data.id).status = some StatusInternalServerError) →
        ∃ e, (stackRoxKubernetesClusterDelete data cli).outcome = Exec.returns (some e)) :=
  kubernetesClusterDelete_verdict data cli

/-- Witness for C3: a transport failure is returned as the client's error,
and a 503 answer without a client error becomes an error made of the status
text. -/
theorem cluster_delete_no_error_iff_ok_or_internal_error_witness :
    (stackRoxKubernetesClusterDelete (bareData "c1") offlineClient).outcome =
      Exec.returns (some (GoError.api "dial tcp: connection refused")) ∧
    (stackRoxKubernetesClusterDelete (bareData "c1") unavailableClient).outcome =
      Exec.returns (some (GoError.errorf "503 Service Unavailable" [])) :=
  ⟨(cluster_delete_no_error_iff_ok_or_internal_error (bareData "c1") offlineClient).2.1
      (GoError.api "dial tcp: connection refused") rfl (by decide),
    (cluster_delete_no_error_iff_ok_or_internal_error (bareData "c1") unavailableClient).2.2.1
      ⟨503, "503 Service Unavailable"⟩ rfl rfl (by decide)⟩

/-- C4, as stated, fails: a delete call answered 500 makes
`stackRoxPolicyDelete` return the client's error. -/
theorem policy_delete_internal_error_is_error :
    (internalErrorClient.DeletePolicy "p1").status = some StatusInternalServerError ∧
    (stackRoxPolicyDelete (bareData "p1") internalErrorClient).outcome =
      Exec.returns (some (GoError.api "500 Internal Server Error")) := by
  decide

/-- C4, amended: the status the policy resource's Delete tolerates as
not found is 404; a delete call answered 404 returns no error, and one
answered 500 returns a non-nil error. -/
theorem policy_delete_tolerates_not_found_only (data : ResourceData) (cli : ClientWrap) :
    ((cli.DeletePolicy data.id).status = some StatusNotFound →
      (stackRoxPolicyDelete data cli).outcome = Exec.returns none) ∧
    ((cli.DeletePolicy data.id).status = some StatusInternalServerError →
      ∃ e, (stackRoxPolicyDelete data cli).outcome = Exec.returns (some e)) := by
  refine ⟨fun h => (policyDelete_verdict data cli).1.2 (Or.inr h), fun h => ?_⟩
  have hno : ¬((cli.DeletePolicy data.id).status = some StatusOK ∨
      (cli.DeletePolicy data.id).status = some StatusNotFound) := by
    rw [h]; decide
  cases herr : (cli.DeletePolicy data.id).err with
  | some e => exact ⟨e, (policyDelete_verdict data cli).2.1 e herr hno⟩
  | none =>
    cases hresp : (cli.DeletePolicy data.id).resp with
    | none => simp [ApiResult.status, hresp] at h
    | some resp => exact ⟨_, (policyDelete_verdict data cli).2.2.1 resp hresp herr hno⟩

/-- Witness for C4 (amended): 404 is tolerated, 500 is an error. -/
theorem policy_delete_tolerates_not_found_only_witness :
    (stackRoxPolicyDelete (bareData "p1") notFoundClient).outcome = Exec.returns none ∧
    ∃ e, (stackRoxPolicyDelete (bareData "p1") internalErrorClient).outcome =
      Exec.returns (some e) :=
  ⟨(policy_delete_tolerates_not_found_only (bareData "p1") notFoundClient).1 (by decide),
    (policy_delete_tolerates_not_found_only (bareData "p1") internalErrorClient).2 (by decide)⟩

/-! ## Read: not found, other failures, transport failures -/

/-- C5 at the failing input: the generic image registry's Read, answered
404, returns an error and keeps the identifier, both when the client reports
the status as an error and when it reports none; the other four Reads clear
the identifier and return no error on the same answer. -/
theorem registry_read_not_found_is_error :
    stackRoxGenericImageRegistryRead (bareData "r1") notFoundClient =
      ⟨Exec.returns (some (GoError.api "404 Not Found")), bareData "r1",
        [ApiCall.GetImageIntegration "r1"]⟩ ∧
    stackRoxGenericImageRegistryRead (bareData "r1")
        (uniformClient (some ⟨404, "404 Not Found"⟩) none) =
      ⟨Exec.returns (some (GoError.errorf "404 Not Found" [])), bareData "r1",
        [ApiCall.GetImageIntegration "r1"]⟩ ∧
    stackRoxKubernetesClusterRead (clusterData "c1") notFoundClient =
      ⟨Exec.returns none, (clusterData "c1").SetId "", [ApiCall.GetCluster "c1"]⟩ ∧
    stackRoxOktaAuthProviderRead (bareData "a1") notFoundClient =
      ⟨Exec.returns none, bareData "", [ApiCall.GetAuthProvider "a1"]⟩ ∧
    stackRoxPolicyRead (bareData "p1") notFoundClient =
      ⟨Exec.returns none, bareData "", [ApiCall.GetPolicy "p1"]⟩ ∧
    stackRoxSplunkIntegrationRead (bareData "n1") notFoundClient =
      ⟨Exec.returns none, bareData "", [ApiCall.GetNotifier "n1"]⟩ := by
  decide

/-- C6 at the failing input: the splunk integration's Read, answered 500
with a client error, returns no error. With the zero notifier the client
hands back beside an error it panics on the nil `Splunk` pointer; with a
decoded notifier it writes the entity into local state and returns nil. The
other four Reads return the client's error and leave the data alone. -/
theorem splunk_read_internal_error_not_surfaced :
    stackRoxSplunkIntegrationRead (bareData "n1") internalErrorClient =
      ⟨Exec.panics Panic.nilDereference, bareData "n1", [ApiCall.GetNotifier "n1"]⟩ ∧
    stackRoxSplunkIntegrationRead (bareData "n1") staleNotifierClient =
      ⟨Exec.returns none,
        ⟨"n1", [("name", TfValue.str "remote-name"), ("hec_endpoint", TfValue.str "https://hec"),
          ("truncate", TfValue.int 10000), ("ui_endpoint", TfValue.str "https://ui"),
          ("audit_logging_enabled", TfValue.bool true)], [], false⟩,
        [ApiCall.GetNotifier "n1"]⟩ ∧
    stackRoxGenericImageRegistryRead (bareData "r1") internalErrorClient =
      ⟨Exec.returns (some (GoError.api "500 Internal Server Error")), bareData "r1",
        [ApiCall.GetImageIntegration "r1"]⟩ ∧
    stackRoxKubernetesClusterRead (clusterData "c1") internalErrorClient =
      ⟨Exec.returns (some (GoError.api "500 Internal Server Error")), clusterData "c1",
        [ApiCall.GetCluster "c1"]⟩ ∧
    stackRoxOktaAuthProviderRead (bareData "a1") internalErrorClient =
      ⟨Exec.returns (some (GoError.api "500 Internal Server Error")), bareData "a1",
        [ApiCall.GetAuthProvider "a1"]⟩ ∧
    stackRoxPolicyRead (bareData "p1") internalErrorClient =
      ⟨Exec.returns (some (GoError.api "500 Internal Server Error")), bareData "p1",
        [ApiCall.GetPolicy "p1"]⟩ := by
  decide

/-- C7 at the failing input: with no response and a transport error, the
Reads of the policy and of the okta auth provider read `resp.StatusCode` of
the nil response and panic, and the Read of the splunk integration goes on
to the zero notifier and panics; none of the three returns the error. The
Reads of the generic image registry and of the kubernetes cluster return it. -/
theorem read_transport_failure_not_surfaced :
    stackRoxPolicyRead (bareData "p1") offlineClient =
      ⟨Exec.panics Panic.nilDereference, bareData "p1", [ApiCall.GetPolicy "p1"]⟩ ∧
    stackRoxOktaAuthProviderRead (bareData "a1") offlineClient =
      ⟨Exec.panics Panic.nilDereference, bareData "a1", [ApiCall.GetAuthProvider "a1"]⟩ ∧
    stackRoxSplunkIntegrationRead (bareData "n1") offlineClient =
      ⟨Exec.panics Panic.nilDereference, bareData "n1", [ApiCall.GetNotifier "n1"]⟩ ∧
    stackRoxGenericImageRegistryRead (bareData "r1") offlineClient =
      ⟨Exec.returns (some (GoError.api "dial tcp: connection refused")), bareData "r1",
        [ApiCall.GetImageIntegration "r1"]⟩ ∧
    stackRoxKubernetesClusterRead (clusterData "c1") offlineClient =
      ⟨Exec.returns (some (GoError.api "dial tcp: connection refused")), clusterData "c1",
        [ApiCall.GetCluster "c1"]⟩ := by
  decide

/-! ## Decimal text -/

theorem digitChar_decimal (k : Nat) (hk : k < 10) :
    (Nat.digitChar k).toNat - 48 = k ∧ isDecimalDigit (Nat.digitChar k) = true := by
  interval_cases k <;> decide

theorem isSpace_of_decimalDigit (c : Char) (h : isDecimalDigit c = true) : isSpace c = false := by
  simp only [isDecimalDigit, Bool.and_eq_true, decide_eq_true_eq] at h
  simp only [isSpace, Bool.or_eq_false_iff, Bool.and_eq_false_iff, decide_eq_false_iff_not,
    beq_eq_false_iff_ne, ne_eq]
  omega

theorem parseDecimal_toDigitsCore (fuel : Nat) :
    ∀ (n : Nat) (ds : List Char), n < fuel →
      (Nat.toDigitsCore 10 fuel n ds).foldl (fun acc c => 10 * acc + (c.toNat - 48)) 0 =
        ds.foldl (fun acc c => 10 * acc + (c.toNat - 48)) n := by
  induction fuel with
  | zero => intro n ds h; omega
  | succ fuel ih =>
    intro n ds h
    have hd := (digitChar_decimal (n % 10) (Nat.mod_lt _ (by decide))).1
    simp only [Nat.toDigitsCore]
    split
    · next h0 =>
      simp only [List.foldl_cons, Nat.mul_zero, Nat.zero_add, hd]
      have : n % 10 = n := by omega
      rw [this]
    · next h0 =>
      rw [ih (n / 10) _ (by omega)]
      simp only [List.foldl_cons, hd]
      have : 10 * (n / 10) + n % 10 = n := by omega
      rw [this]

theorem decimal_toDigitsCore (fuel : Nat) :
    ∀ (n : Nat) (ds : List Char), (∀ c ∈ ds, isDecimalDigit c = true) →
      ∀ c ∈ Nat.toDigitsCore 10 fuel n ds, isDecimalDigit c = true := by
  induction fuel with
  | zero => intro n ds h; simpa [Nat.toDigitsCore] using h
  | succ fuel ih =>
    intro n ds h
    have hd := (digitChar_decimal (n % 10) (Nat.mod_lt _ (by decide))).2
    have hcons : ∀ c ∈ Nat.digitChar (n % 10) :: ds, isDecimalDigit c = true := by
      intro c hc
      rcases List.mem_cons.mp hc with rfl | hc
      · exact hd
      · exact h c hc
    simp only [Nat.toDigitsCore]
    split
    · exact hcons
    · exact ih _ _ hcons

theorem toDigitsCore_ne_nil (fuel : Nat) :
    ∀ (n : Nat) (ds : List Char), (fuel ≠ 0 ∨ ds ≠ []) → Nat.toDigitsCore 10 fuel n ds ≠ [] := by
  induction fuel with
  | zero => intro n ds h; simpa [Nat.toDigitsCore] using h
  | succ fuel ih =>
    intro n ds _
    simp only [Nat.toDigitsCore]
    split
    · simp
    · exact ih _ _ (Or.inr (by simp))

/-- The decimal digits of a natural number: a non-empty run of digits that
reads back as the number. -/
theorem toDigits_decimal (m : Nat) :
    Nat.toDigits 10 m ≠ [] ∧ (∀ c ∈ Nat.toDigits 10 m, isDecimalDigit c = true) ∧
      parseDecimal (Nat.toDigits 10 m) = m := by
  refine ⟨toDigitsCore_ne_nil _ _ _ (Or.inl (by omega)),
    decimal_toDigitsCore _ _ _ (by simp), ?_⟩
  unfold parseDecimal Nat.toDigits
  rw [parseDecimal_toDigitsCore (m + 1) m [] (by omega)]
  rfl

theorem skipSpace_of_not_space (c : Char) (cs : List Char) (h : isSpace c = false) :
    skipSpace (c :: cs) = Except.ok (c :: cs) := by
  have h1 : c ≠ '\r' := by rintro rfl; revert h; decide
  have h2 : c ≠ '\n' := by rintro rfl; revert h; decide
  simp [skipSpace, h1, h2, h]

theorem takeWhile_decimal (ds : List Char) (hall : ∀ c ∈ ds, isDecimalDigit c = true) :
    ds.takeWhile isDecimalDigit = ds :=
  List.takeWhile_eq_self_iff.mpr hall

theorem not_sign_of_decimalDigit (c : Char) (h : isDecimalDigit c = true) :
    c ≠ '+' ∧ c ≠ '-' := by
  constructor <;> (rintro rfl; revert h; decide)

theorem scanInt32_digits (ds : List Char) (hne : ds ≠ [])
    (hall : ∀ c ∈ ds, isDecimalDigit c = true) (hfit : parseDecimal ds ≤ 2147483647) :
    scanInt32 ds = Except.ok (parseDecimal ds : Int) := by
  cases ds with
  | nil => exact absurd rfl hne
  | cons d rest =>
    have hd : isDecimalDigit d = true := hall d (List.mem_cons_self _ _)
    obtain ⟨hp, hm⟩ := not_sign_of_decimalDigit d hd
    have htw := takeWhile_decimal (d :: rest) hall
    simp only [scanInt32, hp, hm, or_self, if_false, hd, Bool.not_true, htw]
    generalize parseDecimal (d :: rest) = a at hfit
    simp only [beq_iff_eq, hm, if_false, Bool.false_eq_true]
    rw [if_neg (by omega), if_neg (by omega)]

theorem scanInt32_neg_digits (ds : List Char) (hne : ds ≠ [])
    (hall : ∀ c ∈ ds, isDecimalDigit c = true) (hfit : parseDecimal ds ≤ 2147483648) :
    scanInt32 ('-' :: ds) = Except.ok (-(parseDecimal ds : Int)) := by
  cases ds with
  | nil => exact absurd rfl hne
  | cons d rest =>
    have hd : isDecimalDigit d = true := hall d (List.mem_cons_self _ _)
    have htw := takeWhile_decimal (d :: rest) hall
    simp only [scanInt32, or_true, if_true, hd, Bool.not_true, htw]
    generalize parseDecimal (d :: rest) = a at hfit
    simp only [beq_self_eq_true, if_true, Bool.false_eq_true, if_false]
    rw [if_neg (by omega), if_neg (by omega)]

theorem sscanf_symbol_text (sym : String) (c : Char) (cs : List Char) (n : Int)
    (hsym : sym ∈ ["=", ">", ">=", "<", "<="]) (hc : isSpace c = false)
    (hscan : scanInt32 (c :: cs) = Except.ok n) :
    sscanfStringInt32 (sym ++ " " ++ String.mk (c :: cs)) = Except.ok (sym, n) := by
  have e1 : isSpace '=' = false := by decide
  have e2 : isSpace '>' = false := by decide
  have e3 : isSpace '<' = false := by decide
  have e4 : isSpace ' ' = true := by decide
  have h1 : c ≠ '\r' := by rintro rfl; revert hc; decide
  have h2 : c ≠ '\n' := by rintro rfl; revert hc; decide
  simp only [List.mem_cons, List.mem_singleton, List.not_mem_nil, or_false] at hsym
  rcases hsym with rfl | rfl | rfl | rfl | rfl <;>
    simp [sscanfStringInt32, skipSpace, advanceSpace, List.takeWhile, List.dropWhile,
      e1, e2, e3, e4, hc, h1, h2, hscan]

theorem sscanf_sprintf (sym : String) (n : Int) (hsym : sym ∈ ["=", ">", ">=", "<", "<="])
    (hlo : -2147483648 ≤ n) (hhi : n ≤ 2147483647) :
    sscanfStringInt32 (sprintfStringInt sym n) = Except.ok (sym, n) := by
  obtain ⟨hne, hall, hparse⟩ := toDigits_decimal n.natAbs
  unfold sprintfStringInt formatInt
  by_cases hneg : n < 0
  · rw [if_pos hneg]
    have htext : "-" ++ Nat.repr n.natAbs = String.mk ('-' :: Nat.toDigits 10 n.natAbs) := rfl
    rw [htext]
    refine sscanf_symbol_text sym '-' _ n hsym (by decide) ?_
    rw [scanInt32_neg_digits _ hne hall (by rw [hparse]; omega), hparse]
    congr 1
    omega
  · rw [if_neg hneg]
    have htext : Nat.repr n.natAbs = String.mk (Nat.toDigits 10 n.natAbs) := rfl
    rw [htext]
    cases hds : Nat.toDigits 10 n.natAbs with
    | nil => exact absurd hds hne
    | cons d rest =>
      rw [hds] at hall hparse
      refine sscanf_symbol_text sym d rest n hsym
        (isSpace_of_decimalDigit d (hall d (List.mem_cons_self _ _))) ?_
      rw [scanInt32_digits _ (by simp) hall (by rw [hparse]; omega), hparse]
      congr 1
      omega

theorem significandShift_dvd (fuel : Nat) :
    ∀ (a m e : Nat), m < 16777216 → a = m * 2 ^ e → 2 ^ significandShift fuel a ∣ a := by
  induction fuel with
  | zero => intro a m e _ _; simp [significandShift]
  | succ fuel ih =>
    intro a m e hm ha
    unfold significandShift
    split
    · simp
    · next hbig =>
      cases e with
      | zero => simp at ha; omega
      | succ e =>
        have hhalf : a / 2 = m * 2 ^ e := by
          rw [ha, pow_succ, ← Nat.mul_assoc]; simp
        have h2 : a = 2 * (a / 2) := by rw [hhalf, ha, pow_succ]; ring
        obtain ⟨c, hc⟩ := ih (a / 2) m e hm hhalf
        exact ⟨c, calc
          a = 2 * (a / 2) := h2
          _ = 2 * (2 ^ significandShift fuel (a / 2) * c) := congrArg (fun x => 2 * x) hc
          _ = 2 ^ (1 + significandShift fuel (a / 2)) * c := by ring⟩

theorem roundToEven_of_dvd (a k : Nat) (h : 2 ^ k ∣ a) : roundToEven a k = a := by
  obtain ⟨c, rfl⟩ := h
  have hpos : 0 < 2 ^ k := Nat.pow_pos (by decide)
  have hne : ¬(0 = 2 ^ k) := by omega
  simp [roundToEven, Nat.mul_div_cancel_left c hpos, Nat.mul_comm, hne]

/-- An integer that a `float32` holds (a significand below `2 ^ 24` times a
power of two) is converted to `float32` without rounding. -/
theorem float32OfInt32_exact (n : Int) (m e : Nat) (hm : m < 16777216)
    (hrep : n.natAbs = m * 2 ^ e) : float32OfInt32 n = (n : ℚ) := by
  unfold float32OfInt32
  simp only [roundToEven_of_dvd _ _ (significandShift_dvd 8 n.natAbs m e hm hrep)]
  congr 1
  split <;> omega

theorem int32OfFloat32_intCast (n : Int) (hlo : -2147483648 ≤ n) (hhi : n ≤ 2147483647) :
    int32OfFloat32 (n : ℚ) = n := by
  simp [int32OfFloat32, hlo, hhi]

theorem cvssSymbol_of_op (op : StorageComparator)
    (hop : op ∈ [STORAGECOMPARATOR_EQUALS, STORAGECOMPARATOR_GREATER_THAN,
      STORAGECOMPARATOR_GREATER_THAN_OR_EQUALS, STORAGECOMPARATOR_LESS_THAN,
      STORAGECOMPARATOR_LESS_THAN_OR_EQUALS]) :
    ∃ sym, sym ∈ ["=", ">", ">=", "<", "<="] ∧ stackRoxCvssOpFrom op = (sym, none) ∧
      mapIndex stackRoxCvssSymbolToOp sym = op := by
  simp only [List.mem_cons, List.mem_singleton, List.not_mem_nil, or_false] at hop
  rcases hop with rfl | rfl | rfl | rfl | rfl
  · exact ⟨"=", by decide, by decide, by decide⟩
  · exact ⟨">", by decide, by decide, by decide⟩
  · exact ⟨">=", by decide, by decide, by decide⟩
  · exact ⟨"<", by decide, by decide, by decide⟩
  · exact ⟨"<=", by decide, by decide, by decide⟩

theorem cvssOp_of_symbol (sym : String) (hsym : sym ∈ ["=", ">", ">=", "<", "<="]) :
    stackRoxCvssOpFrom (mapIndex stackRoxCvssSymbolToOp sym) = (sym, none) := by
  simp only [List.mem_cons, List.mem_singleton, List.not_mem_nil, or_false] at hsym
  rcases hsym with rfl | rfl | rfl | rfl | rfl <;> decide

theorem sprintfStringInt_ne_empty (sym : String) (n : Int) : sprintfStringInt sym n ≠ "" := by
  intro h
  have hlen := congrArg String.length h
  simp only [sprintfStringInt, String.length_append] at hlen
  have hsp : " ".length = 1 := by decide
  have he : "".length = 0 := by decide
  omega

/-! ## The CVSS codec: round trips and unknown comparators -/

theorem cvssOpFrom_unknown (op : StorageComparator)
    (hop : op ∉ [STORAGECOMPARATOR_EQUALS, STORAGECOMPARATOR_GREATER_THAN,
      STORAGECOMPARATOR_GREATER_THAN_OR_EQUALS, STORAGECOMPARATOR_LESS_THAN,
      STORAGECOMPARATOR_LESS_THAN_OR_EQUALS]) :
    stackRoxCvssOpFrom op = ("", some (GoError.errorf "Invalid CVSS comparator" [])) := by
  simp only [List.mem_cons, List.mem_singleton, List.not_mem_nil, or_false, not_or] at hop
  obtain ⟨h1, h2, h3, h4, h5⟩ := hop
  simp [stackRoxCvssOpFrom, mapLookup, stackRoxCvssOpsToSymbols, List.find?, Ne.symm h1,
    Ne.symm h2, Ne.symm h3, Ne.symm h4, Ne.symm h5]

/-- C8, as stated, fails: the integer `2 ^ 40` is a `float32` value, and
formatting it goes through `int32`, which cannot hold it (whatever `int32`
the platform gives, converting it back yields a magnitude of at most
`2 ^ 31`); the policy parsed back differs from the original. -/
theorem cvss_message_roundtrip_fails_beyond_int32 :
    stackRoxTerraformCvssFromMessage (some ⟨STORAGECOMPARATOR_EQUALS, 1099511627776⟩) =
      Exec.returns "= -2147483648" ∧
    stackRoxCvssFromTerraform (some "= -2147483648") =
      Exec.returns (some ⟨STORAGECOMPARATOR_EQUALS, -2147483648⟩) ∧
    (⟨STORAGECOMPARATOR_EQUALS, -2147483648⟩ : StorageNumericalPolicy) ≠
      ⟨STORAGECOMPARATOR_EQUALS, 1099511627776⟩ := by
  decide

/-- C8, amended: for each of the five comparators and every integer `n`
that a `float32` holds (a significand below `2 ^ 24` times a power of two)
and that lies in the `int32` range, `stackRoxTerraformCvssFromMessage`
returns a string for the policy with that comparator and value, and
`stackRoxCvssFromTerraform` parses that string back into the same policy. -/
theorem cvss_roundtrip_from_message (op : StorageComparator) (n : Int) (m e : Nat)
    (hop : op ∈ [STORAGECOMPARATOR_EQUALS, STORAGECOMPARATOR_GREATER_THAN,
      STORAGECOMPARATOR_GREATER_THAN_OR_EQUALS, STORAGECOMPARATOR_LESS_THAN,
      STORAGECOMPARATOR_LESS_THAN_OR_EQUALS])
    (hlo : -2147483648 ≤ n) (hhi : n ≤ 2147483647)
    (hm : m < 16777216) (hrep : n.natAbs = m * 2 ^ e) :
    ∃ s, stackRoxTerraformCvssFromMessage (some ⟨op, (n : ℚ)⟩) = Exec.returns s ∧
      stackRoxCvssFromTerraform (some s) = Exec.returns (some ⟨op, (n : ℚ)⟩) := by
  obtain ⟨sym, hsym, hfrom, hto⟩ := cvssSymbol_of_op op hop
  refine ⟨sprintfStringInt sym n, ?_, ?_⟩
  · simp only [stackRoxTerraformCvssFromMessage, hfrom, int32OfFloat32_intCast n hlo hhi]
  · simp only [stackRoxCvssFromTerraform, if_neg (sprintfStringInt_ne_empty sym n),
      sscanf_sprintf sym n hsym hlo hhi, hto, float32OfInt32_exact n m e hm hrep]

/-- Witness for C8 (amended): the policy with comparator
GREATER_THAN_OR_EQUALS and value 3 is formatted and parsed back unchanged. -/
theorem cvss_roundtrip_from_message_witness :
    ∃ s, stackRoxTerraformCvssFromMessage
        (some ⟨STORAGECOMPARATOR_GREATER_THAN_OR_EQUALS, ((3 : Int) : ℚ)⟩) = Exec.returns s ∧
      stackRoxCvssFromTerraform (some s) =
        Exec.returns (some ⟨STORAGECOMPARATOR_GREATER_THAN_OR_EQUALS, ((3 : Int) : ℚ)⟩) :=
  cvss_roundtrip_from_message STORAGECOMPARATOR_GREATER_THAN_OR_EQUALS 3 3 0
    (by decide) (by decide) (by decide) (by decide) (by decide)

/-- C9, as stated, fails: 16777217 is a 32-bit signed integer, the string
`= 16777217` is parsed into a policy whose `float32` value is 16777216, and
that policy is read back as `= 16777216`. -/
theorem cvss_string_roundtrip_fails_at_16777217 :
    "=" ++ " " ++ formatInt 16777217 = "= 16777217" ∧
    stackRoxCvssFromTerraform (some "= 16777217") =
      Exec.returns (some ⟨STORAGECOMPARATOR_EQUALS, 16777216⟩) ∧
    stackRoxTerraformCvssFromMessage (some ⟨STORAGECOMPARATOR_EQUALS, 16777216⟩) =
      Exec.returns "= 16777216" := by
  decide

/-- C9, amended: for each of the five symbols `s` and every 32-bit signed
integer `n` that a `float32` holds (a significand below `2 ^ 24` times a
power of two, so every `n` of magnitude up to `2 ^ 24`), the string `s n` is
parsed by `stackRoxCvssFromTerraform` into the policy with the comparator of
`s` and the value `n`, and `stackRoxTerraformCvssFromMessage` reads that
policy back as exactly `s n`. -/
theorem cvss_roundtrip_from_string (sym : String) (n : Int) (m e : Nat)
    (hsym : sym ∈ ["=", ">", ">=", "<", "<="])
    (hlo : -2147483648 ≤ n) (hhi : n ≤ 2147483647)
    (hm : m < 16777216) (hrep : n.natAbs = m * 2 ^ e) :
    stackRoxCvssFromTerraform (some (sym ++ " " ++ formatInt n)) =
      Exec.returns (some ⟨mapIndex stackRoxCvssSymbolToOp sym, (n : ℚ)⟩) ∧
    stackRoxTerraformCvssFromMessage (some ⟨mapIndex stackRoxCvssSymbolToOp sym, (n : ℚ)⟩) =
      Exec.returns (sym ++ " " ++ formatInt n) := by
  have hs : sym ++ " " ++ formatInt n = sprintfStringInt sym n := rfl
  rw [hs]
  constructor
  · simp only [stackRoxCvssFromTerraform, if_neg (sprintfStringInt_ne_empty sym n),
      sscanf_sprintf sym n hsym hlo hhi, float32OfInt32_exact n m e hm hrep]
  · simp only [stackRoxTerraformCvssFromMessage, cvssOp_of_symbol sym hsym,
      int32OfFloat32_intCast n hlo hhi]

/-- Witness for C9 (amended): the string `>= 3` becomes the policy with
comparator GREATER_THAN_OR_EQUALS and value 3 and is read back as `>= 3`. -/
theorem cvss_roundtrip_from_string_witness :
    ">=" ++ " " ++ formatInt 3 = ">= 3" ∧
    mapIndex stackRoxCvssSymbolToOp ">=" = STORAGECOMPARATOR_GREATER_THAN_OR_EQUALS ∧
    stackRoxCvssFromTerraform (some (">=" ++ " " ++ formatInt 3)) =
      Exec.returns (some ⟨mapIndex stackRoxCvssSymbolToOp ">=", ((3 : Int) : ℚ)⟩) ∧
    stackRoxTerraformCvssFromMessage
        (some ⟨mapIndex stackRoxCvssSymbolToOp ">=", ((3 : Int) : ℚ)⟩) =
      Exec.returns (">=" ++ " " ++ formatInt 3) :=
  ⟨by decide, by decide,
    cvss_roundtrip_from_string ">=" 3 3 0 (by decide) (by decide) (by decide) (by decide)
      (by decide)⟩

/-- C10 at the failing input: the string `!= 3`, whose operator token is not
in the symbol table, is not rejected by `stackRoxCvssFromTerraform`; it
returns a policy whose comparator is the empty zero value. The other side
of the mapping does reject that comparator: `stackRoxCvssOpFrom` returns an
error for it and formatting the policy panics with that error. -/
theorem cvss_unknown_symbol_is_accepted :
    stackRoxCvssFromTerraform (some "!= 3") = Exec.returns (some ⟨"", 3⟩) ∧
    stackRoxCvssOpFrom "" = ("", some (GoError.errorf "Invalid CVSS comparator" [])) ∧
    stackRoxTerraformCvssFromMessage (some ⟨"", 3⟩) =
      Exec.panics (Panic.error (some (GoError.errorf "Invalid CVSS comparator" []))) := by
  decide

/-! ## The policy vocabularies -/

theorem severityFrom_known (s : String)
    (h : s ∈ ["LOW_SEVERITY", "MEDIUM_SEVERITY", "HIGH_SEVERITY", "CRITICAL_SEVERITY"]) :
    severityFrom s = (s, none) := by
  simp only [List.mem_cons, List.mem_singleton, List.not_mem_nil, or_false] at h
  rcases h with rfl | rfl | rfl | rfl <;> decide

theorem severityFrom_unknown (s : String)
    (h : s ∉ ["LOW_SEVERITY", "MEDIUM_SEVERITY", "HIGH_SEVERITY", "CRITICAL_SEVERITY"]) :
    severityFrom s = ("", some (GoError.errorf "Unsupported severity" [])) := by
  simp only [List.mem_cons, List.mem_singleton, List.not_mem_nil, or_false, not_or] at h
  obtain ⟨h1, h2, h3, h4⟩ := h
  simp [severityFrom, mapLookup, severityMap, List.find?, Ne.symm h1, Ne.symm h2, Ne.symm h3,
    Ne.symm h4]

theorem lifecycleStage_known (s : String) (h : s ∈ ["BUILD", "DEPLOY", "RUNTIME"]) :
    mapLookup lifecycleStagesMap s = some s := by
  simp only [List.mem_cons, List.mem_singleton, List.not_mem_nil, or_false] at h
  rcases h with rfl | rfl | rfl <;> decide

theorem lifecycleStage_unknown (s : String) (h : s ∉ ["BUILD", "DEPLOY", "RUNTIME"]) :
    mapLookup lifecycleStagesMap s = none := by
  simp only [List.mem_cons, List.mem_singleton, List.not_mem_nil, or_false, not_or] at h
  obtain ⟨h1, h2, h3⟩ := h
  simp [mapLookup, lifecycleStagesMap, List.find?, Ne.symm h1, Ne.symm h2, Ne.symm h3]

theorem lifecycleStagesLoop_known (l : List String) :
    ∀ acc, (∀ s ∈ l, s ∈ ["BUILD", "DEPLOY", "RUNTIME"]) →
      lifecycleStagesLoop l acc = (acc ++ l, none) := by
  induction l with
  | nil => intro acc _; simp [lifecycleStagesLoop]
  | cons s rest ih =>
    intro acc h
    rw [lifecycleStagesLoop, lifecycleStage_known s (h s (List.mem_cons_self _ _))]
    simp only
    rw [ih (acc ++ [s]) (fun x hx => h x (List.mem_cons_of_mem _ hx))]
    simp

theorem lifecycleStagesLoop_unknown (l : List String) :
    ∀ acc, (∃ s ∈ l, s ∉ ["BUILD", "DEPLOY", "RUNTIME"]) →
      lifecycleStagesLoop l acc =
        ([], some (GoError.errorf "Unsupported lifecyle stage" [])) := by
  induction l with
  | nil => intro acc h; obtain ⟨s, hs, _⟩ := h; cases hs
  | cons s rest ih =>
    intro acc h
    by_cases hs : s ∈ ["BUILD", "DEPLOY", "RUNTIME"]
    · rw [lifecycleStagesLoop, lifecycleStage_known s hs]
      simp only
      apply ih
      obtain ⟨x, hx, hbad⟩ := h
      rcases List.mem_cons.mp hx with rfl | hx
      · exact absurd hs hbad
      · exact ⟨x, hx, hbad⟩
    · rw [lifecycleStagesLoop, lifecycleStage_unknown s hs]

/-- A payload is refused, by an error or by a panic, when the severity or a
lifecycle stage is out of vocabulary or the CVSS string cannot be scanned. -/
theorem policyMessageFrom_refuses (data : ResourceData)
    (hbad : data.GetString "severity" ∉
          ["LOW_SEVERITY", "MEDIUM_SEVERITY", "HIGH_SEVERITY", "CRITICAL_SEVERITY"] ∨
        (∃ s ∈ data.GetStrings "lifecycle_stages", s ∉ ["BUILD", "DEPLOY", "RUNTIME"]) ∨
        (∃ criteria rest v e, data.GetBlocks "policy_criteria" = criteria :: rest ∧
          mapLookup criteria "cvss" = some v ∧ v ≠ "" ∧
          sscanfStringInt32 v = Except.error e)) :
    (∃ p, stackRoxPolicyMessageFrom data = Exec.panics p) ∨
    (∃ m err, stackRoxPolicyMessageFrom data = Exec.returns (m, some err)) := by
  unfold stackRoxPolicyMessageFrom
  simp only [categoriesFrom]
  by_cases hl : ∀ s ∈ data.GetStrings "lifecycle_stages", s ∈ ["BUILD", "DEPLOY", "RUNTIME"]
  swap
  · push_neg at hl
    simp only [lifecycleStagesFrom, lifecycleStagesLoop_unknown _ [] hl]
    exact Or.inr ⟨_, _, rfl⟩
  simp only [lifecycleStagesFrom, lifecycleStagesLoop_known _ [] hl]
  by_cases hs : data.GetString "severity" ∈
      ["LOW_SEVERITY", "MEDIUM_SEVERITY", "HIGH_SEVERITY", "CRITICAL_SEVERITY"]
  swap
  · simp only [severityFrom_unknown _ hs]
    exact Or.inr ⟨_, _, rfl⟩
  simp only [severityFrom_known _ hs]
  rcases hbad with h | h | h
  · exact absurd hs h
  · obtain ⟨s, hs1, hs2⟩ := h
    exact absurd (hl s hs1) hs2
  · obtain ⟨criteria, rest, v, e, hc, hv, hne, hscan⟩ := h
    simp only [hc, hv, stackRoxCvssFromTerraform, if_neg hne, hscan]
    exact Or.inl ⟨_, rfl⟩

/-! ## Validation before the network -/

/-- C11 at the failing input: the cvss string `>= 3.5` is not an operator
followed by an integer, yet `stackRoxPolicyCreate` does not fail on it: it
returns a nil error after issuing the creation call, with the threshold 3,
and the read that follows. It issues the same two calls for `>= 3 abc`, and
so does an Update with a changed tracked field for both strings. -/
theorem policy_create_accepts_trailing_text :
    (stackRoxPolicyCreate (policyConfig "HIGH_SEVERITY" ["DEPLOY"] ">= 3.5" "true")
        okClient).outcome = Exec.returns none ∧
    (stackRoxPolicyCreate (policyConfig "HIGH_SEVERITY" ["DEPLOY"] ">= 3.5" "true")
        okClient).calls =
      [ApiCall.PostPolicy
          ⟨"", "no-root", "d", "r", "m", false, ["Security"], ["DEPLOY"], "HIGH_SEVERITY", [],
            ⟨some ⟨STORAGECOMPARATOR_GREATER_THAN_OR_EQUALS, 3⟩, some true⟩⟩,
        ApiCall.GetPolicy ""] ∧
    (stackRoxPolicyCreate (policyConfig "HIGH_SEVERITY" ["DEPLOY"] ">= 3 abc" "true")
        okClient).calls =
      (stackRoxPolicyCreate (policyConfig "HIGH_SEVERITY" ["DEPLOY"] ">= 3.5" "true")
        okClient).calls ∧
    ((policyConfig "HIGH_SEVERITY" ["DEPLOY"] ">= 3.5" "true").SetId "p9").HasChanges
      ["name", "description", "rationale", "remediation", "disabled", "categories",
        "lifecycle_stages", "severity", "notifiers", "policy_criteria"] = true ∧
    (stackRoxPolicyUpdate ((policyConfig "HIGH_SEVERITY" ["DEPLOY"] ">= 3.5" "true").SetId "p9")
        okClient).outcome = Exec.returns none ∧
    (stackRoxPolicyUpdate ((policyConfig "HIGH_SEVERITY" ["DEPLOY"] ">= 3.5" "true").SetId "p9")
        okClient).calls =
      [ApiCall.PutPolicy "p9"
          ⟨"", "no-root", "d", "r", "m", false, ["Security"], ["DEPLOY"], "HIGH_SEVERITY", [],
            ⟨some ⟨STORAGECOMPARATOR_GREATER_THAN_OR_EQUALS, 3⟩, some true⟩⟩,
        ApiCall.GetPolicy "p9"] ∧
    (stackRoxPolicyUpdate ((policyConfig "HIGH_SEVERITY" ["DEPLOY"] ">= 3 abc" "true").SetId "p9")
        okClient).calls =
      (stackRoxPolicyUpdate ((policyConfig "HIGH_SEVERITY" ["DEPLOY"] ">= 3.5" "true").SetId "p9")
        okClient).calls := by
  decide

/-- The part of the validation that does precede the network: for the
policy resource, a Create, or an Update with a changed tracked field, whose
configuration has a severity outside the severity vocabulary, a lifecycle
stage outside the lifecycle vocabulary, or a non-empty cvss string that
`fmt.Sscanf` cannot scan with `%s %d`, fails (it returns an error for the
two vocabularies and panics for the cvss string), issues no API call and
leaves the resource data, the identifier included, unchanged. -/
theorem policy_validation_precedes_network (data : ResourceData) (cli : ClientWrap)
    (hbad : data.GetString "severity" ∉
          ["LOW_SEVERITY", "MEDIUM_SEVERITY", "HIGH_SEVERITY", "CRITICAL_SEVERITY"] ∨
        (∃ s ∈ data.GetStrings "lifecycle_stages", s ∉ ["BUILD", "DEPLOY", "RUNTIME"]) ∨
        (∃ criteria rest v e, data.GetBlocks "policy_criteria" = criteria :: rest ∧
          mapLookup criteria "cvss" = some v ∧ v ≠ "" ∧
          sscanfStringInt32 v = Except.error e)) :
    ((stackRoxPolicyCreate data cli).outcome ≠ Exec.returns none ∧
      (stackRoxPolicyCreate data cli).calls = [] ∧
      (stackRoxPolicyCreate data cli).data = data) ∧
    (data.HasChanges ["name", "description", "rationale", "remediation", "disabled",
        "categories", "lifecycle_stages", "severity", "notifiers", "policy_criteria"] = true →
      (stackRoxPolicyUpdate data cli).outcome ≠ Exec.returns none ∧
      (stackRoxPolicyUpdate data cli).calls = [] ∧
      (stackRoxPolicyUpdate data cli).data = data) := by
  constructor
  · rcases policyMessageFrom_refuses data hbad with ⟨p, hp⟩ | ⟨m, err, hm⟩
    · simp [stackRoxPolicyCreate, hp]
    · simp [stackRoxPolicyCreate, hm]
  · intro hch
    have hch2 : data.HasChanges policyTrackedKeys = true := hch
    rcases policyMessageFrom_refuses data hbad with ⟨p, hp⟩ | ⟨m, err, hm⟩
    · simp [stackRoxPolicyUpdate, hch2, hp]
    · simp [stackRoxPolicyUpdate, hch2, hm]

/-- An instance of the above: a severity out of vocabulary is refused with
an error, and the cvss string `>=3`, which has no space before the integer,
with a panic, before any API call. -/
theorem policy_validation_precedes_network_witness :
    ((stackRoxPolicyCreate (policyConfig "HIGH" ["DEPLOY"] ">= 3" "true") okClient).outcome ≠
        Exec.returns none ∧
      (stackRoxPolicyCreate (policyConfig "HIGH" ["DEPLOY"] ">= 3" "true") okClient).calls = [] ∧
      (stackRoxPolicyCreate (policyConfig "HIGH" ["DEPLOY"] ">= 3" "true") okClient).data =
        policyConfig "HIGH" ["DEPLOY"] ">= 3" "true") ∧
    ((stackRoxPolicyUpdate (policyConfig "HIGH_SEVERITY" ["DEPLOY"] ">=3" "true")
        okClient).outcome ≠ Exec.returns none ∧
      (stackRoxPolicyUpdate (policyConfig "HIGH_SEVERITY" ["DEPLOY"] ">=3" "true")
        okClient).calls = [] ∧
      (stackRoxPolicyUpdate (policyConfig "HIGH_SEVERITY" ["DEPLOY"] ">=3" "true")
        okClient).data = policyConfig "HIGH_SEVERITY" ["DEPLOY"] ">=3" "true") :=
  ⟨(policy_validation_precedes_network (policyConfig "HIGH" ["DEPLOY"] ">= 3" "true") okClient
      (Or.inl (by decide))).1,
    (policy_validation_precedes_network (policyConfig "HIGH_SEVERITY" ["DEPLOY"] ">=3" "true")
      okClient
      (Or.inr (Or.inr ⟨[("cvss", ">=3"), ("privileged", "true")], [], ">=3",
        GoError.scan "end of input", by decide, by decide, by decide, by rfl⟩))).2
      (by decide)⟩

theorem policyMessageFrom_unknown_enum (data : ResourceData)
    (hbad : data.GetString "severity" ∉
          ["LOW_SEVERITY", "MEDIUM_SEVERITY", "HIGH_SEVERITY", "CRITICAL_SEVERITY"] ∨
        (∃ s ∈ data.GetStrings "lifecycle_stages", s ∉ ["BUILD", "DEPLOY", "RUNTIME"])) :
    ∃ err, stackRoxPolicyMessageFrom data = Exec.returns (zeroStoragePolicy, some err) := by
  unfold stackRoxPolicyMessageFrom
  simp only [categoriesFrom]
  by_cases hl : ∀ s ∈ data.GetStrings "lifecycle_stages", s ∈ ["BUILD", "DEPLOY", "RUNTIME"]
  swap
  · push_neg at hl
    simp only [lifecycleStagesFrom, lifecycleStagesLoop_unknown _ [] hl]
    exact ⟨_, rfl⟩
  simp only [lifecycleStagesFrom, lifecycleStagesLoop_known _ [] hl]
  rcases hbad with h | h
  · simp only [severityFrom_unknown _ h]
    exact ⟨_, rfl⟩
  · obtain ⟨s, hs1, hs2⟩ := h
    exact absurd (hl s hs1) hs2

theorem severityFrom_error_iff (s : String) :
    (severityFrom s).2 = none ↔
      s ∈ ["LOW_SEVERITY", "MEDIUM_SEVERITY", "HIGH_SEVERITY", "CRITICAL_SEVERITY"] := by
  by_cases h : s ∈ ["LOW_SEVERITY", "MEDIUM_SEVERITY", "HIGH_SEVERITY", "CRITICAL_SEVERITY"]
  · simp [severityFrom_known s h, h]
  · simp [severityFrom_unknown s h, h]

theorem lifecycleStagesFrom_error_iff (l : List String) :
    (lifecycleStagesFrom l).2 = none ↔ ∀ s ∈ l, s ∈ ["BUILD", "DEPLOY", "RUNTIME"] := by
  by_cases h : ∀ s ∈ l, s ∈ ["BUILD", "DEPLOY", "RUNTIME"]
  · simp only [lifecycleStagesFrom, lifecycleStagesLoop_known l [] h, true_iff]
    exact h
  · have h2 : ∃ s ∈ l, s ∉ ["BUILD", "DEPLOY", "RUNTIME"] := by push_neg at h; exact h
    simp only [lifecycleStagesFrom, lifecycleStagesLoop_unknown l [] h2]
    constructor
    · intro hc; cases hc
    · intro hc; exact absurd hc h

/-- C12, as stated, fails: in the policy schema neither `severity` nor
`lifecycle_stages` carries a validator. -/
theorem policy_schema_has_no_enum_validator :
    (schemaValidateFunc resourceStackRoxPolicySchema "severity").isSome = false ∧
    (schemaValidateFunc resourceStackRoxPolicySchema "lifecycle_stages").isSome = false := by
  decide

/-- C12, amended: of the three fields only `collection_method` carries a
schema validator, and that validator accepts exactly NO_COLLECTION,
KERNEL_MODULE and EBPF. The fields `severity` and `lifecycle_stages` carry
none; `severityFrom` and `lifecycleStagesFrom` accept exactly the values of
their vocabularies, and a Create, or an Update with a changed tracked
field, whose severity or lifecycle stage is out of vocabulary returns their
error without issuing an API call. -/
theorem enum_validation_sites :
    (∃ validate,
      schemaValidateFunc resourceStackRoxKubernetesClusterSchema "collection_method" =
        some validate ∧
      ∀ v, validate v "collection_method" = [] ↔
        v ∈ ["NO_COLLECTION", "KERNEL_MODULE", "EBPF"]) ∧
    (schemaValidateFunc resourceStackRoxPolicySchema "severity").isSome = false ∧
    (schemaValidateFunc resourceStackRoxPolicySchema "lifecycle_stages").isSome = false ∧
    (∀ s, (severityFrom s).2 = none ↔
      s ∈ ["LOW_SEVERITY", "MEDIUM_SEVERITY", "HIGH_SEVERITY", "CRITICAL_SEVERITY"]) ∧
    (∀ l, (lifecycleStagesFrom l).2 = none ↔ ∀ s ∈ l, s ∈ ["BUILD", "DEPLOY", "RUNTIME"]) ∧
    (∀ data cli,
      (data.GetString "severity" ∉
          ["LOW_SEVERITY", "MEDIUM_SEVERITY", "HIGH_SEVERITY", "CRITICAL_SEVERITY"] ∨
        (∃ s ∈ data.GetStrings "lifecycle_stages", s ∉ ["BUILD", "DEPLOY", "RUNTIME"])) →
      (∃ err, (stackRoxPolicyCreate data cli).outcome = Exec.returns (some err)) ∧
      (stackRoxPolicyCreate data cli).calls = [] ∧
      (data.HasChanges ["name", "description", "rationale", "remediation", "disabled",
          "categories", "lifecycle_stages", "severity", "notifiers", "policy_criteria"] = true →
        (∃ err, (stackRoxPolicyUpdate data cli).outcome = Exec.returns (some err)) ∧
        (stackRoxPolicyUpdate data cli).calls = [])) := by
  refine ⟨⟨_, rfl, fun v => ?_⟩, by decide, by decide, severityFrom_error_iff,
    lifecycleStagesFrom_error_iff, fun data cli hbad => ?_⟩
  · simp only [validationStringInSlice, STORAGECOLLECTIONMETHOD_NO_COLLECTION,
      STORAGECOLLECTIONMETHOD_KERNEL_MODULE, STORAGECOLLECTIONMETHOD_EBPF, List.any_cons,
      List.any_nil, Bool.or_false, Bool.or_eq_true, decide_eq_true_eq, List.mem_cons,
      List.mem_singleton, List.not_mem_nil, or_false]
    split <;> simp_all
  · obtain ⟨err, herr⟩ := policyMessageFrom_unknown_enum data hbad
    refine ⟨by simp [stackRoxPolicyCreate, herr], by simp [stackRoxPolicyCreate, herr], ?_⟩
    intro hch
    have hch2 : data.HasChanges policyTrackedKeys = true := hch
    exact ⟨by simp [stackRoxPolicyUpdate, hch2, herr], by simp [stackRoxPolicyUpdate, hch2, herr]⟩

/-- Witness for C12 (amended): a policy whose lifecycle stage is `TEST` is
refused by Create, and a policy `p9` whose severity is changed to `HIGH` is
refused by Update, with an error and without an API call. -/
theorem enum_validation_sites_witness :
    ((∃ err, (stackRoxPolicyCreate (policyConfig "HIGH_SEVERITY" ["TEST"] ">= 3" "true")
        okClient).outcome = Exec.returns (some err)) ∧
      (stackRoxPolicyCreate (policyConfig "HIGH_SEVERITY" ["TEST"] ">= 3" "true")
        okClient).calls = []) ∧
    ((∃ err, (stackRoxPolicyUpdate ((policyConfig "HIGH" ["DEPLOY"] ">= 3" "true").SetId "p9")
        okClient).outcome = Exec.returns (some err)) ∧
      (stackRoxPolicyUpdate ((policyConfig "HIGH" ["DEPLOY"] ">= 3" "true").SetId "p9")
        okClient).calls = []) :=
  ⟨⟨(enum_validation_sites.2.2.2.2.2 (policyConfig "HIGH_SEVERITY" ["TEST"] ">= 3" "true")
        okClient (Or.inr ⟨"TEST", by decide, by decide⟩)).1,
      (enum_validation_sites.2.2.2.2.2 (policyConfig "HIGH_SEVERITY" ["TEST"] ">= 3" "true")
        okClient (Or.inr ⟨"TEST", by decide, by decide⟩)).2.1⟩,
    (enum_validation_sites.2.2.2.2.2 ((policyConfig "HIGH" ["DEPLOY"] ">= 3" "true").SetId "p9")
      okClient (Or.inl (by decide))).2.2 (by decide)⟩

/-! ## Reading back what was set -/

theorem find?_setAttr_same (key : String) (v : TfValue) (attrs : List (String × TfValue)) :
    ((setAttr key v attrs).find? (fun p => p.1 = key)).map Prod.snd = some v := by
  induction attrs with
  | nil => simp [setAttr]
  | cons p rest ih =>
    obtain ⟨k, w⟩ := p
    by_cases h : k = key
    · simp [setAttr, h]
    · simp [setAttr, h, List.find?, ih]

theorem find?_setAttr_other (key k : String) (v : TfValue) (attrs : List (String × TfValue))
    (hk : k ≠ key) :
    ((setAttr key v attrs).find? (fun p => p.1 = k)).map Prod.snd =
      (attrs.find? (fun p => p.1 = k)).map Prod.snd := by
  induction attrs with
  | nil => simp [setAttr, List.find?, Ne.symm hk]
  | cons p rest ih =>
    obtain ⟨k2, w⟩ := p
    by_cases h : k2 = key
    · subst h
      simp [setAttr, List.find?, Ne.symm hk]
    · by_cases h2 : k2 = k
      · subst h2
        simp [setAttr, h, List.find?]
      · simp [setAttr, h, List.find?, h2, ih]

theorem get_set_same (data : ResourceData) (key : String) (v : TfValue)
    (hs : data.schemaless = false) : (data.Set key v).Get key = some v := by
  simp [ResourceData.Set, ResourceData.Get, hs, find?_setAttr_same]

theorem get_set_other (data : ResourceData) (key k : String) (v : TfValue) (hk : k ≠ key) :
    (data.Set key v).Get k = data.Get k := by
  unfold ResourceData.Set ResourceData.Get
  split
  · rfl
  · exact find?_setAttr_other key k v data.attrs hk

theorem set_schemaless (data : ResourceData) (key : String) (v : TfValue) :
    (data.Set key v).schemaless = data.schemaless := by
  unfold ResourceData.Set
  split <;> rfl

theorem set_id (data : ResourceData) (key : String) (v : TfValue) :
    (data.Set key v).id = data.id := by
  unfold ResourceData.Set
  split <;> rfl

/-! ## Create then Read of a policy -/

theorem cvss_config_roundtrip (cvss : String)
    (hcvss : cvss = "" ∨ ∃ (sym : String) (n : Int) (m e : Nat),
      sym ∈ ["=", ">", ">=", "<", "<="] ∧ -2147483648 ≤ n ∧ n ≤ 2147483647 ∧
      m < 16777216 ∧ n.natAbs = m * 2 ^ e ∧ cvss = sym ++ " " ++ formatInt n) :
    ∃ c, stackRoxCvssFromTerraform (some cvss) = Exec.returns c ∧
      stackRoxTerraformCvssFromMessage c = Exec.returns cvss := by
  rcases hcvss with rfl | ⟨sym, n, m, e, hsym, hlo, hhi, hm, hrep, rfl⟩
  · exact ⟨none, by decide, by decide⟩
  · have hs : sym ++ " " ++ formatInt n = sprintfStringInt sym n := rfl
    rw [hs]
    refine ⟨some ⟨mapIndex stackRoxCvssSymbolToOp sym, (n : ℚ)⟩, ?_, ?_⟩
    · simp only [stackRoxCvssFromTerraform, if_neg (sprintfStringInt_ne_empty sym n),
        sscanf_sprintf sym n hsym hlo hhi, float32OfInt32_exact n m e hm hrep]
    · simp only [stackRoxTerraformCvssFromMessage, cvssOp_of_symbol sym hsym,
        int32OfFloat32_intCast n hlo hhi]

theorem privileged_config_roundtrip (privileged : String)
    (hp : privileged ∈ ["", "true", "false"]) :
    ∃ b, stackRoxBoolPtrFromTerraform (some privileged) = Exec.returns b ∧
      stackRoxTerraformBoolFromMessage b = privileged := by
  simp only [List.mem_cons, List.mem_singleton, List.not_mem_nil, or_false] at hp
  rcases hp with rfl | rfl | rfl
  · exact ⟨none, by decide, by decide⟩
  · exact ⟨some true, by decide, by decide⟩
  · exact ⟨some false, by decide, by decide⟩

/-- C13, as stated, fails: the cvss string `>= 3.5` and the privileged string
`T` are both accepted, the payload built from them holds the value 3 and
`true`, and projecting it back gives `>= 3` and `true`. -/
theorem policy_convergence_fails_on_accepted_strings :
    (policyConfig "HIGH_SEVERITY" ["DEPLOY"] ">= 3.5" "T").GetBlocks "policy_criteria" =
      [[("cvss", ">= 3.5"), ("privileged", "T")]] ∧
    stackRoxPolicyMessageFrom (policyConfig "HIGH_SEVERITY" ["DEPLOY"] ">= 3.5" "T") =
      Exec.returns
        (⟨"", "no-root", "d", "r", "m", false, ["Security"], ["DEPLOY"], "HIGH_SEVERITY", [],
          ⟨some ⟨STORAGECOMPARATOR_GREATER_THAN_OR_EQUALS, 3⟩, some true⟩⟩, none) ∧
    ((stackRoxPolicySetState (policyConfig "HIGH_SEVERITY" ["DEPLOY"] ">= 3.5" "T")
        ⟨"", "no-root", "d", "r", "m", false, ["Security"], ["DEPLOY"], "HIGH_SEVERITY", [],
          ⟨some ⟨STORAGECOMPARATOR_GREATER_THAN_OR_EQUALS, 3⟩, some true⟩⟩).2).GetBlocks
        "policy_criteria" =
      [[("cvss", ">= 3"), ("privileged", "true")]] := by
  decide

/-- C13, amended: for every configuration whose severity and lifecycle
stages are in vocabulary, whose cvss string is empty or a symbol among
`=`, `>`, `>=`, `<`, `<=`, one space and the decimal text of a 32-bit integer
that a `float32` holds exactly, and whose privileged string is empty, `true`
or `false`, `stackRoxPolicyMessageFrom` builds a payload and
`stackRoxPolicySetState` applied to it yields name, description, rationale,
remediation, disabled, categories, lifecycle_stages, severity, notifiers and
the cvss and privileged criteria all equal to the configured values. -/
theorem policy_create_read_convergence (data : ResourceData)
    (criteria : List (String × String)) (rest : List (List (String × String)))
    (cvss privileged : String)
    (hschema : data.schemaless = false)
    (hsev : data.GetString "severity" ∈
      ["LOW_SEVERITY", "MEDIUM_SEVERITY", "HIGH_SEVERITY", "CRITICAL_SEVERITY"])
    (hstages : ∀ s ∈ data.GetStrings "lifecycle_stages", s ∈ ["BUILD", "DEPLOY", "RUNTIME"])
    (hcrit : data.GetBlocks "policy_criteria" = criteria :: rest)
    (hc : mapLookup criteria "cvss" = some cvss)
    (hp : mapLookup criteria "privileged" = some privileged)
    (hcvss : cvss = "" ∨ ∃ (sym : String) (n : Int) (m e : Nat),
      sym ∈ ["=", ">", ">=", "<", "<="] ∧ -2147483648 ≤ n ∧ n ≤ 2147483647 ∧
      m < 16777216 ∧ n.natAbs = m * 2 ^ e ∧ cvss = sym ++ " " ++ formatInt n)
    (hpriv : privileged ∈ ["", "true", "false"]) :
    ∃ message state,
      stackRoxPolicyMessageFrom data = Exec.returns (message, none) ∧
      stackRoxPolicySetState data message = (Exec.returns none, state) ∧
      state.GetString "name" = data.GetString "name" ∧
      state.GetString "description" = data.GetString "description" ∧
      state.GetString "rationale" = data.GetString "rationale" ∧
      state.GetString "remediation" = data.GetString "remediation" ∧
      state.GetBool "disabled" = data.GetBool "disabled" ∧
      state.GetStrings "categories" = data.GetStrings "categories" ∧
      state.GetStrings "lifecycle_stages" = data.GetStrings "lifecycle_stages" ∧
      state.GetString "severity" = data.GetString "severity" ∧
      state.GetStrings "notifiers" = data.GetStrings "notifiers" ∧
      state.GetBlocks "policy_criteria" = [[("cvss", cvss), ("privileged", privileged)]] := by
  obtain ⟨c, hc1, hc2⟩ := cvss_config_roundtrip cvss hcvss
  obtain ⟨b, hb1, hb2⟩ := privileged_config_roundtrip privileged hpriv
  refine ⟨⟨"", data.GetString "name", data.GetString "description",
    data.GetString "rationale", data.GetString "remediation", data.GetBool "disabled",
    data.GetStrings "categories", data.GetStrings "lifecycle_stages",
    data.GetString "severity", data.GetStrings "notifiers", ⟨c, b⟩⟩,
    ((((((((((data.Set "name" (TfValue.str (data.GetString "name"))).Set "description"
      (TfValue.str (data.GetString "description"))).Set "rationale"
      (TfValue.str (data.GetString "rationale"))).Set "remediation"
      (TfValue.str (data.GetString "remediation"))).Set "disabled"
      (TfValue.bool (data.GetBool "disabled"))).Set "categories"
      (TfValue.strings (data.GetStrings "categories"))).Set "lifecycle_stages"
      (TfValue.strings (data.GetStrings "lifecycle_stages"))).Set "severity"
      (TfValue.str (data.GetString "severity"))).Set "notifiers"
      (TfValue.strings (data.GetStrings "notifiers"))).Set "policy_criteria"
      (TfValue.blocks [[("cvss", cvss), ("privileged", privileged)]])), ?_, ?_, ?_⟩
  · simp only [stackRoxPolicyMessageFrom, categoriesFrom, lifecycleStagesFrom,
      lifecycleStagesLoop_known _ [] hstages, severityFrom_known _ hsev, hcrit, hc, hp, hc1,
      hb1, notifiersFrom, List.nil_append]
  · simp only [stackRoxPolicySetState, ResourceData.SetError, hschema, hc2, hb2]
    rfl
  · simp [ResourceData.GetString, ResourceData.GetBool, ResourceData.GetStrings,
      ResourceData.GetBlocks, get_set_same, get_set_other, set_schemaless, hschema]

/-- Witness for C13 (amended): the configuration of the acceptance test,
with cvss `>= 3` and privileged `true`, converges. -/
theorem policy_create_read_convergence_witness :
    ∃ message state,
      stackRoxPolicyMessageFrom (policyConfig "HIGH_SEVERITY" ["DEPLOY"] ">= 3" "true") =
        Exec.returns (message, none) ∧
      stackRoxPolicySetState (policyConfig "HIGH_SEVERITY" ["DEPLOY"] ">= 3" "true") message =
        (Exec.returns none, state) ∧
      state.GetString "name" =
        (policyConfig "HIGH_SEVERITY" ["DEPLOY"] ">= 3" "true").GetString "name" ∧
      state.GetString "description" =
        (policyConfig "HIGH_SEVERITY" ["DEPLOY"] ">= 3" "true").GetString "description" ∧
      state.GetString "rationale" =
        (policyConfig "HIGH_SEVERITY" ["DEPLOY"] ">= 3" "true").GetString "rationale" ∧
      state.GetString "remediation" =
        (policyConfig "HIGH_SEVERITY" ["DEPLOY"] ">= 3" "true").GetString "remediation" ∧
      state.GetBool "disabled" =
        (policyConfig "HIGH_SEVERITY" ["DEPLOY"] ">= 3" "true").GetBool "disabled" ∧
      state.GetStrings "categories" =
        (policyConfig "HIGH_SEVERITY" ["DEPLOY"] ">= 3" "true").GetStrings "categories" ∧
      state.GetStrings "lifecycle_stages" =
        (policyConfig "HIGH_SEVERITY" ["DEPLOY"] ">= 3" "true").GetStrings "lifecycle_stages" ∧
      state.GetString "severity" =
        (policyConfig "HIGH_SEVERITY" ["DEPLOY"] ">= 3" "true").GetString "severity" ∧
      state.GetStrings "notifiers" =
        (policyConfig "HIGH_SEVERITY" ["DEPLOY"] ">= 3" "true").GetStrings "notifiers" ∧
      state.GetBlocks "policy_criteria" = [[("cvss", ">= 3"), ("privileged", "true")]] :=
  policy_create_read_convergence (policyConfig "HIGH_SEVERITY" ["DEPLOY"] ">= 3" "true")
    [("cvss", ">= 3"), ("privileged", "true")] [] ">= 3" "true" (by decide) (by decide)
    (by decide) (by decide) (by decide) (by decide)
    (Or.inr ⟨">=", 3, 3, 0, by decide, by decide, by decide, by decide, by decide, by decide⟩)
    (by decide)

/-! ## Create and Update -/

theorem policyRead_calls (data : ResourceData) (cli : ClientWrap) :
    (stackRoxPolicyRead data cli).calls = [ApiCall.GetPolicy data.id] := by
  unfold stackRoxPolicyRead
  generalize cli.GetPolicy data.id = r
  obtain ⟨res, resp, err⟩ := r
  cases resp <;> cases err <;> simp only [ApiResult.status, Option.map] <;>
    (repeat' split) <;> rfl

theorem genericImageRegistryRead_calls (data : ResourceData) (cli : ClientWrap) :
    (stackRoxGenericImageRegistryRead data cli).calls =
      [ApiCall.GetImageIntegration data.id] := by
  unfold stackRoxGenericImageRegistryRead
  generalize cli.GetImageIntegration data.id = r
  obtain ⟨res, resp, err⟩ := r
  cases resp <;> cases err <;> simp only [ApiResult.status, Option.map]
  all_goals (repeat' split)
  all_goals rfl

theorem splunkIntegrationRead_calls (data : ResourceData) (cli : ClientWrap) :
    (stackRoxSplunkIntegrationRead data cli).calls = [ApiCall.GetNotifier data.id] := by
  unfold stackRoxSplunkIntegrationRead
  generalize cli.GetNotifier data.id = r
  obtain ⟨res, resp, err⟩ := r
  cases resp <;> cases err <;> simp only [ApiResult.status, Option.map] <;>
    (repeat' split) <;> rfl

theorem kubernetesClusterRead_calls (data : ResourceData) (cli : ClientWrap) :
    (stackRoxKubernetesClusterRead data cli).calls =
      [ApiCall.GetCluster (data.GetString "cluster_id")] := by
  unfold stackRoxKubernetesClusterRead
  generalize cli.GetCluster (data.GetString "cluster_id") = r
  obtain ⟨res, resp, err⟩ := r
  cases resp <;> cases err <;> simp only [ApiResult.status, Option.map] <;>
    (repeat' split) <;> rfl

/-- C14: for the policy, the generic image registry and the splunk
integration, a Create whose creation call returns no error stores the
identifier of the result and then runs Read on the data with that
identifier, returning what Read returns (the calls being the creation call
followed by Read's lookup of that identifier); a Create whose creation call
returns an error returns that error, issues no further call and leaves the
data, the identifier included, as it was. -/
theorem create_stores_id_then_reads (data : ResourceData) (cli : ClientWrap) :
    (∀ message, stackRoxPolicyMessageFrom data = Exec.returns (message, none) →
      ((cli.PostPolicy message).err = none →
        stackRoxPolicyCreate data cli =
          ⟨(stackRoxPolicyRead (data.SetId (cli.PostPolicy message).result.Id) cli).outcome,
           (stackRoxPolicyRead (data.SetId (cli.PostPolicy message).result.Id) cli).data,
           [ApiCall.PostPolicy message,
            ApiCall.GetPolicy (cli.PostPolicy message).result.Id]⟩) ∧
      (∀ e, (cli.PostPolicy message).err = some e →
        stackRoxPolicyCreate data cli =
          ⟨Exec.returns (some e), data, [ApiCall.PostPolicy message]⟩)) ∧
    (((cli.PostImageIntegration (genericImageRegistryMessage data)).err = none →
        stackRoxGenericImageRegistryCreate data cli =
          ⟨(stackRoxGenericImageRegistryRead (data.SetId
              (cli.PostImageIntegration (genericImageRegistryMessage data)).result.Id)
              cli).outcome,
           (stackRoxGenericImageRegistryRead (data.SetId
              (cli.PostImageIntegration (genericImageRegistryMessage data)).result.Id)
              cli).data,
           [ApiCall.PostImageIntegration (genericImageRegistryMessage data),
            ApiCall.GetImageIntegration
              (cli.PostImageIntegration (genericImageRegistryMessage data)).result.Id]⟩) ∧
      (∀ e, (cli.PostImageIntegration (genericImageRegistryMessage data)).err = some e →
        stackRoxGenericImageRegistryCreate data cli =
          ⟨Exec.returns (some e), data,
            [ApiCall.PostImageIntegration (genericImageRegistryMessage data)]⟩)) ∧
    (((cli.PostNotifier (splunkIntegrationMessage data)).err = none →
        stackRoxSplunkIntegrationCreate data cli =
          ⟨(stackRoxSplunkIntegrationRead (data.SetId
              (cli.PostNotifier (splunkIntegrationMessage data)).result.Id) cli).outcome,
           (stackRoxSplunkIntegrationRead (data.SetId
              (cli.PostNotifier (splunkIntegrationMessage data)).result.Id) cli).data,
           [ApiCall.PostNotifier (splunkIntegrationMessage data),
            ApiCall.GetNotifier
              (cli.PostNotifier (splunkIntegrationMessage data)).result.Id]⟩) ∧
      (∀ e, (cli.PostNotifier (splunkIntegrationMessage data)).err = some e →
        stackRoxSplunkIntegrationCreate data cli =
          ⟨Exec.returns (some e), data,
            [ApiCall.PostNotifier (splunkIntegrationMessage data)]⟩)) := by
  refine ⟨fun message hm => ⟨fun h => ?_, fun e h => ?_⟩, ⟨fun h => ?_, fun e h => ?_⟩,
    ⟨fun h => ?_, fun e h => ?_⟩⟩
  · simp [stackRoxPolicyCreate, hm, h, policyRead_calls, ResourceData.SetId]
  · simp [stackRoxPolicyCreate, hm, h]
  · simp [stackRoxGenericImageRegistryCreate, h, genericImageRegistryRead_calls,
      ResourceData.SetId]
  · simp [stackRoxGenericImageRegistryCreate, h]
  · simp [stackRoxSplunkIntegrationCreate, h, splunkIntegrationRead_calls, ResourceData.SetId]
  · simp [stackRoxSplunkIntegrationCreate, h]

/-- Witness for C14: a registry creation call answered with an error, and a
notifier and a policy creation call that succeed. -/
theorem create_stores_id_then_reads_witness :
    stackRoxGenericImageRegistryCreate (bareData "") internalErrorClient =
      ⟨Exec.returns (some (GoError.api "500 Internal Server Error")), bareData "",
        [ApiCall.PostImageIntegration (genericImageRegistryMessage (bareData ""))]⟩ ∧
    (stackRoxSplunkIntegrationCreate (bareData "") notifierLookupClient).calls =
      [ApiCall.PostNotifier (splunkIntegrationMessage (bareData "")), ApiCall.GetNotifier ""] ∧
    (stackRoxPolicyCreate (policyConfig "HIGH_SEVERITY" ["DEPLOY"] ">= 3" "true")
        okClient).calls =
      [ApiCall.PostPolicy
          ⟨"", "no-root", "d", "r", "m", false, ["Security"], ["DEPLOY"], "HIGH_SEVERITY", [],
            ⟨some ⟨STORAGECOMPARATOR_GREATER_THAN_OR_EQUALS, 3⟩, some true⟩⟩,
        ApiCall.GetPolicy ""] :=
  ⟨(create_stores_id_then_reads (bareData "") internalErrorClient).2.1.2
      (GoError.api "500 Internal Server Error") rfl,
    congrArg OpResult.calls
      ((create_stores_id_then_reads (bareData "") notifierLookupClient).2.2.1 rfl),
    congrArg OpResult.calls
      (((create_stores_id_then_reads (policyConfig "HIGH_SEVERITY" ["DEPLOY"] ">= 3" "true")
        okClient).1
          ⟨"", "no-root", "d", "r", "m", false, ["Security"], ["DEPLOY"], "HIGH_SEVERITY", [],
            ⟨some ⟨STORAGECOMPARATOR_GREATER_THAN_OR_EQUALS, 3⟩, some true⟩⟩
          (by decide)).1 rfl)⟩

/-- C15: for the kubernetes cluster and for the policy, an Update of data
in which none of the tracked fields has a planned change is Read on the
same data and client: same returned error, same resulting data, same
calls, none of which is a Put. -/
theorem update_without_changes_is_read (data : ResourceData) (cli : ClientWrap) :
    ((∀ k ∈ ["name", "central_api_endpoint", "collection_method", "runtime_support"],
        k ∉ data.changes) →
      stackRoxKubernetesClusterUpdate data cli = stackRoxKubernetesClusterRead data cli ∧
      ∀ c ∈ (stackRoxKubernetesClusterUpdate data cli).calls,
        ∀ id body, c ≠ ApiCall.PutCluster id body) ∧
    ((∀ k ∈ ["name", "description", "rationale", "remediation", "disabled", "categories",
          "lifecycle_stages", "severity", "notifiers", "policy_criteria"],
        k ∉ data.changes) →
      stackRoxPolicyUpdate data cli = stackRoxPolicyRead data cli ∧
      ∀ c ∈ (stackRoxPolicyUpdate data cli).calls,
        ∀ id body, c ≠ ApiCall.PutPolicy id body) := by
  constructor
  · intro h
    have hno : data.HasChanges clusterTrackedKeys = false := by
      simp only [ResourceData.HasChanges, clusterTrackedKeys, List.any_eq_false,
        decide_eq_true_eq]
      exact h
    have heq : stackRoxKubernetesClusterUpdate data cli =
        stackRoxKubernetesClusterRead data cli := by
      simp [stackRoxKubernetesClusterUpdate, hno]
    refine ⟨heq, ?_⟩
    rw [heq, kubernetesClusterRead_calls]
    intro c hc id body hput
    rw [List.mem_singleton] at hc
    rw [hc] at hput
    cases hput
  · intro h
    have hno : data.HasChanges policyTrackedKeys = false := by
      simp only [ResourceData.HasChanges, policyTrackedKeys, List.any_eq_false,
        decide_eq_true_eq]
      exact h
    have heq : stackRoxPolicyUpdate data cli = stackRoxPolicyRead data cli := by
      simp [stackRoxPolicyUpdate, hno]
    refine ⟨heq, ?_⟩
    rw [heq, policyRead_calls]
    intro c hc id body hput
    rw [List.mem_singleton] at hc
    rw [hc] at hput
    cases hput

/-- Witness for C15: a cluster and a policy without planned changes. -/
theorem update_without_changes_is_read_witness :
    (stackRoxKubernetesClusterUpdate (clusterData "c1") okClient =
        stackRoxKubernetesClusterRead (clusterData "c1") okClient ∧
      ∀ c ∈ (stackRoxKubernetesClusterUpdate (clusterData "c1") okClient).calls,
        ∀ id body, c ≠ ApiCall.PutCluster id body) ∧
    (stackRoxPolicyUpdate (bareData "p1") okClient = stackRoxPolicyRead (bareData "p1") okClient ∧
      ∀ c ∈ (stackRoxPolicyUpdate (bareData "p1") okClient).calls,
        ∀ id body, c ≠ ApiCall.PutPolicy id body) :=
  ⟨(update_without_changes_is_read (clusterData "c1") okClient).1 (by decide),
    (update_without_changes_is_read (bareData "p1") okClient).2 (by decide)⟩

/-! ## Import -/

/-- C16 at the failing input: the name lookup succeeds with exactly one
integration. `stackRoxGenericImageRegistryImportState` returns exactly one
resource and its identifier is the integration's `Id`, but the resource is
the zero `ResourceData`, which has no schema: the calls of `Set` made by
`stackRoxGenericImageRegistrySetState` write nothing, so `name`, `endpoint`
and `username` are absent from it. With no integration or with two the
importer returns the error stating the count. -/
theorem registry_import_returns_bare_resource :
    (stackRoxGenericImageRegistryImportState (bareData "reg")
        (registryLookupClient [remoteRegistry "i1"])).outcome =
      Exec.returns ([⟨"i1", [], [], true⟩], none) ∧
    (remoteRegistry "i1").Name = "reg" ∧
    (⟨"i1", [], [], true⟩ : ResourceData).GetString "name" = "" ∧
    (stackRoxGenericImageRegistryImportState (bareData "reg")
        (registryLookupClient [])).outcome =
      Exec.returns ([], some (GoError.errorf "invalid number of integrations: %d" ["0"])) ∧
    (stackRoxGenericImageRegistryImportState (bareData "reg")
        (registryLookupClient [remoteRegistry "i1", remoteRegistry "i2"])).outcome =
      Exec.returns ([], some (GoError.errorf "invalid number of integrations: %d" ["2"])) := by
  decide

/-- C17, as stated, fails for the okta auth provider: when the lookup is
answered 404, `stackRoxOktaAuthProviderImportState` clears the identifier
and returns neither a resource nor an error. -/
theorem okta_import_not_found_is_no_error :
    (notFoundClient.GetAuthProvider "a1").status = some StatusNotFound ∧
    stackRoxOktaAuthProviderImportState (bareData "a1") notFoundClient =
      ⟨Exec.returns ([], none), bareData "", [ApiCall.GetAuthProvider "a1"]⟩ := by
  decide

/-- C17, amended: for every resource type but the okta auth provider,
Import of a key that matches no remote entity is an error, a non-nil error
and no resource being returned: for the generic image registry (a 404
answer, or a lookup by name that succeeds with no integration), the policy,
the splunk integration and the kubernetes cluster (a 404 answer, which the
client hands over together with a non-nil error). The okta auth provider's
importer, answered 404, clears the identifier and returns no resource and
no error. -/
theorem import_of_unknown_key (data : ResourceData) (cli : ClientWrap) :
    ((cli.GetImageIntegrations data.id).status = some StatusNotFound →
      ∃ e, (stackRoxGenericImageRegistryImportState data cli).outcome =
        Exec.returns ([], some e)) ∧
    ((cli.GetImageIntegrations data.id).status = some StatusOK →
      (cli.GetImageIntegrations data.id).err = none →
      (cli.GetImageIntegrations data.id).result.Integrations = [] →
      ∃ e, (stackRoxGenericImageRegistryImportState data cli).outcome =
        Exec.returns ([], some e)) ∧
    ((cli.GetPolicy data.id).status = some StatusNotFound →
      ∃ e, (stackRoxPolicyImportState data cli).outcome = Exec.returns ([], some e)) ∧
    ((cli.GetNotifier data.id).status = some StatusNotFound →
      ∃ e, (stackRoxSplunkIntegrationImportState data cli).outcome =
        Exec.returns ([], some e)) ∧
    ((cli.GetCluster data.id).status = some StatusNotFound →
      (cli.GetCluster data.id).err ≠ none →
      ∃ e, (stackRoxKubernetesClusterImportState data cli).outcome =
        Exec.returns ([], some e)) ∧
    ((cli.GetAuthProvider data.id).status = some StatusNotFound →
      (stackRoxOktaAuthProviderImportState data cli).outcome = Exec.returns ([], none) ∧
      (stackRoxOktaAuthProviderImportState data cli).data = data.SetId "") := by
  refine ⟨?_, ?_, ?_, ?_, ?_, ?_⟩
  · unfold stackRoxGenericImageRegistryImportState ApiResult.status
    generalize cli.GetImageIntegrations data.id = r
    obtain ⟨res, resp, err⟩ := r
    cases resp <;> cases err <;> simp [StatusNotFound, StatusOK]
    intro h
    simp [h]
  · unfold stackRoxGenericImageRegistryImportState ApiResult.status
    generalize cli.GetImageIntegrations data.id = r
    obtain ⟨res, resp, err⟩ := r
    cases resp <;> cases err <;> simp [StatusOK]
    intro h hres
    simp [h, hres]
  · unfold stackRoxPolicyImportState ApiResult.status
    generalize cli.GetPolicy data.id = r
    obtain ⟨res, resp, err⟩ := r
    cases resp <;> cases err <;> simp [StatusNotFound, StatusOK]
    intro h
    simp [h]
  · unfold stackRoxSplunkIntegrationImportState ApiResult.status
    generalize cli.GetNotifier data.id = r
    obtain ⟨res, resp, err⟩ := r
    cases resp <;> cases err <;> simp [StatusNotFound, StatusOK]
    intro h
    simp [h]
  · intro _ h
    obtain ⟨e, he⟩ := Option.ne_none_iff_exists'.mp h
    exact ⟨e, by simp [stackRoxKubernetesClusterImportState, he]⟩
  · intro h
    simp [stackRoxOktaAuthProviderImportState, h]

/-- Witness for C17 (amended): a remote that answers every lookup with 404
and the client's status error, and a name lookup that finds nothing. -/
theorem import_of_unknown_key_witness :
    (∃ e, (stackRoxGenericImageRegistryImportState (bareData "reg") notFoundClient).outcome =
      Exec.returns ([], some e)) ∧
    (∃ e, (stackRoxGenericImageRegistryImportState (bareData "reg")
      (registryLookupClient [])).outcome = Exec.returns ([], some e)) ∧
    (∃ e, (stackRoxPolicyImportState (bareData "p1") notFoundClient).outcome =
      Exec.returns ([], some e)) ∧
    (∃ e, (stackRoxSplunkIntegrationImportState (bareData "n1") notFoundClient).outcome =
      Exec.returns ([], some e)) ∧
    (∃ e, (stackRoxKubernetesClusterImportState (bareData "c1") notFoundClient).outcome =
      Exec.returns ([], some e)) ∧
    ((stackRoxOktaAuthProviderImportState (bareData "a1") notFoundClient).outcome =
        Exec.returns ([], none) ∧
      (stackRoxOktaAuthProviderImportState (bareData "a1") notFoundClient).data =
        (bareData "a1").SetId "") :=
  ⟨(import_of_unknown_key (bareData "reg") notFoundClient).1 (by decide),
    (import_of_unknown_key (bareData "reg") (registryLookupClient [])).2.1 (by decide) rfl rfl,
    (import_of_unknown_key (bareData "p1") notFoundClient).2.2.1 (by decide),
    (import_of_unknown_key (bareData "n1") notFoundClient).2.2.2.1 (by decide),
    (import_of_unknown_key (bareData "c1") notFoundClient).2.2.2.2.1 (by decide) (by decide),
    (import_of_unknown_key (bareData "a1") notFoundClient).2.2.2.2.2 (by decide)⟩

/-- C18: on a successful import of a generic image registry (the lookup by
name answers 200 with exactly one integration, whatever that integration
holds) the password of the one resource returned is the password of the
data passed to the importer. The data an importer is handed holds the
identifier and no password, which is the hypothesis `hdata`; the resource
returned holds none either, and nothing of the response is written to it. -/
theorem registry_import_password (data : ResourceData) (cli : ClientWrap) (resp : Response)
    (integration : StorageImageIntegration) (docker : StorageDockerConfig)
    (hdata : data.Get "password" = none)
    (herr : (cli.GetImageIntegrations data.id).err = none)
    (hresp : (cli.GetImageIntegrations data.id).resp = some resp)
    (hstatus : resp.StatusCode = StatusOK)
    (hone : (cli.GetImageIntegrations data.id).result.Integrations = [integration])
    (hdocker : integration.Docker = some docker) :
    ∃ res, (stackRoxGenericImageRegistryImportState data cli).outcome =
        Exec.returns ([res], none) ∧
      res.id = integration.Id ∧
      res.Get "password" = data.Get "password" ∧
      res.GetString "password" = data.GetString "password" := by
  refine ⟨⟨integration.Id, [], [], true⟩, ?_, rfl, ?_, ?_⟩
  · simp [stackRoxGenericImageRegistryImportState, herr, hresp, hstatus, hone,
      stackRoxGenericImageRegistrySetState, hdocker, ResourceData.Set, zeroResourceData,
      ResourceData.SetId]
  · rw [hdata]
    rfl
  · simp only [ResourceData.GetString, hdata]
    rfl

/-- Witness for C18: the data of an import by the name `reg`, and a remote
whose lookup finds one integration. -/
theorem registry_import_password_witness :
    ∃ res, (stackRoxGenericImageRegistryImportState (bareData "reg")
          (registryLookupClient [remoteRegistry "i1"])).outcome =
        Exec.returns ([res], none) ∧
      res.id = (remoteRegistry "i1").Id ∧
      res.Get "password" = (bareData "reg").Get "password" ∧
      res.GetString "password" = (bareData "reg").GetString "password" :=
  registry_import_password (bareData "reg") (registryLookupClient [remoteRegistry "i1"])
    ⟨200, "200 OK"⟩ (remoteRegistry "i1") ⟨"https://registry.example", "puller", "", false⟩
    (by decide) rfl rfl rfl rfl rfl

/-- C19: on a successful import of a splunk integration (the lookup answers
200 with a splunk notifier whose truncate string is a number) the
`hec_token` of the one resource returned is the `hec_token` of the data
passed to the importer. The data an importer is handed holds the
identifier and no token, which is the hypothesis `hdata`; the importer
reads nothing but the identifier from it, and the resource returned holds
no token either. -/
theorem splunk_import_hec_token (data : ResourceData) (cli : ClientWrap) (resp : Response)
    (splunk : StorageSplunk) (truncate : Int)
    (hdata : data.Get "hec_token" = none)
    (herr : (cli.GetNotifier data.id).err = none)
    (hresp : (cli.GetNotifier data.id).resp = some resp)
    (hstatus : resp.StatusCode = StatusOK)
    (hsplunk : (cli.GetNotifier data.id).result.Splunk = some splunk)
    (htruncate : strconvAtoi splunk.Truncate = Except.ok truncate) :
    ∃ res, (stackRoxSplunkIntegrationImportState data cli).outcome =
        Exec.returns ([res], none) ∧
      res.id = data.id ∧
      res.Get "hec_token" = data.Get "hec_token" ∧
      res.GetString "hec_token" = data.GetString "hec_token" := by
  refine ⟨⟨data.id, [], [], true⟩, ?_, rfl, ?_, ?_⟩
  · simp [stackRoxSplunkIntegrationImportState, herr, hresp, hstatus,
      stackRoxSplunkIntegrationSetState, hsplunk, htruncate, ResourceData.Set,
      zeroResourceData, ResourceData.SetId]
  · rw [hdata]
    rfl
  · simp only [ResourceData.GetString, hdata]
    rfl

/-- Witness for C19: the data of an import by the identifier `n1`, and a
remote whose lookup finds the notifier. -/
theorem splunk_import_hec_token_witness :
    ∃ res, (stackRoxSplunkIntegrationImportState (bareData "n1") notifierLookupClient).outcome =
        Exec.returns ([res], none) ∧
      res.id = (bareData "n1").id ∧
      res.Get "hec_token" = (bareData "n1").Get "hec_token" ∧
      res.GetString "hec_token" = (bareData "n1").GetString "hec_token" :=
  splunk_import_hec_token (bareData "n1") notifierLookupClient ⟨200, "200 OK"⟩
    ⟨"https://hec", "", false, "10000", true⟩ 10000 (by decide) rfl rfl rfl rfl (by rfl)

/-! ## The group batch of the auth provider -/

theorem oktaAuthProviderRead_calls (data : ResourceData) (cli : ClientWrap) :
    ∀ c ∈ (stackRoxOktaAuthProviderRead data cli).calls, ∀ body, c ≠ ApiCall.BatchUpdate body := by
  unfold stackRoxOktaAuthProviderRead
  generalize cli.GetAuthProvider data.id = r
  generalize cli.FindGroups data.id = g
  obtain ⟨res, resp, err⟩ := r
  obtain ⟨gres, gresp, gerr⟩ := g
  cases resp <;> cases err <;> cases gerr <;> simp only [] <;> (repeat' split) <;>
    simp

theorem authProviderSyncGroups_calls (data : ResourceData) (cli : ClientWrap)
    (calls : List ApiCall) :
    ∃ tail, (authProviderSyncGroups data cli calls).calls =
        calls ++ [ApiCall.BatchUpdate ⟨requiredGroupsFrom data⟩] ++ tail ∧
      ∀ c ∈ tail, ∀ body, c ≠ ApiCall.BatchUpdate body := by
  unfold authProviderSyncGroups
  cases h : (cli.BatchUpdate ⟨requiredGroupsFrom data⟩).err with
  | some e => exact ⟨[], by simp [h], by simp⟩
  | none => exact ⟨(stackRoxOktaAuthProviderRead data cli).calls, by simp [h],
      oktaAuthProviderRead_calls data cli⟩

/-- C20, as stated, fails: when the provider fields have planned changes
and the entity call returns an error, Create and Update return that error
after the entity call alone; no batch group update is sent. -/
theorem okta_write_sends_no_batch_when_entity_call_fails :
    (authProviderConfig "" true).HasChanges authProviderTrackedKeys = true ∧
    stackRoxOktaAuthProviderCreate (authProviderConfig "" true) internalErrorClient =
      ⟨Exec.returns (some (GoError.api "500 Internal Server Error")),
        authProviderConfig "" true,
        [ApiCall.PostAuthProvider (authProviderMessage (authProviderConfig "" true))]⟩ ∧
    stackRoxOktaAuthProviderUpdate (authProviderConfig "a3" true) internalErrorClient =
      ⟨Exec.returns (some (GoError.api "500 Internal Server Error")),
        authProviderConfig "a3" true,
        [ApiCall.PutAuthProvider "a3" (authProviderMessage (authProviderConfig "a3" true))]⟩ := by
  decide

/-- C20, amended: for the auth provider resource, Create and Update send
exactly one batch group update whenever the entity call, if one is made,
returns no error, whether or not a provider field has a planned change. Its
required-groups list is the configured group blocks mapped in order, each
entry carrying its block's role, key and value and, as auth-provider id,
the resource's identifier at that point: the one the entity call returned
when there was such a call, the incoming one otherwise. When the entity
call returns an error, that error is returned and no batch update is sent. -/
theorem okta_write_sends_complete_group_list (data : ResourceData) (cli : ClientWrap) :
    (data.HasChanges ["name", "type", "ui_endpoint", "enabled", "idp_metadata_url",
        "sp_issuer"] = false →
      (∃ tail, (stackRoxOktaAuthProviderCreate data cli).calls =
          [ApiCall.BatchUpdate ⟨(data.GetBlocks "group").map (fun g =>
            ⟨mapIndex g "role", ⟨data.id, mapIndex g "key", mapIndex g "value"⟩⟩)⟩] ++ tail ∧
        ∀ c ∈ tail, ∀ body, c ≠ ApiCall.BatchUpdate body) ∧
      (∃ tail, (stackRoxOktaAuthProviderUpdate data cli).calls =
          [ApiCall.BatchUpdate ⟨(data.GetBlocks "group").map (fun g =>
            ⟨mapIndex g "role", ⟨data.id, mapIndex g "key", mapIndex g "value"⟩⟩)⟩] ++ tail ∧
        ∀ c ∈ tail, ∀ body, c ≠ ApiCall.BatchUpdate body)) ∧
    (data.HasChanges ["name", "type", "ui_endpoint", "enabled", "idp_metadata_url",
        "sp_issuer"] = true →
      ((cli.PostAuthProvider (authProviderMessage data)).err = none →
        ∃ tail, (stackRoxOktaAuthProviderCreate data cli).calls =
          [ApiCall.PostAuthProvider (authProviderMessage data),
            ApiCall.BatchUpdate ⟨(data.GetBlocks "group").map (fun g =>
              ⟨mapIndex g "role",
                ⟨(cli.PostAuthProvider (authProviderMessage data)).result.Id,
                  mapIndex g "key", mapIndex g "value"⟩⟩)⟩] ++ tail ∧
          ∀ c ∈ tail, ∀ body, c ≠ ApiCall.BatchUpdate body) ∧
      ((cli.PutAuthProvider data.id (authProviderMessage data)).err = none →
        ∃ tail, (stackRoxOktaAuthProviderUpdate data cli).calls =
          [ApiCall.PutAuthProvider data.id (authProviderMessage data),
            ApiCall.BatchUpdate ⟨(data.GetBlocks "group").map (fun g =>
              ⟨mapIndex g "role",
                ⟨(cli.PutAuthProvider data.id (authProviderMessage data)).result.Id,
                  mapIndex g "key", mapIndex g "value"⟩⟩)⟩] ++ tail ∧
          ∀ c ∈ tail, ∀ body, c ≠ ApiCall.BatchUpdate body) ∧
      (∀ e, (cli.PostAuthProvider (authProviderMessage data)).err = some e →
        stackRoxOktaAuthProviderCreate data cli =
          ⟨Exec.returns (some e), data,
            [ApiCall.PostAuthProvider (authProviderMessage data)]⟩) ∧
      (∀ e, (cli.PutAuthProvider data.id (authProviderMessage data)).err = some e →
        stackRoxOktaAuthProviderUpdate data cli =
          ⟨Exec.returns (some e), data,
            [ApiCall.PutAuthProvider data.id (authProviderMessage data)]⟩)) := by
  constructor
  · intro h
    have h2 : data.HasChanges authProviderTrackedKeys = false := h
    obtain ⟨tail, ht, hn⟩ := authProviderSyncGroups_calls data cli []
    constructor
    · exact ⟨tail, by simpa [stackRoxOktaAuthProviderCreate, h2] using ht, hn⟩
    · exact ⟨tail, by simpa [stackRoxOktaAuthProviderUpdate, h2] using ht, hn⟩
  · intro h
    have h2 : data.HasChanges authProviderTrackedKeys = true := h
    refine ⟨fun herr => ?_, fun herr => ?_, fun e herr => ?_, fun e herr => ?_⟩
    · obtain ⟨tail, ht, hn⟩ := authProviderSyncGroups_calls
        (data.SetId (cli.PostAuthProvider (authProviderMessage data)).result.Id) cli
        [ApiCall.PostAuthProvider (authProviderMessage data)]
      exact ⟨tail, by simpa [stackRoxOktaAuthProviderCreate, h2, herr] using ht, hn⟩
    · obtain ⟨tail, ht, hn⟩ := authProviderSyncGroups_calls
        (data.SetId (cli.PutAuthProvider data.id (authProviderMessage data)).result.Id) cli
        [ApiCall.PutAuthProvider data.id (authProviderMessage data)]
      exact ⟨tail, by simpa [stackRoxOktaAuthProviderUpdate, h2, herr] using ht, hn⟩
    · simp [stackRoxOktaAuthProviderCreate, h2, herr]
    · simp [stackRoxOktaAuthProviderUpdate, h2, herr]

/-- Witness for C20 (amended): a Create whose entity call is answered with
the identifier `a7`, and an Update without a planned change of a provider
field. -/
theorem okta_write_sends_complete_group_list_witness :
    (∃ tail, (stackRoxOktaAuthProviderCreate (authProviderConfig "" true)
        authProviderAcceptingClient).calls =
        [ApiCall.PostAuthProvider (authProviderMessage (authProviderConfig "" true)),
          ApiCall.BatchUpdate ⟨((authProviderConfig "" true).GetBlocks "group").map (fun g =>
            ⟨mapIndex g "role",
              ⟨(authProviderAcceptingClient.PostAuthProvider
                  (authProviderMessage (authProviderConfig "" true))).result.Id,
                mapIndex g "key", mapIndex g "value"⟩⟩)⟩] ++ tail ∧
        ∀ c ∈ tail, ∀ body, c ≠ ApiCall.BatchUpdate body) ∧
    (∃ tail, (stackRoxOktaAuthProviderUpdate (authProviderConfig "a3" false)
        authProviderAcceptingClient).calls =
        [ApiCall.BatchUpdate ⟨((authProviderConfig "a3" false).GetBlocks "group").map (fun g =>
          ⟨mapIndex g "role",
            ⟨(authProviderConfig "a3" false).id, mapIndex g "key", mapIndex g "value"⟩⟩)⟩] ++
          tail ∧
        ∀ c ∈ tail, ∀ body, c ≠ ApiCall.BatchUpdate body) :=
  ⟨((okta_write_sends_complete_group_list (authProviderConfig "" true)
      authProviderAcceptingClient).2 (by decide)).1 rfl,
    ((okta_write_sends_complete_group_list (authProviderConfig "a3" false)
      authProviderAcceptingClient).1 (by decide)).2⟩

/-! ## The two-call write of the auth provider, and provider start-up -/

/-- C21: when the entity call of Create returns no error and the result
has identifier X, and the batch group update then returns the error `e`,
Create returns `e`, the resource data holds the identifier X and is
otherwise as it was, and the calls issued are the entity call and the batch
update and nothing else: no delete, no other compensating call, no Read. -/
theorem okta_create_partial_write (data : ResourceData) (cli : ClientWrap) (e : GoError)
    (hch : data.HasChanges ["name", "type", "ui_endpoint", "enabled", "idp_metadata_url",
      "sp_issuer"] = true)
    (hpost : (cli.PostAuthProvider (authProviderMessage data)).err = none)
    (hbatch : (cli.BatchUpdate ⟨requiredGroupsFrom
      (data.SetId (cli.PostAuthProvider (authProviderMessage data)).result.Id)⟩).err =
        some e) :
    stackRoxOktaAuthProviderCreate data cli =
      ⟨Exec.returns (some e),
        data.SetId (cli.PostAuthProvider (authProviderMessage data)).result.Id,
        [ApiCall.PostAuthProvider (authProviderMessage data),
          ApiCall.BatchUpdate ⟨requiredGroupsFrom
            (data.SetId (cli.PostAuthProvider (authProviderMessage data)).result.Id)⟩]⟩ ∧
    (stackRoxOktaAuthProviderCreate data cli).data.id =
      (cli.PostAuthProvider (authProviderMessage data)).result.Id := by
  have h2 : data.HasChanges authProviderTrackedKeys = true := hch
  have hc : stackRoxOktaAuthProviderCreate data cli =
      ⟨Exec.returns (some e),
        data.SetId (cli.PostAuthProvider (authProviderMessage data)).result.Id,
        [ApiCall.PostAuthProvider (authProviderMessage data),
          ApiCall.BatchUpdate ⟨requiredGroupsFrom
            (data.SetId (cli.PostAuthProvider (authProviderMessage data)).result.Id)⟩]⟩ := by
    simp [stackRoxOktaAuthProviderCreate, h2, hpost, authProviderSyncGroups, hbatch]
  exact ⟨hc, by rw [hc]; rfl⟩

/-- Witness for C21: the remote accepts the auth provider under `a7` and
refuses the group batch. -/
theorem okta_create_partial_write_witness :
    stackRoxOktaAuthProviderCreate (authProviderConfig "" true) batchRefusingClient =
      ⟨Exec.returns (some (GoError.api "500 Internal Server Error")),
        (authProviderConfig "" true).SetId
          (batchRefusingClient.PostAuthProvider
            (authProviderMessage (authProviderConfig "" true))).result.Id,
        [ApiCall.PostAuthProvider (authProviderMessage (authProviderConfig "" true)),
          ApiCall.BatchUpdate ⟨requiredGroupsFrom
            ((authProviderConfig "" true).SetId
              (batchRefusingClient.PostAuthProvider
                (authProviderMessage (authProviderConfig "" true))).result.Id)⟩]⟩ ∧
    (stackRoxOktaAuthProviderCreate (authProviderConfig "" true) batchRefusingClient).data.id =
      (batchRefusingClient.PostAuthProvider
        (authProviderMessage (authProviderConfig "" true))).result.Id :=
  okta_create_partial_write (authProviderConfig "" true) batchRefusingClient
    (GoError.api "500 Internal Server Error") (by decide) rfl rfl

/-- C22: for every provider block and every remote, `providerConfigure`
builds the client with the username `admin` and the endpoint and password
of the block, issues exactly one call, the sensor upgrade configuration
update with `EnableAutoUpgrade` false, and returns the error of that call. -/
theorem providerConfigure_disables_auto_upgrade (data : ResourceData) (remote : ClientWrap) :
    (providerConfigure data remote).client.username = "admin" ∧
    (providerConfigure data remote).client.endpoint = data.GetString "endpoint" ∧
    (providerConfigure data remote).client.password = data.GetString "admin_password" ∧
    (providerConfigure data remote).calls =
      [ApiCall.UpdateSensorUpgradeConfig ⟨⟨false⟩⟩] ∧
    (providerConfigure data remote).err =
      (remote.UpdateSensorUpgradeConfig ⟨⟨false⟩⟩).err := by
  exact ⟨rfl, rfl, rfl, rfl, rfl⟩

/-- C23 at the failing input: the validator of `cluster_id` accepts a string
that only contains a UUID between other characters, because the pattern
has no anchors. It accepts the UUID itself and rejects a string without
one with the message `not a UUID`. -/
theorem cluster_id_validator_accepts_embedded_uuid :
    validationStringMatchUuid "x01234567-89ab-cdef-0123-456789abcdefzz" "cluster_id" = [] ∧
    (schemaValidateFunc resourceStackRoxKubernetesClusterSchema "cluster_id").map
        (fun validate => validate "x01234567-89ab-cdef-0123-456789abcdefzz" "cluster_id") =
      some [] ∧
    validationStringMatchUuid "01234567-89ab-cdef-0123-456789abcdef" "cluster_id" = [] ∧
    validationStringMatchUuid "0123456789abcdef0123456789abcdef" "cluster_id" =
      [GoError.errorf "invalid value for %s (%s)" ["cluster_id", "not a UUID"]] := by
  decide

/-- C24: for every optional boolean `p`, parsing with
`stackRoxBoolPtrFromTerraform` the string `stackRoxTerraformBoolFromMessage`
gives for `p` returns `p`; absent is the empty string, true and false are
`true` and `false`, three different strings. -/
theorem privileged_roundtrip (p : Option Bool) :
    stackRoxBoolPtrFromTerraform (some (stackRoxTerraformBoolFromMessage p)) =
      Exec.returns p ∧
    stackRoxTerraformBoolFromMessage none = "" ∧
    stackRoxTerraformBoolFromMessage (some true) = "true" ∧
    stackRoxTerraformBoolFromMessage (some false) = "false" ∧
    stackRoxTerraformBoolFromMessage none ≠ stackRoxTerraformBoolFromMessage (some true) ∧
    stackRoxTerraformBoolFromMessage none ≠ stackRoxTerraformBoolFromMessage (some false) ∧
    stackRoxTerraformBoolFromMessage (some true) ≠
      stackRoxTerraformBoolFromMessage (some false) := by
  refine ⟨?_, by decide, by decide, by decide, by decide, by decide, by decide⟩
  rcases p with _ | b
  · decide
  · cases b <;> decide

/-! ## The groups of an auth provider -/

theorem appendMatching_eq_filter (authProviderId : String) (groups : List StorageGroup) :
    ∀ result, appendMatching authProviderId groups result =
      result ++ groups.filter (fun g => decide (g.Props.AuthProviderId = authProviderId)) := by
  induction groups with
  | nil => intro result; simp [appendMatching]
  | cons g rest ih =>
    intro result
    by_cases h : g.Props.AuthProviderId = authProviderId
    · simp [appendMatching, h, ih, List.filter]
    · simp [appendMatching, h, ih, List.filter]

/-- C25: when the exchange succeeds (a request, a response with status 200,
a body that is read and decoded into the group list `groups`),
`FindGroups` returns, with the response and a nil error, exactly the groups
of `groups` whose `Props.AuthProviderId` is the given identifier, in their
order and with repetitions kept (the list filtered): every returned group
has that identifier, every group of `groups` with that identifier is
returned, and when there is none the result is the empty list and no error. -/
theorem findGroups_filters_by_provider (exchange : GroupsExchange) (authProviderId : String)
    (resp : Response) (groups : List StorageGroup)
    (hreq : exchange.requestErr = none) (hdo : exchange.doErr = none)
    (hresp : exchange.resp = some resp) (hread : exchange.readErr = none)
    (hstatus : resp.StatusCode = StatusOK) (hdec : exchange.decoded = Except.ok groups) :
    FindGroups exchange authProviderId =
      Exec.returns ⟨groups.filter (fun g => decide (g.Props.AuthProviderId = authProviderId)),
        some resp, none⟩ ∧
    (∀ g ∈ groups.filter (fun g => decide (g.Props.AuthProviderId = authProviderId)),
      g.Props.AuthProviderId = authProviderId) ∧
    (∀ g ∈ groups, g.Props.AuthProviderId = authProviderId →
      g ∈ groups.filter (fun g => decide (g.Props.AuthProviderId = authProviderId))) ∧
    ((∀ g ∈ groups, g.Props.AuthProviderId ≠ authProviderId) →
      FindGroups exchange authProviderId = Exec.returns ⟨[], some resp, none⟩) := by
  have hfind : FindGroups exchange authProviderId =
      Exec.returns ⟨groups.filter (fun g => decide (g.Props.AuthProviderId = authProviderId)),
        some resp, none⟩ := by
    simp [FindGroups, hreq, hdo, hresp, hread, hstatus, hdec, appendMatching_eq_filter]
  refine ⟨hfind, ?_, ?_, ?_⟩
  · intro g hg
    simpa using (List.mem_filter.mp hg).2
  · intro g hg hid
    exact List.mem_filter.mpr ⟨hg, by simpa using hid⟩
  · intro hnone
    rw [hfind]
    have : groups.filter (fun g => decide (g.Props.AuthProviderId = authProviderId)) = [] := by
      rw [List.filter_eq_nil_iff]
      intro g hg
      simpa using hnone g hg
    rw [this]

/-- Witness for C25: three groups, two of them of the provider `a7`. -/
theorem findGroups_filters_by_provider_witness :
    FindGroups (groupsExchange [groupOf "a7" "Admin", groupOf "b2" "None", groupOf "a7" "Admin"])
        "a7" =
      Exec.returns ⟨[groupOf "a7" "Admin", groupOf "b2" "None", groupOf "a7" "Admin"].filter
          (fun g => decide (g.Props.AuthProviderId = "a7")),
        some ⟨200, "200 OK"⟩, none⟩ ∧
    [groupOf "a7" "Admin", groupOf "b2" "None", groupOf "a7" "Admin"].filter
        (fun g => decide (g.Props.AuthProviderId = "a7")) =
      [groupOf "a7" "Admin", groupOf "a7" "Admin"] :=
  ⟨(findGroups_filters_by_provider
      (groupsExchange [groupOf "a7" "Admin", groupOf "b2" "None", groupOf "a7" "Admin"]) "a7"
      ⟨200, "200 OK"⟩ [groupOf "a7" "Admin", groupOf "b2" "None", groupOf "a7" "Admin"]
      rfl rfl rfl rfl rfl rfl).1, by decide⟩

/-! ## The vocabularies of severity and lifecycle stage -/

theorem lifecycleStage_index (s : String) (h : s ∈ ["BUILD", "DEPLOY", "RUNTIME"]) :
    mapIndex lifecycleStagesMap s = s := by
  simp only [List.mem_cons, List.mem_singleton, List.not_mem_nil, or_false] at h
  rcases h with rfl | rfl | rfl <;> decide

/-- C26: `severityFrom` returns an error exactly when its argument is not
one of LOW_SEVERITY, MEDIUM_SEVERITY, HIGH_SEVERITY, CRITICAL_SEVERITY, the
match being exact (the lower-case spelling is refused); each of the four
names gives the severity constant of that name, and the four constants are
pairwise different. -/
theorem severityFrom_rejects_unrecognised (s : String) :
    ((severityFrom s).2 ≠ none ↔
      s ∉ ["LOW_SEVERITY", "MEDIUM_SEVERITY", "HIGH_SEVERITY", "CRITICAL_SEVERITY"]) ∧
    severityFrom "LOW_SEVERITY" = (STORAGESEVERITY_LOW_SEVERITY, none) ∧
    severityFrom "MEDIUM_SEVERITY" = (STORAGESEVERITY_MEDIUM_SEVERITY, none) ∧
    severityFrom "HIGH_SEVERITY" = (STORAGESEVERITY_HIGH_SEVERITY, none) ∧
    severityFrom "CRITICAL_SEVERITY" = (STORAGESEVERITY_CRITICAL_SEVERITY, none) ∧
    List.Pairwise (fun a b => a ≠ b)
      [STORAGESEVERITY_LOW_SEVERITY, STORAGESEVERITY_MEDIUM_SEVERITY,
        STORAGESEVERITY_HIGH_SEVERITY, STORAGESEVERITY_CRITICAL_SEVERITY] ∧
    severityFrom "low_severity" = ("", some (GoError.errorf "Unsupported severity" [])) ∧
    severityFrom " LOW_SEVERITY" = ("", some (GoError.errorf "Unsupported severity" [])) := by
  refine ⟨?_, by decide, by decide, by decide, by decide, by decide, by decide, by decide⟩
  rw [Ne, severityFrom_error_iff]

/-- C27: `lifecycleStagesFrom` returns an error exactly when some element of
its argument is not one of BUILD, DEPLOY, RUNTIME, and then it returns no
list; otherwise the result has the length of the argument and its i-th
element is the entry of `lifecycleStagesMap` under the i-th input, which for
BUILD, DEPLOY and RUNTIME is the stage constant of that name. The empty
list gives the empty list. -/
theorem lifecycleStagesFrom_maps_elementwise (l : List String) :
    ((lifecycleStagesFrom l).2 ≠ none ↔ ∃ s ∈ l, s ∉ ["BUILD", "DEPLOY", "RUNTIME"]) ∧
    ((lifecycleStagesFrom l).2 ≠ none → (lifecycleStagesFrom l).1 = []) ∧
    ((lifecycleStagesFrom l).2 = none →
      (lifecycleStagesFrom l).1.length = l.length ∧
      (lifecycleStagesFrom l).1 = l.map (mapIndex lifecycleStagesMap) ∧
      ∀ (i : Nat) (h : i < l.length),
        (lifecycleStagesFrom l).1[i]? = some (mapIndex lifecycleStagesMap (l.get ⟨i, h⟩))) ∧
    mapIndex lifecycleStagesMap "BUILD" = STORAGELIFECYCLESTAGE_BUILD ∧
    mapIndex lifecycleStagesMap "DEPLOY" = STORAGELIFECYCLESTAGE_DEPLOY ∧
    mapIndex lifecycleStagesMap "RUNTIME" = STORAGELIFECYCLESTAGE_RUNTIME ∧
    lifecycleStagesFrom [] = ([], none) := by
  refine ⟨?_, ?_, ?_, by decide, by decide, by decide, by decide⟩
  · rw [Ne, lifecycleStagesFrom_error_iff]
    push_neg
    rfl
  · intro herr
    have hbad : ∃ s ∈ l, s ∉ ["BUILD", "DEPLOY", "RUNTIME"] := by
      rw [Ne, lifecycleStagesFrom_error_iff] at herr
      push_neg at herr
      exact herr
    simp only [lifecycleStagesFrom, lifecycleStagesLoop_unknown l [] hbad]
  · intro hok
    have hall : ∀ s ∈ l, s ∈ ["BUILD", "DEPLOY", "RUNTIME"] :=
      (lifecycleStagesFrom_error_iff l).mp hok
    have hmap : l.map (mapIndex lifecycleStagesMap) = l := by
      conv_rhs => rw [← List.map_id l]
      exact List.map_congr_left (fun s hs => lifecycleStage_index s (hall s hs))
    have hres : (lifecycleStagesFrom l).1 = l := by
      simp [lifecycleStagesFrom, lifecycleStagesLoop_known l [] hall]
    refine ⟨by rw [hres], by rw [hres, hmap], ?_⟩
    intro i h
    rw [hres, lifecycleStage_index _ (hall _ (List.get_mem l i h))]
    simp [List.getElem?_eq_getElem h]

/-- Witness for C27: a list of two known stages. -/
theorem lifecycleStagesFrom_maps_elementwise_witness :
    (lifecycleStagesFrom ["BUILD", "RUNTIME"]).2 = none ∧
    (lifecycleStagesFrom ["BUILD", "RUNTIME"]).1.length = ["BUILD", "RUNTIME"].length ∧
    (lifecycleStagesFrom ["BUILD", "RUNTIME"]).1 =
      ["BUILD", "RUNTIME"].map (mapIndex lifecycleStagesMap) ∧
    ((lifecycleStagesFrom ["BUILD", "runtime"]).2 ≠ none ∧
      (lifecycleStagesFrom ["BUILD", "runtime"]).1 = []) :=
  ⟨by decide,
    ((lifecycleStagesFrom_maps_elementwise ["BUILD", "RUNTIME"]).2.2.1 (by decide)).1,
    ((lifecycleStagesFrom_maps_elementwise ["BUILD", "RUNTIME"]).2.2.1 (by decide)).2.1,
    by decide,
    (lifecycleStagesFrom_maps_elementwise ["BUILD", "runtime"]).2.1 (by decide)⟩

/-! ## Projecting a remote entity into local state -/

theorem registrySetState_password (data : ResourceData) (src : StorageImageIntegration) :
    (stackRoxGenericImageRegistrySetState data src).2.Get "password" = data.Get "password" := by
  unfold stackRoxGenericImageRegistrySetState
  cases src.Docker with
  | none => exact get_set_other data "name" "password" _ (by decide)
  | some docker =>
    simp only
    rw [get_set_other _ "username" "password" _ (by decide),
      get_set_other _ "endpoint" "password" _ (by decide),
      get_set_other _ "name" "password" _ (by decide)]

theorem splunkSetState_hec_token (data : ResourceData) (src : StorageNotifier) :
    (stackRoxSplunkIntegrationSetState data src).2.Get "hec_token" = data.Get "hec_token" := by
  unfold stackRoxSplunkIntegrationSetState
  cases src.Splunk with
  | none => rfl
  | some splunk =>
    simp only
    cases strconvAtoi splunk.Truncate with
    | error err => rfl
    | ok truncate =>
      simp only
      rw [get_set_other _ "audit_logging_enabled" "hec_token" _ (by decide),
        get_set_other _ "ui_endpoint" "hec_token" _ (by decide),
        get_set_other _ "truncate" "hec_token" _ (by decide),
        get_set_other _ "hec_endpoint" "hec_token" _ (by decide),
        get_set_other _ "name" "hec_token" _ (by decide)]

theorem registryRead_password (data : ResourceData) (cli : ClientWrap) :
    (stackRoxGenericImageRegistryRead data cli).data.Get "password" = data.Get "password" := by
  unfold stackRoxGenericImageRegistryRead
  have h := registrySetState_password data (cli.GetImageIntegration data.id).result
  simp only
  repeat' split
  all_goals first | rfl | (rename_i heq; rw [heq] at h; exact h)

theorem splunkRead_hec_token (data : ResourceData) (cli : ClientWrap) :
    (stackRoxSplunkIntegrationRead data cli).data.Get "hec_token" = data.Get "hec_token" := by
  unfold stackRoxSplunkIntegrationRead
  have h := splunkSetState_hec_token data (cli.GetNotifier data.id).result
  simp only
  repeat' split
  all_goals first | rfl | (rename_i heq; rw [heq] at h; exact h)

theorem registrySetState_projects (data : ResourceData) (image : StorageImageIntegration)
    (docker : StorageDockerConfig) (hs : data.schemaless = false)
    (hd : image.Docker = some docker) :
    (stackRoxGenericImageRegistrySetState data image).1 = Exec.returns () ∧
    (stackRoxGenericImageRegistrySetState data image).2.Get "name" =
      some (TfValue.str image.Name) ∧
    (stackRoxGenericImageRegistrySetState data image).2.Get "endpoint" =
      some (TfValue.str docker.Endpoint) ∧
    (stackRoxGenericImageRegistrySetState data image).2.Get "username" =
      some (TfValue.str docker.Username) := by
  simp only [stackRoxGenericImageRegistrySetState, hd]
  refine ⟨trivial, ?_, ?_, ?_⟩
  · rw [get_set_other _ "username" "name" _ (by decide),
      get_set_other _ "endpoint" "name" _ (by decide), get_set_same _ _ _ hs]
  · rw [get_set_other _ "username" "endpoint" _ (by decide),
      get_set_same _ _ _ (by rw [set_schemaless]; exact hs)]
  · rw [get_set_same _ _ _ (by rw [set_schemaless, set_schemaless]; exact hs)]

theorem splunkSetState_projects (data : ResourceData) (notifier : StorageNotifier)
    (splunk : StorageSplunk) (truncate : Int) (hs : data.schemaless = false)
    (hsp : notifier.Splunk = some splunk)
    (hat : strconvAtoi splunk.Truncate = Except.ok truncate) :
    (stackRoxSplunkIntegrationSetState data notifier).1 = Exec.returns none ∧
    (stackRoxSplunkIntegrationSetState data notifier).2.Get "name" =
      some (TfValue.str notifier.Name) ∧
    (stackRoxSplunkIntegrationSetState data notifier).2.Get "hec_endpoint" =
      some (TfValue.str splunk.HttpEndpoint) ∧
    (stackRoxSplunkIntegrationSetState data notifier).2.Get "truncate" =
      some (TfValue.int truncate) ∧
    (stackRoxSplunkIntegrationSetState data notifier).2.Get "ui_endpoint" =
      some (TfValue.str notifier.UiEndpoint) ∧
    (stackRoxSplunkIntegrationSetState data notifier).2.Get "audit_logging_enabled" =
      some (TfValue.bool splunk.AuditLoggingEnabled) := by
  simp only [stackRoxSplunkIntegrationSetState, hsp, hat]
  refine ⟨trivial, ?_, ?_, ?_, ?_, ?_⟩
  · rw [get_set_other _ "audit_logging_enabled" "name" _ (by decide),
      get_set_other _ "ui_endpoint" "name" _ (by decide),
      get_set_other _ "truncate" "name" _ (by decide),
      get_set_other _ "hec_endpoint" "name" _ (by decide), get_set_same _ _ _ hs]
  · rw [get_set_other _ "audit_logging_enabled" "hec_endpoint" _ (by decide),
      get_set_other _ "ui_endpoint" "hec_endpoint" _ (by decide),
      get_set_other _ "truncate" "hec_endpoint" _ (by decide),
      get_set_same _ _ _ (by rw [set_schemaless]; exact hs)]
  · rw [get_set_other _ "audit_logging_enabled" "truncate" _ (by decide),
      get_set_other _ "ui_endpoint" "truncate" _ (by decide),
      get_set_same _ _ _ (by rw [set_schemaless, set_schemaless]; exact hs)]
  · rw [get_set_other _ "audit_logging_enabled" "ui_endpoint" _ (by decide),
      get_set_same _ _ _ (by rw [set_schemaless, set_schemaless, set_schemaless]; exact hs)]
  · rw [get_set_same _ _ _
      (by rw [set_schemaless, set_schemaless, set_schemaless, set_schemaless]; exact hs)]

theorem registryRead_of_found (data : ResourceData) (cli : ClientWrap) (resp : Response)
    (docker : StorageDockerConfig)
    (herr : (cli.GetImageIntegration data.id).err = none)
    (hresp : (cli.GetImageIntegration data.id).resp = some resp)
    (hstatus : resp.StatusCode = StatusOK)
    (hd : (cli.GetImageIntegration data.id).result.Docker = some docker) :
    stackRoxGenericImageRegistryRead data cli =
      ⟨Exec.returns none,
        (stackRoxGenericImageRegistrySetState data (cli.GetImageIntegration data.id).result).2,
        [ApiCall.GetImageIntegration data.id]⟩ := by
  simp [stackRoxGenericImageRegistryRead, herr, hresp, hstatus, StatusOK, StatusNotFound,
    stackRoxGenericImageRegistrySetState, hd]

theorem splunkRead_of_found (data : ResourceData) (cli : ClientWrap) (splunk : StorageSplunk)
    (truncate : Int)
    (hstatus : (cli.GetNotifier data.id).status ≠ some StatusNotFound)
    (hsp : (cli.GetNotifier data.id).result.Splunk = some splunk)
    (hat : strconvAtoi splunk.Truncate = Except.ok truncate) :
    stackRoxSplunkIntegrationRead data cli =
      ⟨Exec.returns none,
        (stackRoxSplunkIntegrationSetState data (cli.GetNotifier data.id).result).2,
        [ApiCall.GetNotifier data.id]⟩ := by
  simp [stackRoxSplunkIntegrationRead, hstatus, stackRoxSplunkIntegrationSetState, hsp, hat]

/-- C28: for every prior state and every remote entity,
`stackRoxGenericImageRegistrySetState` leaves `password` as it was and
`stackRoxSplunkIntegrationSetState` leaves `hec_token` as it was, and so do
the two Read functions for every remote answer. When the lookup of Read
finds the entity (for the registry: no error, status 200, a docker block;
for the splunk integration: a status other than 404, a splunk block, a
truncate string that is a number) and the state has a schema, Read returns
a nil error and the state after it holds the remote values of `name` and of
the other projected fields, next to the secret it held before. The same
holds for the two SetState functions on their own. -/
theorem setState_keeps_write_only_fields (data : ResourceData) (cli : ClientWrap)
    (image : StorageImageIntegration) (notifier : StorageNotifier) :
    (stackRoxGenericImageRegistrySetState data image).2.Get "password" = data.Get "password" ∧
    (stackRoxSplunkIntegrationSetState data notifier).2.Get "hec_token" =
      data.Get "hec_token" ∧
    (stackRoxGenericImageRegistryRead data cli).data.Get "password" = data.Get "password" ∧
    (stackRoxSplunkIntegrationRead data cli).data.Get "hec_token" = data.Get "hec_token" ∧
    (data.schemaless = false → ∀ docker, image.Docker = some docker →
      (stackRoxGenericImageRegistrySetState data image).1 = Exec.returns () ∧
      (stackRoxGenericImageRegistrySetState data image).2.Get "name" =
        some (TfValue.str image.Name) ∧
      (stackRoxGenericImageRegistrySetState data image).2.Get "endpoint" =
        some (TfValue.str docker.Endpoint) ∧
      (stackRoxGenericImageRegistrySetState data image).2.Get "username" =
        some (TfValue.str docker.Username)) ∧
    (data.schemaless = false → ∀ splunk truncate, notifier.Splunk = some splunk →
      strconvAtoi splunk.Truncate = Except.ok truncate →
      (stackRoxSplunkIntegrationSetState data notifier).1 = Exec.returns none ∧
      (stackRoxSplunkIntegrationSetState data notifier).2.Get "name" =
        some (TfValue.str notifier.Name) ∧
      (stackRoxSplunkIntegrationSetState data notifier).2.Get "hec_endpoint" =
        some (TfValue.str splunk.HttpEndpoint) ∧
      (stackRoxSplunkIntegrationSetState data notifier).2.Get "truncate" =
        some (TfValue.int truncate) ∧
      (stackRoxSplunkIntegrationSetState data notifier).2.Get "ui_endpoint" =
        some (TfValue.str notifier.UiEndpoint) ∧
      (stackRoxSplunkIntegrationSetState data notifier).2.Get "audit_logging_enabled" =
        some (TfValue.bool splunk.AuditLoggingEnabled)) ∧
    (data.schemaless = false → ∀ resp docker,
      (cli.GetImageIntegration data.id).err = none →
      (cli.GetImageIntegration data.id).resp = some resp → resp.StatusCode = StatusOK →
      (cli.GetImageIntegration data.id).result.Docker = some docker →
      (stackRoxGenericImageRegistryRead data cli).outcome = Exec.returns none ∧
      (stackRoxGenericImageRegistryRead data cli).data.Get "name" =
        some (TfValue.str (cli.GetImageIntegration data.id).result.Name) ∧
      (stackRoxGenericImageRegistryRead data cli).data.Get "endpoint" =
        some (TfValue.str docker.Endpoint) ∧
      (stackRoxGenericImageRegistryRead data cli).data.Get "username" =
        some (TfValue.str docker.Username) ∧
      (stackRoxGenericImageRegistryRead data cli).data.Get "password" =
        data.Get "password") ∧
    (data.schemaless = false → ∀ splunk truncate,
      (cli.GetNotifier data.id).status ≠ some StatusNotFound →
      (cli.GetNotifier data.id).result.Splunk = some splunk →
      strconvAtoi splunk.Truncate = Except.ok truncate →
      (stackRoxSplunkIntegrationRead data cli).outcome = Exec.returns none ∧
      (stackRoxSplunkIntegrationRead data cli).data.Get "name" =
        some (TfValue.str (cli.GetNotifier data.id).result.Name) ∧
      (stackRoxSplunkIntegrationRead data cli).data.Get "hec_endpoint" =
        some (TfValue.str splunk.HttpEndpoint) ∧
      (stackRoxSplunkIntegrationRead data cli).data.Get "truncate" =
        some (TfValue.int truncate) ∧
      (stackRoxSplunkIntegrationRead data cli).data.Get "ui_endpoint" =
        some (TfValue.str (cli.GetNotifier data.id).result.UiEndpoint) ∧
      (stackRoxSplunkIntegrationRead data cli).data.Get "audit_logging_enabled" =
        some (TfValue.bool splunk.AuditLoggingEnabled) ∧
      (stackRoxSplunkIntegrationRead data cli).data.Get "hec_token" =
        data.Get "hec_token") := by
  refine ⟨registrySetState_password data image, splunkSetState_hec_token data notifier,
    registryRead_password data cli, splunkRead_hec_token data cli, ?_, ?_, ?_, ?_⟩
  · intro hs docker hd
    exact registrySetState_projects data image docker hs hd
  · intro hs splunk truncate hsp hat
    exact splunkSetState_projects data notifier splunk truncate hs hsp hat
  · intro hs resp docker herr hresp hstatus hd
    have hp := registrySetState_projects data _ docker hs hd
    have hsecret := registryRead_password data cli
    rw [registryRead_of_found data cli resp docker herr hresp hstatus hd] at hsecret ⊢
    exact ⟨rfl, hp.2.1, hp.2.2.1, hp.2.2.2, hsecret⟩
  · intro hs splunk truncate hstatus hsp hat
    have hp := splunkSetState_projects data _ splunk truncate hs hsp hat
    have hsecret := splunkRead_hec_token data cli
    rw [splunkRead_of_found data cli splunk truncate hstatus hsp hat] at hsecret ⊢
    exact ⟨rfl, hp.2.1, hp.2.2.1, hp.2.2.2.1, hp.2.2.2.2.1, hp.2.2.2.2.2, hsecret⟩

/-- Witness for C28: Read of a registry whose state holds the password
`hunter2` and Read of a splunk integration whose state holds the token
`s3cret`, against remotes that return the entities. -/
theorem setState_keeps_write_only_fields_witness :
    ((stackRoxGenericImageRegistryRead registryState registryReadClient).outcome =
        Exec.returns none ∧
      (stackRoxGenericImageRegistryRead registryState registryReadClient).data.Get "name" =
        some (TfValue.str "reg") ∧
      (stackRoxGenericImageRegistryRead registryState registryReadClient).data.Get "endpoint" =
        some (TfValue.str "https://registry.example") ∧
      (stackRoxGenericImageRegistryRead registryState registryReadClient).data.Get "username" =
        some (TfValue.str "puller") ∧
      (stackRoxGenericImageRegistryRead registryState registryReadClient).data.Get "password" =
        registryState.Get "password") ∧
    registryState.Get "password" = some (TfValue.str "hunter2") ∧
    ((stackRoxSplunkIntegrationRead splunkState notifierLookupClient).outcome =
        Exec.returns none ∧
      (stackRoxSplunkIntegrationRead splunkState notifierLookupClient).data.Get "name" =
        some (TfValue.str "siem") ∧
      (stackRoxSplunkIntegrationRead splunkState notifierLookupClient).data.Get "hec_endpoint" =
        some (TfValue.str "https://hec") ∧
      (stackRoxSplunkIntegrationRead splunkState notifierLookupClient).data.Get "truncate" =
        some (TfValue.int 10000) ∧
      (stackRoxSplunkIntegrationRead splunkState notifierLookupClient).data.Get "ui_endpoint" =
        some (TfValue.str "https://ui") ∧
      (stackRoxSplunkIntegrationRead splunkState notifierLookupClient).data.Get
          "audit_logging_enabled" = some (TfValue.bool true) ∧
      (stackRoxSplunkIntegrationRead splunkState notifierLookupClient).data.Get "hec_token" =
        splunkState.Get "hec_token") ∧
    splunkState.Get "hec_token" = some (TfValue.str "s3cret") :=
  ⟨(setState_keeps_write_only_fields registryState registryReadClient (remoteRegistry "i1")
      (notifierLookupClient.GetNotifier "n1").result).2.2.2.2.2.2.1 (by decide) ⟨200, "200 OK"⟩
      ⟨"https://registry.example", "puller", "", false⟩ rfl rfl rfl rfl,
    by decide,
    (setState_keeps_write_only_fields splunkState notifierLookupClient (remoteRegistry "i1")
      (notifierLookupClient.GetNotifier "n1").result).2.2.2.2.2.2.2 (by decide)
      ⟨"https://hec", "", false, "10000", true⟩ 10000 (by decide) rfl (by rfl),
    by decide⟩

/-! ## Text after the integer of a CVSS criterion -/

/-- C29: `stackRoxCvssFromTerraform` succeeds on `>= 3.5` and on `>= 3 abc`
and returns for both what it returns for `>= 3`, the numerical policy with
the operator GREATER_THAN_OR_EQUALS and the value 3: three different
accepted strings with one result, the fraction `.5` being dropped. -/
theorem cvss_from_terraform_ignores_trailing_text :
    stackRoxCvssFromTerraform (some ">= 3") =
      Exec.returns (some ⟨STORAGECOMPARATOR_GREATER_THAN_OR_EQUALS, 3⟩) ∧
    stackRoxCvssFromTerraform (some ">= 3.5") = stackRoxCvssFromTerraform (some ">= 3") ∧
    stackRoxCvssFromTerraform (some ">= 3 abc") = stackRoxCvssFromTerraform (some ">= 3") ∧
    ">= 3.5" ≠ ">= 3" ∧ ">= 3 abc" ≠ ">= 3" ∧ ">= 3.5" ≠ ">= 3 abc" := by
  decide

/-! ## A truncate string that is not a number -/

theorem strconvAtoi_not_decimal (s : String)
    (hbad : ¬ ∃ ds : List Char, ds ≠ [] ∧ (∀ c ∈ ds, isDecimalDigit c = true) ∧
      (s.data = ds ∨ s.data = '+' :: ds ∨ s.data = '-' :: ds)) :
    strconvAtoi s = Except.error (GoError.strconv "Atoi" s) := by
  unfold strconvAtoi
  cases hd : s.data with
  | nil => rfl
  | cons c cs =>
    simp only
    rw [if_pos]
    by_contra hcon
    apply hbad
    rw [Bool.or_eq_true, not_or] at hcon
    obtain ⟨hne, hall⟩ := hcon
    refine ⟨if c = '+' ∨ c = '-' then cs else c :: cs, ?_, ?_, ?_⟩
    · intro h
      rw [h] at hne
      exact hne rfl
    · intro x hx
      simp only [Bool.not_eq_true, Bool.not_eq_true', Bool.not_eq_false] at hall
      exact List.all_eq_true.mp hall x hx
    · rw [hd]
      by_cases hp : c = '+'
      · subst hp
        simp
      · by_cases hm : c = '-'
        · subst hm
          simp
        · simp [hp, hm]

/-- C30: when the truncate string of the remote splunk notifier is not a
run of decimal digits with an optional sign, `stackRoxSplunkIntegrationSetState`
returns the error of `strconv.Atoi` and the resource data it was given,
no field written; and `stackRoxSplunkIntegrationRead`, when the lookup that
gave this notifier did not answer 404, returns a nil error with the resource
data unchanged after the one lookup call. -/
theorem splunk_read_hides_truncate_error (data : ResourceData) (cli : ClientWrap)
    (src : StorageNotifier) (splunk : StorageSplunk)
    (hsplunk : src.Splunk = some splunk)
    (hbad : ¬ ∃ ds : List Char, ds ≠ [] ∧ (∀ c ∈ ds, isDecimalDigit c = true) ∧
      (splunk.Truncate.data = ds ∨ splunk.Truncate.data = '+' :: ds ∨
        splunk.Truncate.data = '-' :: ds))
    (hresult : (cli.GetNotifier data.id).result = src)
    (hstatus : (cli.GetNotifier data.id).status ≠ some StatusNotFound) :
    stackRoxSplunkIntegrationSetState data src =
      (Exec.returns (some (GoError.strconv "Atoi" splunk.Truncate)), data) ∧
    stackRoxSplunkIntegrationRead data cli =
      ⟨Exec.returns none, data, [ApiCall.GetNotifier data.id]⟩ := by
  have hset : stackRoxSplunkIntegrationSetState data src =
      (Exec.returns (some (GoError.strconv "Atoi" splunk.Truncate)), data) := by
    simp only [stackRoxSplunkIntegrationSetState, hsplunk,
      strconvAtoi_not_decimal splunk.Truncate hbad]
  refine ⟨hset, ?_⟩
  simp only [stackRoxSplunkIntegrationRead, hresult, hset, if_neg hstatus]

/-- Witness for C30: the remote answers 200 with the truncate string `10k`. -/
theorem splunk_read_hides_truncate_error_witness :
    stackRoxSplunkIntegrationSetState splunkState (badTruncateClient.GetNotifier "n1").result =
      (Exec.returns (some (GoError.strconv "Atoi" "10k")), splunkState) ∧
    stackRoxSplunkIntegrationRead splunkState badTruncateClient =
      ⟨Exec.returns none, splunkState, [ApiCall.GetNotifier splunkState.id]⟩ :=
  splunk_read_hides_truncate_error splunkState badTruncateClient
    (badTruncateClient.GetNotifier "n1").result ⟨"https://hec", "", false, "10k", true⟩
    rfl
    (by
      rintro ⟨ds, _, hall, h | h | h⟩
      · have h2 : ds = ['1', '0', 'k'] := h.symm
        subst h2
        exact absurd (hall 'k' (by decide)) (by decide)
      · have h2 : ['1', '0', 'k'] = '+' :: ds := h
        simp at h2
      · have h2 : ['1', '0', 'k'] = '-' :: ds := h
        simp at h2)
    rfl (by decide)

end StackRox
